import Mathlib

/-!
rpg-game: combat core

A shallow embedding of the combat components of the game
(`src/health_component.cpp`, `src/attack_component.cpp`, `src/unit.cpp`)
together with the properties they satisfy.

Conventions of the embedding

* In the embedding of the ticks and of the orders, C++ `float` and `double`
  values are exact rationals (`ℚ`): rounding, infinities and NaN are left
  out there, and the float literals `1.7f`, `0.1f`, `0.3f` are read as the
  decimal fractions they denote.
* The properties of `HealthComponent` and of the stat setters of
  `AttackComponent` that range over every `float` argument are stated over a
  second embedding of the same member functions, on the values of the type
  `float` itself (`Binary32`: NaN, infinities, finite numbers, arithmetic
  rounded to nearest, ties to even; namespace `OnFloat`).
* A pointer to an engine object (`godot::Object*`, `Unit*`) is an
  `Option ObjectId`; `none` is `nullptr`.
* `emit_signal` is synchronous and fire-and-forget: every operation returns the
  list of signals it emitted, in emission order.
* `UtilityFunctions::print` calls (console logging) have no effect on any
  state and are left out; `push_error` calls are recorded.
* Engine functions that are not code of the game (`Vector3::length`,
  `Vector3::is_equal_approx`, the navigation agent's next path position) are
  parameters, gathered in `Engine`; the properties of `Unit` hold for every
  engine.  `int32_t` counters are integers; the frame counter stays below 4.
-/

namespace RpgGame

/-! ## Helpers from the C++ standard library -/

/-- Identity of a live engine object. -/
abbrev ObjectId := Nat

/-- The function `std::max(a, b)`: `(a < b) ? b : a`. -/
def std_max (a b : ℚ) : ℚ := if a < b then b else a

/-- The function `std::min(a, b)`: `(b < a) ? b : a`. -/
def std_min (a b : ℚ) : ℚ := if b < a then b else a

/-- The function `std::clamp(v, lo, hi)`: `(v < lo) ? lo : (hi < v) ? hi : v`. -/
def std_clamp (v lo hi : ℚ) : ℚ := if v < lo then lo else if hi < v then hi else v

/-! ## HealthComponent (`src/health_component.hpp`, `src/health_component.cpp`) -/

/-- The data members of `HealthComponent`. -/
structure HealthComponent where
  max_health : ℚ
  current_health : ℚ
deriving DecidableEq, Repr

/-- The signals registered in `HealthComponent::_bind_methods`. -/
inductive HealthSignal where
  | health_changed (current : ℚ) (max : ℚ)
  | died (source : Option ObjectId)
  | damage_taken (amount : ℚ)
deriving DecidableEq, Repr

/-- What one call of `HealthComponent::apply_damage` produces: the component
afterwards, the signals emitted (in order) and the returned `bool`. -/
structure DamageOutcome where
  state : HealthComponent
  signals : List HealthSignal
  result : Bool
deriving DecidableEq, Repr

namespace HealthComponent

/-- The member initialisers of `health_component.hpp`:
`max_health = 100.0f`, `current_health = 100.0f`. -/
def initial : HealthComponent := { max_health := 100, current_health := 100 }

/-- `HealthComponent::set_max_health`. -/
def set_max_health (s : HealthComponent) (value : ℚ) :
    HealthComponent × List HealthSignal :=
  let max_health := std_max 0 value
  let current_health :=
    if s.current_health > max_health then max_health else s.current_health
  ({ max_health := max_health, current_health := current_health },
    [HealthSignal.health_changed current_health max_health])

/-- `HealthComponent::get_max_health`. -/
def get_max_health (s : HealthComponent) : ℚ := s.max_health

/-- `HealthComponent::set_current_health`. -/
def set_current_health (s : HealthComponent) (value : ℚ) :
    HealthComponent × List HealthSignal :=
  let current_health := std_clamp value 0 s.max_health
  ({ s with current_health := current_health },
    HealthSignal.health_changed current_health s.max_health ::
      (if current_health ≤ 0 then [HealthSignal.died none] else []))

/-- `HealthComponent::get_current_health`. -/
def get_current_health (s : HealthComponent) : ℚ := s.current_health

/-- `HealthComponent::is_dead`. -/
def is_dead (s : HealthComponent) : Bool := decide (s.current_health ≤ 0)

/-- `HealthComponent::apply_damage`. -/
def apply_damage (s : HealthComponent) (amount : ℚ) (source : Option ObjectId) :
    DamageOutcome :=
  let amount := if amount < 0 then 0 else amount
  let current_health := std_max 0 (s.current_health - amount)
  let s1 : HealthComponent := { s with current_health := current_health }
  let emitted :=
    [HealthSignal.damage_taken amount,
     HealthSignal.health_changed current_health s.max_health]
  if current_health ≤ 0 then
    { state := s1, signals := emitted ++ [HealthSignal.died source], result := true }
  else
    { state := s1, signals := emitted, result := false }

/-- `HealthComponent::heal`. -/
def heal (s : HealthComponent) (amount : ℚ) : HealthComponent × List HealthSignal :=
  let amount := if amount < 0 then 0 else amount
  let current_health := std_min s.max_health (s.current_health + amount)
  ({ s with current_health := current_health },
    [HealthSignal.health_changed current_health s.max_health])

/-- The range invariant of the data model: `0 ≤ current_health ≤ max_health`. -/
def InRange (s : HealthComponent) : Prop :=
  0 ≤ s.current_health ∧ s.current_health ≤ s.max_health

/-- A run of `apply_damage` calls on one component with nothing in between:
the final component and every signal emitted, in order. -/
def apply_damage_seq (s : HealthComponent) :
    List (ℚ × Option ObjectId) → HealthComponent × List HealthSignal
  | [] => (s, [])
  | (amount, source) :: rest =>
    let o := apply_damage s amount source
    let r := apply_damage_seq o.state rest
    (r.1, o.signals ++ r.2)

end HealthComponent

/-- Whether a signal is `died`. -/
def HealthSignal.is_died : HealthSignal → Bool
  | HealthSignal.died _ => true
  | _ => false

/-- How many `died` signals a log holds. -/
def died_count (log : List HealthSignal) : Nat := (log.filter HealthSignal.is_died).length

/-! ## AttackComponent (`src/attack_component.hpp`, `src/attack_component.cpp`) -/

/-- The enum `AttackDelivery`. -/
inductive AttackDelivery where
  | MELEE
  | PROJECTILE
deriving DecidableEq, Repr

/-- A `PackedScene` as far as `_fire_projectile` looks at it: whether the node
it instantiates is a `Projectile` (carrying the scene's `hit_radius`
property) or some other node. -/
inductive PackedScene where
  | projectile_root (hit_radius : ℚ)
  | other_root
deriving DecidableEq, Repr

/-- A spawned `Projectile` after `Projectile::setup`.  `in_tree` records
whether it was added as a child of the attack component's parent.  The
`direction` member is recomputed by every projectile tick before it is read
and is left out. -/
structure Projectile where
  attacker : Option ObjectId
  target : Option ObjectId
  damage : ℚ
  speed : ℚ
  hit_radius : ℚ
  in_tree : Bool
deriving DecidableEq, Repr

/-- What a component sees of a unit through a `Unit*`: `is_inside_tree()` and
the result of `get_component_by_class("HealthComponent")` cast to
`HealthComponent*` (`none` when the unit has no such child). -/
structure UnitView where
  inside_tree : Bool
  health : Option HealthComponent
deriving DecidableEq, Repr

/-- The units of the running scene, by object identity. -/
abbrev Units := ObjectId → UnitView

/-- The data members of `AttackComponent`, with `owner_unit` inherited from
`UnitComponent` and `has_parent` standing for `get_parent() != nullptr`. -/
structure AttackComponent where
  base_attack_time : ℚ
  attack_speed : ℚ
  attack_point : ℚ
  attack_range : ℚ
  attack_damage : ℚ
  delivery_type : AttackDelivery
  projectile_speed : ℚ
  time_until_next_attack : ℚ
  attack_windup_timer : ℚ
  in_attack_windup : Bool
  current_attack_target : Option ObjectId
  projectile_scene : Option PackedScene
  owner_unit : Option ObjectId
  has_parent : Bool
deriving DecidableEq, Repr

/-- The signals registered in `AttackComponent::_bind_methods`. -/
inductive AttackSignal where
  | attack_started (target : Option ObjectId)
  | attack_point_reached (target : Option ObjectId)
  | attack_hit (target : Option ObjectId) (damage : ℚ)
  | attack_speed_changed (speed_multiplier : ℚ)
deriving DecidableEq, Repr

/-- The calls of the stat setters of `AttackComponent`. -/
inductive StatSetter where
  | set_base_attack_time (bat : ℚ)
  | set_attack_speed (speed : ℚ)
  | set_attack_point (seconds : ℚ)
  | set_attack_range (range : ℚ)
  | set_attack_damage (damage : ℚ)
  | set_delivery_type (ty : ℤ)
  | set_projectile_speed (speed : ℚ)
  | set_projectile_scene (scene : Option PackedScene)
deriving DecidableEq, Repr

/-- What one call of `AttackComponent::try_fire_at` produces. -/
structure FireOutcome where
  state : AttackComponent
  signals : List AttackSignal
  result : Bool
deriving DecidableEq, Repr

/-- Everything an `AttackComponent` tick can touch: the component, the units
of the scene, and the logs of what was emitted, spawned and reported. -/
structure AttackTick where
  state : AttackComponent
  units : Units
  signals : List AttackSignal
  health_signals : List (ObjectId × HealthSignal)
  spawned : List Projectile
  errors : List String

namespace AttackComponent

/-- The member initialisers of `attack_component.hpp`, for a component with
the given owner. -/
def initial (owner_unit : Option ObjectId) (has_parent : Bool) : AttackComponent :=
  { base_attack_time := 17 / 10
    attack_speed := 100
    attack_point := 3 / 10
    attack_range := 5 / 2
    attack_damage := 10
    delivery_type := AttackDelivery.MELEE
    projectile_speed := 20
    time_until_next_attack := 0
    attack_windup_timer := 0
    in_attack_windup := false
    current_attack_target := none
    projectile_scene := none
    owner_unit := owner_unit
    has_parent := has_parent }

/-- `AttackComponent::set_base_attack_time`. -/
def set_base_attack_time (s : AttackComponent) (bat : ℚ) : AttackComponent :=
  { s with base_attack_time := std_max (1 / 10) bat }

/-- `AttackComponent::set_attack_speed`. -/
def set_attack_speed (s : AttackComponent) (speed : ℚ) : AttackComponent :=
  { s with attack_speed := std_max 1 speed }

/-- `AttackComponent::set_attack_point`. -/
def set_attack_point (s : AttackComponent) (seconds : ℚ) : AttackComponent :=
  { s with attack_point := std_max 0 seconds }

/-- `AttackComponent::set_attack_range`. -/
def set_attack_range (s : AttackComponent) (range : ℚ) : AttackComponent :=
  { s with attack_range := std_max (1 / 10) range }

/-- `AttackComponent::set_attack_damage`. -/
def set_attack_damage (s : AttackComponent) (damage : ℚ) : AttackComponent :=
  { s with attack_damage := std_max 0 damage }

/-- `AttackComponent::set_delivery_type`: `0` is melee, `1` is projectile,
any other value leaves the delivery type as it was. -/
def set_delivery_type (s : AttackComponent) (ty : ℤ) : AttackComponent :=
  if ty = 0 then { s with delivery_type := AttackDelivery.MELEE }
  else if ty = 1 then { s with delivery_type := AttackDelivery.PROJECTILE }
  else s

/-- `AttackComponent::set_projectile_speed`. -/
def set_projectile_speed (s : AttackComponent) (speed : ℚ) : AttackComponent :=
  { s with projectile_speed := std_max (1 / 10) speed }

/-- `AttackComponent::set_projectile_scene`. -/
def set_projectile_scene (s : AttackComponent) (scene : Option PackedScene) :
    AttackComponent :=
  { s with projectile_scene := scene }

/-- One stat setter call. -/
def apply_setter (s : AttackComponent) : StatSetter → AttackComponent
  | StatSetter.set_base_attack_time bat => s.set_base_attack_time bat
  | StatSetter.set_attack_speed speed => s.set_attack_speed speed
  | StatSetter.set_attack_point seconds => s.set_attack_point seconds
  | StatSetter.set_attack_range range => s.set_attack_range range
  | StatSetter.set_attack_damage damage => s.set_attack_damage damage
  | StatSetter.set_delivery_type ty => s.set_delivery_type ty
  | StatSetter.set_projectile_speed speed => s.set_projectile_speed speed
  | StatSetter.set_projectile_scene scene => s.set_projectile_scene scene

/-- A sequence of stat setter calls, first call first. -/
def apply_setters (s : AttackComponent) (calls : List StatSetter) : AttackComponent :=
  calls.foldl apply_setter s

/-- `AttackComponent::get_attack_interval`. -/
def get_attack_interval (s : AttackComponent) : ℚ :=
  let attack_speed_factor := s.attack_speed / 100
  s.base_attack_time / attack_speed_factor

/-- `AttackComponent::try_fire_at`.  `target` is the `Unit*` argument; `delta`
is accepted and never read, as in the source. -/
def try_fire_at (units : Units) (s : AttackComponent) (target : Option ObjectId)
    (_delta : ℚ) : FireOutcome :=
  match target with
  | none => { state := s, signals := [], result := false }
  | some t =>
    if !(units t).inside_tree then
      { state := s, signals := [], result := false }
    else if !s.in_attack_windup && decide (s.time_until_next_attack ≤ 0) then
      let s1 : AttackComponent :=
        { s with in_attack_windup := true
                 attack_windup_timer := 0
                 current_attack_target := some t }
      let speed_multiplier := s1.base_attack_time / s1.get_attack_interval
      { state := s1
        signals := [AttackSignal.attack_started (some t),
                    AttackSignal.attack_speed_changed speed_multiplier]
        result := false }
    else
      { state := s, signals := [], result := false }

/-- `AttackComponent::_fire_melee`. -/
def _fire_melee (c : AttackTick) (target : Option ObjectId) : AttackTick :=
  match target with
  | none => c
  | some t =>
    match (c.units t).health with
    | none =>
      { c with errors := c.errors ++ ["[AttackComponent] Target missing HealthComponent"] }
    | some target_health =>
      let o := target_health.apply_damage c.state.attack_damage c.state.owner_unit
      { c with
          units := Function.update c.units t { c.units t with health := some o.state }
          health_signals := c.health_signals ++ o.signals.map (fun sig => (t, sig))
          signals := c.signals ++ [AttackSignal.attack_hit (some t) c.state.attack_damage] }

/-- `AttackComponent::_fire_projectile`. -/
def _fire_projectile (c : AttackTick) (target : Option ObjectId) : AttackTick :=
  match target with
  | none => c
  | some t =>
    match c.state.projectile_scene with
    | none =>
      { c with errors := c.errors ++
          ["[AttackComponent] Projectile attack configured but projectile_scene is not set"] }
    | some PackedScene.other_root =>
      { c with errors := c.errors ++
          ["[AttackComponent] Projectile scene root must be a Projectile node"] }
    | some (PackedScene.projectile_root hit_radius) =>
      let projectile : Projectile :=
        { attacker := c.state.owner_unit
          target := some t
          damage := c.state.attack_damage
          speed := c.state.projectile_speed
          hit_radius := hit_radius
          in_tree := c.state.has_parent }
      { c with
          spawned := c.spawned ++ [projectile]
          signals := c.signals ++ [AttackSignal.attack_hit (some t) c.state.attack_damage] }

/-- The body of `if (attack_windup_timer >= attack_point)` in
`AttackComponent::_physics_process`: strike when the target is still valid
and alive, then leave the windup. -/
def reach_attack_point (c : AttackTick) : AttackTick :=
  let struck : AttackTick :=
    match c.state.current_attack_target with
    | none => c
    | some t =>
      if (c.units t).inside_tree then
        match (c.units t).health with
        | none => c
        | some target_health =>
          if !target_health.is_dead then
            let c1 :=
              match c.state.delivery_type with
              | AttackDelivery.MELEE => _fire_melee c (some t)
              | AttackDelivery.PROJECTILE => _fire_projectile c (some t)
            { c1 with
                signals := c1.signals ++ [AttackSignal.attack_point_reached (some t)]
                state := { c1.state with
                             time_until_next_attack := c1.state.get_attack_interval } }
          else c
      else c
  { struck with
      state := { struck.state with in_attack_windup := false
                                   current_attack_target := none } }

/-- `AttackComponent::_physics_process`.  `editor_hint` is
`Engine::get_singleton()->is_editor_hint()`. -/
def _physics_process (editor_hint : Bool) (units : Units) (s : AttackComponent)
    (delta : ℚ) : AttackTick :=
  let c0 : AttackTick :=
    { state := s, units := units, signals := [], health_signals := [],
      spawned := [], errors := [] }
  if editor_hint then c0
  else
    let s1 : AttackComponent :=
      if s.time_until_next_attack > 0 then
        { s with time_until_next_attack := s.time_until_next_attack - delta }
      else s
    if s1.in_attack_windup then
      let s2 : AttackComponent :=
        { s1 with attack_windup_timer := s1.attack_windup_timer + delta }
      if s2.attack_windup_timer ≥ s2.attack_point then
        reach_attack_point { c0 with state := s2 }
      else { c0 with state := s2 }
    else { c0 with state := s1 }

/-- The windup invariant of the data model: a component in windup has a
target. -/
def WindupHasTarget (s : AttackComponent) : Prop :=
  s.in_attack_windup = true → s.current_attack_target ≠ none

/-- The bounds the stat setters maintain. -/
def StatsInDomain (s : AttackComponent) : Prop :=
  0 ≤ s.attack_damage ∧ 0 ≤ s.projectile_speed ∧ 0 < s.attack_range ∧
    0 < s.base_attack_time ∧ 0 < s.attack_speed

end AttackComponent

/-! ## Vectors and the engine interface -/

/-- `godot::Vector3` with exact coordinates. -/
structure Vector3 where
  x : ℚ
  y : ℚ
  z : ℚ
deriving DecidableEq, Repr

namespace Vector3

/-- `Vector3::operator-`. -/
def sub (a b : Vector3) : Vector3 := { x := a.x - b.x, y := a.y - b.y, z := a.z - b.z }

/-- `Vector3::operator*(real_t)`. -/
def scale (a : Vector3) (k : ℚ) : Vector3 := { x := a.x * k, y := a.y * k, z := a.z * k }

/-- `Vector3::operator/(real_t)`. -/
def div (a : Vector3) (k : ℚ) : Vector3 := { x := a.x / k, y := a.y / k, z := a.z / k }

/-- The squared length `x² + y² + z²`. -/
def length_squared (a : Vector3) : ℚ := a.x * a.x + a.y * a.y + a.z * a.z

end Vector3

/-- The state of the `NavigationAgent3D` child that `Unit` talks to. -/
structure NavigationAgent where
  inside_tree : Bool
  target_position : Vector3
  target_desired_distance : ℚ
deriving DecidableEq, Repr

/-- The engine functions the sources call that are not code of the game:
`Vector3::length`, `Vector3::normalized`, `Vector3::is_equal_approx` and
`NavigationAgent3D::get_next_path_position`.  They are parameters of the
embedding; the properties are proved for every engine. -/
structure Engine where
  length : Vector3 → ℚ
  normalized : Vector3 → Vector3
  is_equal_approx : Vector3 → Vector3 → Bool
  get_next_path_position : NavigationAgent → Vector3

/-- The scalar `Math::is_equal_approx(a, b)` of the engine: equal, or closer
than `CMP_EPSILON * |a|`, with `CMP_EPSILON = 0.00001` as the least tolerance. -/
def scalar_is_equal_approx (a b : ℚ) : Bool :=
  if a = b then true
  else
    let tolerance := (1 / 100000) * |a|
    let tolerance := if tolerance < 1 / 100000 then 1 / 100000 else tolerance
    decide (|a - b| < tolerance)

/-- An engine for worked examples.  Lengths are rational square roots (exact
whenever the squared length is the square of a rational), `is_equal_approx`
compares coordinate by coordinate as the engine does, and the path to the
navigation target is a straight line, so the next path position is the
target itself. -/
def Engine.sample : Engine :=
  { length := fun v => Rat.sqrt v.length_squared
    normalized := fun v =>
      if Rat.sqrt v.length_squared = 0 then { x := 0, y := 0, z := 0 }
      else v.div (Rat.sqrt v.length_squared)
    is_equal_approx := fun a b =>
      scalar_is_equal_approx a.x b.x && scalar_is_equal_approx a.y b.y &&
        scalar_is_equal_approx a.z b.z
    get_next_path_position := fun nav => nav.target_position }

/-! ## Unit (`src/unit.hpp`, `src/unit.cpp`) -/

/-- The enum `Unit::OrderType`. -/
inductive OrderType where
  | NONE
  | MOVE
  | ATTACK
  | INTERACT
deriving DecidableEq, Repr

/-- The signal registered in `Unit::_bind_methods`. -/
inductive UnitSignal where
  | order_changed (previous_order : OrderType) (new_order : OrderType)
      (target : Option ObjectId)
deriving DecidableEq, Repr

/-- What a `Unit` reads of the other nodes of the scene: the units behind a
`Unit*` (`is_inside_tree()`, `get_health_component()`), the
`get_global_position()` of the node behind a pointer, and `is_inside_tree()` of
the node behind an `Interactable*`. -/
structure Scene where
  units : Units
  position : ObjectId → Vector3
  interactable_inside_tree : ObjectId → Bool

/-- The data members of `Unit`, together with what it uses of its
`CharacterBody3D` base (`is_inside_tree()`, global position, velocity, and
`facing`, the horizontal direction from whose yaw the transform basis was last
rebuilt) and of its children (`attack_component` is the result of
`get_attack_component()`).  `navigation_agent` is the cached handle, holding
the state of the agent it points to. -/
structure Unit where
  inside_tree : Bool
  global_position : Vector3
  velocity : Vector3
  facing : Vector3
  attack_component : Option AttackComponent
  navigation_agent : Option NavigationAgent
  desired_location : Vector3
  current_order : OrderType
  current_order_target : Option ObjectId
  attack_target : Option ObjectId
  interact_target : Option ObjectId
  speed : ℚ
  rotation_speed : ℚ
  auto_attack_range : ℚ
  attack_buffer_range : ℚ
  faction_id : ℤ
  is_ready : Bool
  frame_count : ℤ
deriving DecidableEq, Repr

/-- A `Unit` in the middle of an operation, with the logs of what the
operation did so far: signals of the unit, signals of its attack component,
the `try_fire_at` calls made (by target), the arguments of the `set_velocity`
calls, and the numbers of `get_next_path_position` and `move_and_slide`
calls. -/
structure UnitRun where
  state : Unit
  signals : List UnitSignal
  attack_signals : List AttackSignal
  try_fire_at_calls : List (Option ObjectId)
  velocity_writes : List Vector3
  next_path_queries : Nat
  move_and_slide_calls : Nat
  errors : List String
deriving DecidableEq, Repr

/-- `AttackComponent::get_attack_range`. -/
def AttackComponent.get_attack_range (s : AttackComponent) : ℚ := s.attack_range

namespace Unit

/-- The member initialisers of `unit.hpp`, for a unit placed at `position`
with the given attack component child. -/
def initial (position : Vector3) (attack_component : Option AttackComponent) : Unit :=
  { inside_tree := true
    global_position := position
    velocity := { x := 0, y := 0, z := 0 }
    facing := { x := 0, y := 0, z := -1 }
    attack_component := attack_component
    navigation_agent := none
    desired_location := { x := 0, y := 0, z := 0 }
    current_order := OrderType.NONE
    current_order_target := none
    attack_target := none
    interact_target := none
    speed := 5
    rotation_speed := 10
    auto_attack_range := 5 / 2
    attack_buffer_range := 1 / 2
    faction_id := 0
    is_ready := false
    frame_count := 0 }

/-- The start of an operation on `u`: nothing logged yet. -/
def start (u : Unit) : UnitRun :=
  { state := u, signals := [], attack_signals := [], try_fire_at_calls := [],
    velocity_writes := [], next_path_queries := 0, move_and_slide_calls := 0,
    errors := [] }

/-- `CharacterBody3D::set_velocity`. -/
def set_velocity (c : UnitRun) (v : Vector3) : UnitRun :=
  { c with state := { c.state with velocity := v }
           velocity_writes := c.velocity_writes ++ [v] }

/-- `CharacterBody3D::move_and_slide`: the physics step of the engine runs on
the velocity written before; here the call is counted. -/
def move_and_slide (c : UnitRun) : UnitRun :=
  { c with move_and_slide_calls := c.move_and_slide_calls + 1 }

/-- `Unit::_clear_order_targets`. -/
def _clear_order_targets (c : UnitRun) : UnitRun :=
  { c with state := { c.state with attack_target := none, interact_target := none } }

/-- `Unit::_set_order`. -/
def _set_order (c : UnitRun) (new_order : OrderType) (new_target : Option ObjectId) :
    UnitRun :=
  let previous_order := c.state.current_order
  let previous_target := c.state.current_order_target
  let c1 : UnitRun :=
    { c with state := { c.state with current_order := new_order
                                     current_order_target := new_target } }
  if previous_order ≠ c1.state.current_order ∨
      previous_target ≠ c1.state.current_order_target then
    { c1 with signals := c1.signals ++
        [UnitSignal.order_changed previous_order c1.state.current_order
          c1.state.current_order_target] }
  else c1

/-- `NavigationAgent3D::set_target_position` on the cached agent. -/
def nav_set_target_position (c : UnitRun) (p : Vector3) : UnitRun :=
  { c with state := { c.state with
      navigation_agent := c.state.navigation_agent.map
        (fun nav => { nav with target_position := p }) } }

/-- `NavigationAgent3D::set_target_desired_distance` on the cached agent. -/
def nav_set_target_desired_distance (c : UnitRun) (d : ℚ) : UnitRun :=
  { c with state := { c.state with
      navigation_agent := c.state.navigation_agent.map
        (fun nav => { nav with target_desired_distance := d }) } }

/-- `Unit::_apply_navigation_target_distance`. -/
def _apply_navigation_target_distance (c : UnitRun) : UnitRun :=
  if c.state.navigation_agent.isNone || !c.state.is_ready then c
  else
    match c.state.current_order with
    | OrderType.ATTACK => nav_set_target_desired_distance c c.state.auto_attack_range
    | OrderType.MOVE => nav_set_target_desired_distance c 0
    | OrderType.INTERACT => nav_set_target_desired_distance c 0
    | OrderType.NONE => nav_set_target_desired_distance c 0

/-- `Unit::_face_horizontal_direction`.  The source rebuilds the transform
basis from the yaw angle `atan2(-x, -z)` of the normalised horizontal
direction; the embedding keeps that direction. -/
def _face_horizontal_direction (E : Engine) (c : UnitRun) (direction : Vector3) :
    UnitRun :=
  let horizontal_direction := E.normalized { x := direction.x, y := 0, z := direction.z }
  if E.length horizontal_direction ≤ 1 / 1000 then c
  else { c with state := { c.state with facing := horizontal_direction } }

/-- `Unit::issue_move_order`. -/
def issue_move_order (c : UnitRun) (position : Vector3) : UnitRun :=
  let c1 := _set_order (_clear_order_targets c) OrderType.MOVE none
  let c2 : UnitRun := { c1 with state := { c1.state with desired_location := position } }
  if c2.state.navigation_agent.isSome && c2.state.is_ready then
    let c3 := _apply_navigation_target_distance c2
    nav_set_target_position c3 c3.state.desired_location
  else c2

/-- `Unit::issue_attack_order`. -/
def issue_attack_order (scene : Scene) (c : UnitRun) (target : Option ObjectId) :
    UnitRun :=
  let c1 := _clear_order_targets c
  let c2 : UnitRun := { c1 with state := { c1.state with attack_target := target } }
  let c3 := _set_order c2 OrderType.ATTACK target
  match c3.state.attack_target with
  | none => c3
  | some t =>
    if c3.state.navigation_agent.isSome && c3.state.is_ready &&
        (scene.units t).inside_tree then
      let c4 : UnitRun :=
        { c3 with state := { c3.state with desired_location := scene.position t } }
      let c5 := _apply_navigation_target_distance c4
      nav_set_target_position c5 c5.state.desired_location
    else c3

/-- `Unit::issue_interact_order`. -/
def issue_interact_order (scene : Scene) (c : UnitRun) (target : Option ObjectId) :
    UnitRun :=
  let c1 := _clear_order_targets c
  let c2 : UnitRun := { c1 with state := { c1.state with interact_target := target } }
  let c3 := _set_order c2 OrderType.INTERACT target
  match c3.state.interact_target with
  | none => c3
  | some t =>
    if c3.state.navigation_agent.isSome && c3.state.is_ready &&
        scene.interactable_inside_tree t then
      let c4 : UnitRun :=
        { c3 with state := { c3.state with desired_location := scene.position t } }
      let c5 := _apply_navigation_target_distance c4
      nav_set_target_position c5 c5.state.desired_location
    else c3

/-- `Unit::stop_order`. -/
def stop_order (c : UnitRun) : UnitRun :=
  let c1 := _set_order (_clear_order_targets c) OrderType.NONE none
  set_velocity c1 { x := 0, y := c1.state.velocity.y, z := 0 }

/-- `Unit::set_desired_location`. -/
def set_desired_location (c : UnitRun) (location : Vector3) : UnitRun :=
  issue_move_order c location

/-- `Unit::set_auto_attack_range`. -/
def set_auto_attack_range (c : UnitRun) (new_range : ℚ) : UnitRun :=
  let c1 : UnitRun := { c with state := { c.state with auto_attack_range := new_range } }
  if c1.state.current_order = OrderType.ATTACK ∧ c1.state.navigation_agent.isSome = true ∧
      c1.state.is_ready = true then
    _apply_navigation_target_distance c1
  else c1

/-- `Unit::set_attack_buffer_range`. -/
def set_attack_buffer_range (c : UnitRun) (new_buffer : ℚ) : UnitRun :=
  { c with state := { c.state with
      attack_buffer_range := if new_buffer < 0 then 0 else new_buffer } }

/-- The statement pair that recurs in `Unit::_physics_process`: read
`navigation_agent->get_target_position()` and, unless it `is_equal_approx` to
`desired_location`, call `set_target_position(desired_location)`. -/
def update_navigation_target (E : Engine) (c : UnitRun) : UnitRun :=
  match c.state.navigation_agent with
  | none => c
  | some nav =>
    let current_target := nav.target_position
    if !E.is_equal_approx current_target c.state.desired_location then
      nav_set_target_position c c.state.desired_location
    else c

/-- The shared movement path of `Unit::_physics_process` (from
`Vector3 current_target = navigation_agent->get_target_position();` to the
end of the function): MOVE, INTERACT, chase and NONE all end here. -/
def shared_movement (E : Engine) (c : UnitRun) : UnitRun :=
  let c1 := update_navigation_target E c
  match c1.state.navigation_agent with
  | none => c1
  | some nav =>
    let current_position := c1.state.global_position
    let next_position := E.get_next_path_position nav
    let c2 : UnitRun := { c1 with next_path_queries := c1.next_path_queries + 1 }
    let displacement := next_position.sub current_position
    let distance := E.length displacement
    if distance < 1 / 10 then
      move_and_slide (set_velocity c2 { x := 0, y := c2.state.velocity.y, z := 0 })
    else if distance > 1 / 1000 then
      let direction := displacement.div distance
      let velocity := direction.scale c2.state.speed
      let velocity : Vector3 := { velocity with y := c2.state.velocity.y }
      let c3 := set_velocity c2 velocity
      move_and_slide (_face_horizontal_direction E c3 direction)
    else
      move_and_slide (set_velocity c2 { x := 0, y := c2.state.velocity.y, z := 0 })

/-- The statement `if (distance_to_target > 0.001f)
_face_horizontal_direction(to_target / distance_to_target);` of the ATTACK
branch. -/
def face_target (E : Engine) (c : UnitRun) (to_target : Vector3)
    (distance_to_target : ℚ) : UnitRun :=
  if distance_to_target > 1 / 1000 then
    _face_horizontal_direction E c (to_target.div distance_to_target)
  else c

/-- The call `attack_comp->try_fire_at(attack_target, delta)` made by the unit on
its attack component `a`: the component is replaced by its state after the
call, its signals and the call are logged. -/
def strike (scene : Scene) (c : UnitRun) (a : AttackComponent) (t : ObjectId)
    (delta : ℚ) : UnitRun :=
  let o := a.try_fire_at scene.units (some t) delta
  { c with state := { c.state with attack_component := some o.state }
           attack_signals := c.attack_signals ++ o.signals
           try_fire_at_calls := c.try_fire_at_calls ++ [some t] }

/-- The statements `set_velocity(Vector3(0, get_velocity().y, 0));
move_and_slide();`. -/
def hold_velocity (c : UnitRun) : UnitRun :=
  move_and_slide (set_velocity c { x := 0, y := c.state.velocity.y, z := 0 })

/-- The body of `if (distance_to_target <= effective_attack_range)`: face the
target, keep the navigation target updated, attempt the attack and hold; with
no attack component, report the error and stop the order. -/
def hold_and_strike (E : Engine) (scene : Scene) (c : UnitRun) (t : ObjectId)
    (delta : ℚ) (to_target : Vector3) (distance_to_target : ℚ)
    (attack_comp : Option AttackComponent) : UnitRun :=
  let c3 := update_navigation_target E (face_target E c to_target distance_to_target)
  match attack_comp with
  | some a => hold_velocity (strike scene c3 a t delta)
  | none =>
    let c4 : UnitRun :=
      { c3 with errors := c3.errors ++ ["[Unit] ATTACK order requires AttackComponent"] }
    move_and_slide (stop_order c4)

/-- The statement `desired_location = target_pos;`. -/
def track (c : UnitRun) (target_pos : Vector3) : UnitRun :=
  { c with state := { c.state with desired_location := target_pos } }

/-- The horizontal offset from the unit to a point: `to_target = target_pos -
current_position` with `to_target.y = 0.0f`. -/
def horizontal_offset (u : Unit) (target_pos : Vector3) : Vector3 :=
  { target_pos.sub u.global_position with y := 0 }

/-- The `effective_attack_range` of the ATTACK branch: the `attack_range` of
the attack component when there is one, else `auto_attack_range`. -/
def effective_attack_range (u : Unit) : ℚ :=
  match u.attack_component with
  | some a => a.get_attack_range
  | none => u.auto_attack_range

/-- The ATTACK branch of `Unit::_physics_process` for a target `t` that is in
the tree and not reported dead: hold and strike within range, keep chasing in
the buffer zone, chase beyond it. -/
def attack_live_target (E : Engine) (scene : Scene) (c : UnitRun) (t : ObjectId)
    (delta : ℚ) : UnitRun :=
  let target_pos := scene.position t
  let c1 := track c target_pos
  let to_target := horizontal_offset c1.state target_pos
  let distance_to_target := E.length to_target
  let attack_comp := c1.state.attack_component
  let resume_distance := effective_attack_range c1.state + c1.state.attack_buffer_range
  if distance_to_target ≤ effective_attack_range c1.state then
    hold_and_strike E scene c1 t delta to_target distance_to_target attack_comp
  else if distance_to_target ≤ resume_distance then
    shared_movement E
      (update_navigation_target E (face_target E c1 to_target distance_to_target))
  else shared_movement E c1

/-- `Unit::_physics_process` from `if (current_order == OrderType::ATTACK)` on:
the tick of a unit whose navigation agent is resolved, in the tree and
settled. -/
def tick_orders (E : Engine) (scene : Scene) (c : UnitRun) (delta : ℚ) : UnitRun :=
  match c.state.current_order with
  | OrderType.ATTACK =>
    match c.state.attack_target with
    | none => shared_movement E (stop_order c)
    | some t =>
      if !(scene.units t).inside_tree then shared_movement E (stop_order c)
      else
        match (scene.units t).health with
        | some target_health =>
          if target_health.is_dead then shared_movement E (stop_order c)
          else attack_live_target E scene c t delta
        | none => attack_live_target E scene c t delta
  | OrderType.INTERACT =>
    match c.state.interact_target with
    | none => shared_movement E (stop_order c)
    | some t =>
      if !scene.interactable_inside_tree t then shared_movement E (stop_order c)
      else
        shared_movement E
          { c with state := { c.state with desired_location := scene.position t } }
  | OrderType.MOVE => shared_movement E c
  | OrderType.NONE => shared_movement E c

/-- `Unit::_physics_process`.  `editor_hint` is
`Engine::get_singleton()->is_editor_hint()` and `found` is what
`_find_navigation_agent()` returns when the handle is not cached yet. -/
def _physics_process (E : Engine) (editor_hint : Bool) (scene : Scene)
    (found : Option NavigationAgent) (u : Unit) (delta : ℚ) : UnitRun :=
  if editor_hint then start u
  else if !u.inside_tree then start u
  else
    let u1 : Unit :=
      if u.navigation_agent.isNone then { u with navigation_agent := found } else u
    match u1.navigation_agent with
    | none => start u1
    | some nav =>
      if !nav.inside_tree then start { u1 with frame_count := 0 }
      else if !u1.is_ready then
        let u2 : Unit := { u1 with frame_count := u1.frame_count + 1 }
        if u2.frame_count < 3 then start u2
        else
          tick_orders E scene
            (_apply_navigation_target_distance (start { u2 with is_ready := true })) delta
      else tick_orders E scene (start u1) delta

/-- A unit is ready when it is in the tree, its navigation handle is resolved
to an agent that is in the tree, and the settle delay has passed. -/
def Ready (u : Unit) : Prop :=
  u.inside_tree = true ∧ u.is_ready = true ∧
    ∃ nav, u.navigation_agent = some nav ∧ nav.inside_tree = true

/-- A target the ATTACK branch treats as live: in the tree, and with no
`HealthComponent` reporting dead. -/
def LiveTarget (scene : Scene) (t : ObjectId) : Prop :=
  (scene.units t).inside_tree = true ∧
    ∀ h, (scene.units t).health = some h → h.is_dead = false

/-- The velocity the shared movement path writes for a unit `u` whose next
path position is `next_position`: zero horizontally within 0.1 of it, else
`direction * speed`, always with the vertical velocity kept. -/
def path_velocity (E : Engine) (u : Unit) (next_position : Vector3) : Vector3 :=
  let displacement := next_position.sub u.global_position
  let distance := E.length displacement
  if distance < 1 / 10 then { x := 0, y := u.velocity.y, z := 0 }
  else if distance > 1 / 1000 then
    { (displacement.div distance).scale u.speed with y := u.velocity.y }
  else { x := 0, y := u.velocity.y, z := 0 }

/-- The navigation agent after `update_navigation_target`, for a desired
location `p`. -/
def retarget (E : Engine) (nav : NavigationAgent) (p : Vector3) : NavigationAgent :=
  if E.is_equal_approx nav.target_position p then nav else { nav with target_position := p }

/-- The ATTACK branch drops the order when the target is null, not in the
tree, or has a `HealthComponent` reporting dead. -/
def TargetGone (scene : Scene) (u : Unit) : Prop :=
  ∀ t, u.attack_target = some t →
    (scene.units t).inside_tree = false ∨
      ∃ h, (scene.units t).health = some h ∧ h.is_dead = true

end Unit

/-- The part of a unit operation that concerns orders and strikes: the order,
its target references, the attack component, and the logs of `try_fire_at`
calls and of signals. -/
def UnitRun.order_view (c : UnitRun) :
    OrderType × Option ObjectId × Option ObjectId × Option ObjectId ×
      Option AttackComponent × List (Option ObjectId) × List AttackSignal ×
      List UnitSignal :=
  (c.state.current_order, c.state.current_order_target, c.state.attack_target,
    c.state.interact_target, c.state.attack_component, c.try_fire_at_calls,
    c.attack_signals, c.signals)

/-! ## Sample values for worked examples -/

/-- A navigation agent in the tree whose target is `target`. -/
def sample_agent (target : Vector3) : NavigationAgent :=
  { inside_tree := true, target_position := target, target_desired_distance := 0 }

/-- A ready unit standing at the origin with default tuning (speed 5,
`auto_attack_range` 2.5, `attack_buffer_range` 0.5), the given attack
component, and a navigation agent aimed at `nav_target`; it holds no order. -/
def sample_unit (attack_component : Option AttackComponent) (nav_target : Vector3) :
    Unit :=
  { Unit.initial { x := 0, y := 0, z := 0 } attack_component with
      navigation_agent := some (sample_agent nav_target)
      is_ready := true }

/-- The unit `sample_unit` holding an ATTACK order on unit 1. -/
def sample_attacker (attack_component : Option AttackComponent) (nav_target : Vector3) :
    Unit :=
  { sample_unit attack_component nav_target with
      current_order := OrderType.ATTACK
      current_order_target := some 1
      attack_target := some 1 }

/-- A scene in which every node is in the tree and stands at `(x, 0, 0)`, and
every unit has the given health component. -/
def sample_scene (x : ℚ) (health : Option HealthComponent) : Scene :=
  { units := fun _ => { inside_tree := true, health := health }
    position := fun _ => { x := x, y := 0, z := 0 }
    interactable_inside_tree := fun _ => true }

/-! ## AttackComponent: runs of ticks and strike attempts -/

/-- One step in the life of an attack component: a physics tick of the engine
(outside the editor), or a `try_fire_at` call made by its unit.  Each step
sees the units of the scene as they are at that moment. -/
inductive AttackEvent where
  | tick (units : Units) (delta : ℚ)
  | fire (units : Units) (target : Option ObjectId) (delta : ℚ)

namespace AttackComponent

/-- The component and the signals it emits in one step. -/
def step (s : AttackComponent) : AttackEvent → AttackComponent × List AttackSignal
  | AttackEvent.tick units delta =>
    ((_physics_process false units s delta).state,
      (_physics_process false units s delta).signals)
  | AttackEvent.fire units target delta =>
    ((s.try_fire_at units target delta).state, (s.try_fire_at units target delta).signals)

/-- A run of steps, first step first: the final component and every signal
emitted, in order. -/
def run_events (s : AttackComponent) : List AttackEvent → AttackComponent × List AttackSignal
  | [] => (s, [])
  | e :: rest =>
    ((run_events (s.step e).1 rest).1, (s.step e).2 ++ (run_events (s.step e).1 rest).2)

/-- The sum of the deltas of the ticks of a run. -/
def elapsed : List AttackEvent → ℚ
  | [] => 0
  | AttackEvent.tick _ delta :: rest => delta + elapsed rest
  | AttackEvent.fire _ _ _ :: rest => elapsed rest

/-- A run, begun when `since` seconds of ticks have already passed, in which
every tick has a positive delta and every `try_fire_at` call is made while
the deltas summed so far stay below `limit`. -/
def FiresBefore (limit : ℚ) : ℚ → List AttackEvent → Prop
  | _, [] => True
  | since, AttackEvent.tick _ delta :: rest => 0 < delta ∧ FiresBefore limit (since + delta) rest
  | since, AttackEvent.fire _ _ _ :: rest => since < limit ∧ FiresBefore limit since rest

end AttackComponent

/-! ## Projectile (`src/projectile.hpp`, `src/projectile.cpp`) -/

/-- `Vector3::operator+`. -/
def Vector3.add (a b : Vector3) : Vector3 := { x := a.x + b.x, y := a.y + b.y, z := a.z + b.z }

/-- A `Projectile` node in flight: the members `Projectile::setup` fills
(`config`), its global position, the members `direction` and
`travel_distance`, and whether it has called `queue_free()`. -/
structure ProjectileNode where
  config : Projectile
  global_position : Vector3
  direction : Vector3
  travel_distance : ℚ
  queued_for_deletion : Bool
deriving DecidableEq, Repr

/-- What one projectile tick produces: the node, the units of the scene
afterwards, the signals emitted by the target's health component, and the
number of `apply_damage` calls made. -/
structure ProjectileTick where
  state : ProjectileNode
  units : Units
  health_signals : List (ObjectId × HealthSignal)
  apply_damage_calls : Nat

namespace Projectile

/-- `Node::queue_free`: the node is deleted at the end of the frame. -/
def queue_free (p : ProjectileNode) : ProjectileNode :=
  { p with queued_for_deletion := true }

/-- `Projectile::set_hit_radius`. -/
def set_hit_radius (p : ProjectileNode) (radius : ℚ) : ProjectileNode :=
  { p with config := { p.config with hit_radius := std_max 0 radius } }

/-- `Projectile::_physics_process`. -/
def _physics_process (E : Engine) (editor_hint : Bool) (scene : Scene) (p : ProjectileNode)
    (delta : ℚ) : ProjectileTick :=
  let idle : ProjectileTick :=
    { state := p, units := scene.units, health_signals := [], apply_damage_calls := 0 }
  if editor_hint then idle
  else
    match p.config.target with
    | none => { idle with state := queue_free p }
    | some t =>
      if !(scene.units t).inside_tree then { idle with state := queue_free p }
      else
        let current_pos := p.global_position
        let target_pos := scene.position t
        let to_target := target_pos.sub current_pos
        let distance_to_target := E.length to_target
        if distance_to_target ≤ p.config.hit_radius then
          match (scene.units t).health with
          | some target_health =>
            if !target_health.is_dead then
              let o := target_health.apply_damage p.config.damage p.config.attacker
              { state := queue_free p
                units := Function.update scene.units t
                  { scene.units t with health := some o.state }
                health_signals := o.signals.map (fun sig => (t, sig))
                apply_damage_calls := 1 }
            else { idle with state := queue_free p }
          | none => { idle with state := queue_free p }
        else if distance_to_target > 1 / 1000 then
          let direction := to_target.div distance_to_target
          let velocity := direction.scale p.config.speed
          { idle with
              state :=
                { p with
                    direction := direction
                    global_position := current_pos.add (velocity.scale delta)
                    travel_distance := p.travel_distance + p.config.speed * delta } }
        else idle

/-- A run of a projectile over physics frames, each with its own scene (the
target may move, die or leave) and delta.  A node that has called
`queue_free()` is deleted by the engine at the end of that frame and receives
no further tick.  The result is the final node and the number of
`apply_damage` calls made over the run. -/
def run (E : Engine) (p : ProjectileNode) : List (Scene × ℚ) → ProjectileNode × Nat
  | [] => (p, 0)
  | frame :: rest =>
    if p.queued_for_deletion then (p, 0)
    else
      ((run E (_physics_process E false frame.1 p frame.2).state rest).1,
        (_physics_process E false frame.1 p frame.2).apply_damage_calls +
          (run E (_physics_process E false frame.1 p frame.2).state rest).2)

end Projectile

/-- A projectile of the given speed and hit radius, aimed at unit 1 by unit 9
with damage 10, at the point `(x, 0, 0)`. -/
def sample_projectile (x speed hit_radius : ℚ) : ProjectileNode :=
  { config := { attacker := some 9, target := some 1, damage := 10, speed := speed,
                hit_radius := hit_radius, in_tree := true }
    global_position := { x := x, y := 0, z := 0 }
    direction := { x := 1, y := 0, z := 0 }
    travel_distance := 0
    queued_for_deletion := false }

/-! ## MovementComponent (`src/movement_component.hpp`, `src/movement_component.cpp`)

The header takes `OrderType` from `unit_order.hpp`, which is not among the
sources; the embedding uses the enum of `Unit`, which has the four names the
component switches on. -/

/-- The signals registered in `MovementComponent::_bind_methods`. -/
inductive MovementSignal where
  | movement_started
  | movement_stopped
deriving DecidableEq, Repr

/-- What a `MovementComponent` sees of its parent when the parent is a `Unit`:
`is_inside_tree()`, `get_health_component()`, the global position, and
`facing`, the horizontal direction from whose yaw the transform basis was last
rebuilt. -/
structure OwnerView where
  inside_tree : Bool
  health : Option HealthComponent
  global_position : Vector3
  facing : Vector3
deriving DecidableEq, Repr

/-- The data members of `MovementComponent`, with its `NavigationAgent3D` base
(`agent`; `agent.inside_tree` is the component's own `is_inside_tree()`) and
`is_queued_for_deletion()`. -/
structure MovementComponent where
  speed : ℚ
  rotation_speed : ℚ
  is_ready : Bool
  frame_count : ℤ
  was_moving : Bool
  agent : NavigationAgent
  queued_for_deletion : Bool
deriving DecidableEq, Repr

/-- What one call of `MovementComponent::process_movement` produces: the
component and its parent afterwards, the returned velocity and the signals
emitted. -/
structure MovementOutcome where
  state : MovementComponent
  parent : Option OwnerView
  velocity : Vector3
  signals : List MovementSignal
deriving DecidableEq, Repr

namespace MovementComponent

/-- The member initialisers of `movement_component.hpp`, around the given
navigation agent state. -/
def initial (agent : NavigationAgent) : MovementComponent :=
  { speed := 5, rotation_speed := 10, is_ready := false, frame_count := 0,
    was_moving := false, agent := agent, queued_for_deletion := false }

/-- `MovementComponent::set_speed`. -/
def set_speed (m : MovementComponent) (new_speed : ℚ) : MovementComponent :=
  { m with speed := new_speed }

/-- `MovementComponent::get_owner_unit`.  `parent` is `get_parent()` cast to
`Unit` (`none` when there is no parent or it is not a `Unit`). -/
def get_owner_unit (m : MovementComponent) (parent : Option OwnerView) : Option OwnerView :=
  if !m.agent.inside_tree then none else parent

/-- `MovementComponent::_apply_navigation_target_distance`. -/
def _apply_navigation_target_distance (m : MovementComponent) (parent : Option OwnerView)
    (order : OrderType) : MovementComponent :=
  if !m.is_ready || !m.agent.inside_tree then m
  else
    match order with
    | OrderType.ATTACK =>
      match get_owner_unit m parent with
      | some owner =>
        if owner.inside_tree then
          let attack_range : ℚ := 5 / 2
          { m with agent := { m.agent with target_desired_distance := attack_range } }
        else m
      | none => m
    | OrderType.MOVE => { m with agent := { m.agent with target_desired_distance := 0 } }
    | OrderType.INTERACT => { m with agent := { m.agent with target_desired_distance := 0 } }
    | OrderType.NONE => { m with agent := { m.agent with target_desired_distance := 0 } }

/-- `MovementComponent::_face_horizontal_direction`: the parent after the
call.  As for `Unit`, the direction the basis is rebuilt from is kept. -/
def _face_horizontal_direction (E : Engine) (m : MovementComponent)
    (parent : Option OwnerView) (direction : Vector3) : Option OwnerView :=
  match get_owner_unit m parent with
  | none => parent
  | some owner =>
    if !owner.inside_tree then parent
    else
      let horizontal_direction :=
        E.normalized { x := direction.x, y := 0, z := direction.z }
      if E.length horizontal_direction ≤ 1 / 1000 then parent
      else some { owner with facing := horizontal_direction }

/-- The statements `Vector3 current_target = get_target_position(); if
(!current_target.is_equal_approx(target_location))
set_target_position(target_location);` of `process_movement`. -/
def update_target (E : Engine) (m : MovementComponent) (target_location : Vector3) :
    MovementComponent :=
  let current_target := m.agent.target_position
  if !E.is_equal_approx current_target target_location then
    { m with agent := { m.agent with target_position := target_location } }
  else m

/-- `MovementComponent::process_movement` from the comment `Get next path
position and calculate velocity` to the end: velocity, facing, and the
movement signals. -/
def drive (E : Engine) (m2 : MovementComponent) (parent : Option OwnerView)
    (owner : OwnerView) (target_location : Vector3) : MovementOutcome :=
  let current_position := owner.global_position
  let next_position := E.get_next_path_position m2.agent
  let displacement := next_position.sub current_position
  let distance := E.length displacement
  let velocity : Vector3 :=
    if distance > 1 / 1000 then (displacement.div distance).scale m2.speed
    else { x := 0, y := 0, z := 0 }
  let direction : Vector3 :=
    if distance > 1 / 1000 then displacement.div distance
    else if distance ≥ 0 then
      let to_target : Vector3 := { target_location.sub current_position with y := 0 }
      let target_distance := E.length to_target
      if target_distance > 1 / 1000 then to_target.div target_distance
      else { x := 0, y := 0, z := 0 }
    else { x := 0, y := 0, z := 0 }
  let parent1 :=
    if distance ≥ 1 / 1000 ∨ E.length direction > 1 / 1000 then
      _face_horizontal_direction E m2 parent direction
    else parent
  let is_moving : Bool := decide (E.length velocity > 1 / 100)
  let signals : List MovementSignal :=
    if is_moving && !m2.was_moving then [MovementSignal.movement_started]
    else if !is_moving && m2.was_moving then [MovementSignal.movement_stopped]
    else []
  { state := { m2 with was_moving := is_moving }
    parent := parent1
    velocity := velocity
    signals := signals }

/-- `MovementComponent::process_movement` from the comment `Update target
distance based on order type` to the end: the part after the safety checks
and the settle delay. -/
def steer (E : Engine) (m : MovementComponent) (parent : Option OwnerView)
    (owner : OwnerView) (target_location : Vector3) (order : OrderType) : MovementOutcome :=
  let m1 := _apply_navigation_target_distance m parent order
  let m2 := update_target E m1 target_location
  drive E m2 parent owner target_location

/-- An early `return Vector3(0, 0, 0);` of `process_movement`. -/
def stay (m : MovementComponent) (parent : Option OwnerView) : MovementOutcome :=
  { state := m, parent := parent, velocity := { x := 0, y := 0, z := 0 }, signals := [] }

/-- `MovementComponent::process_movement`. -/
def process_movement (E : Engine) (m : MovementComponent) (parent : Option OwnerView)
    (_delta : ℚ) (target_location : Vector3) (order : OrderType) : MovementOutcome :=
  match get_owner_unit m parent with
  | none => stay m parent
  | some owner =>
    if !owner.inside_tree then stay m parent
    else if (match owner.health with
        | some health_comp => health_comp.is_dead
        | none => false) then stay m parent
    else if !m.agent.inside_tree then stay { m with frame_count := 0 } parent
    else if m.queued_for_deletion then stay m parent
    else if !m.is_ready then
      let m1 : MovementComponent := { m with frame_count := m.frame_count + 1 }
      if m1.frame_count < 3 then stay m1 parent
      else
        steer E (_apply_navigation_target_distance { m1 with is_ready := true } parent order)
          parent owner target_location order
    else steer E m parent owner target_location order

end MovementComponent

/-- One call of `process_movement` with everything it finds at that moment:
the engine, the state of the component's navigation agent base and deletion
flag, its speed, its parent, and the arguments of the call.  Only
`is_ready`, `frame_count`, `was_moving` and `rotation_speed` are carried over
by the component from one call to the next. -/
structure MovementCall where
  engine : Engine
  agent : NavigationAgent
  queued_for_deletion : Bool
  speed : ℚ
  parent : Option OwnerView
  delta : ℚ
  target_location : Vector3
  order : OrderType

namespace MovementComponent

/-- The component as a call finds it. -/
def arrive (m : MovementComponent) (c : MovementCall) : MovementComponent :=
  { m with agent := c.agent, queued_for_deletion := c.queued_for_deletion, speed := c.speed }

/-- The outcome of one call in a sequence. -/
def call (m : MovementComponent) (c : MovementCall) : MovementOutcome :=
  process_movement c.engine (arrive m c) c.parent c.delta c.target_location c.order

/-- A sequence of calls, first call first: the final component and every
signal emitted, in order. -/
def run_calls (m : MovementComponent) : List MovementCall → MovementComponent × List MovementSignal
  | [] => (m, [])
  | c :: rest =>
    ((run_calls (call m c).state rest).1, (call m c).signals ++ (run_calls (call m c).state rest).2)

/-- A log in which `movement_started` and `movement_stopped` strictly
alternate, for a component whose `was_moving` is the given flag before the
log: the next signal is `movement_started` when the flag is false and
`movement_stopped` when it is true. -/
def Alternates : Bool → List MovementSignal → Prop
  | _, [] => True
  | false, MovementSignal.movement_started :: rest => Alternates true rest
  | true, MovementSignal.movement_stopped :: rest => Alternates false rest
  | false, MovementSignal.movement_stopped :: _ => False
  | true, MovementSignal.movement_started :: _ => False

end MovementComponent

/-- A parent unit in the tree at the origin with the given health component. -/
def sample_owner (health : Option HealthComponent) : OwnerView :=
  { inside_tree := true, health := health,
    global_position := { x := 0, y := 0, z := 0 },
    facing := { x := 0, y := 0, z := -1 } }

/-- A settled movement component (speed 5) whose navigation agent is in the
tree and aims at `nav_target`. -/
def sample_mover (nav_target : Vector3) : MovementComponent :=
  { MovementComponent.initial (sample_agent nav_target) with is_ready := true }

/-- A call of `process_movement` with a MOVE order toward `target`, made with
the sample engine on a component whose agent is in the tree and already aims
at `target`, for the given parent. -/
def sample_call (target : Vector3) (parent : Option OwnerView) : MovementCall :=
  { engine := Engine.sample, agent := sample_agent target, queued_for_deletion := false,
    speed := 5, parent := parent, delta := 1 / 60, target_location := target,
    order := OrderType.MOVE }

/-- The conditions under which `process_movement` returns `Vector3(0, 0, 0)`
before it computes a velocity: the component is outside the tree or queued
for deletion, it has not settled (`is_ready` is false and fewer than three
calls are counted, this one included), it has no parent unit, or the parent
is outside the tree or dead. -/
def MovementComponent.ReturnsEarly (m : MovementComponent) (parent : Option OwnerView) :
    Prop :=
  m.agent.inside_tree = false ∨ m.queued_for_deletion = true ∨
    (m.is_ready = false ∧ m.frame_count < 2) ∨ parent = none ∨
    ∃ owner, parent = some owner ∧
      (owner.inside_tree = false ∨ ∃ h, owner.health = some h ∧ h.is_dead = true)

/-- The velocity `process_movement` returns when it does not return early:
`direction * speed` toward the next path position when that is more than
0.001 away from the owner, the zero vector otherwise. -/
def MovementComponent.velocity_toward (E : Engine) (speed : ℚ)
    (current_position next_position : Vector3) : Vector3 :=
  if E.length (next_position.sub current_position) > 1 / 1000 then
    ((next_position.sub current_position).div
      (E.length (next_position.sub current_position))).scale speed
  else { x := 0, y := 0, z := 0 }

/-! ## The C++ type `float` (IEEE 754 binary32)

The properties of `HealthComponent` and of the stat setters of
`AttackComponent` that range over every `float` argument are stated over the
values of the type itself: NaN, the two infinities and the finite numbers,
with each `float` operation evaluated in `float` precision: rounded to the
nearest representable number (ties to even), overflowing to an infinity.  A
finite value carries the rational it denotes; `-0.0f` and `+0.0f` are not told
apart (they compare equal, and no operation below divides by a zero).
-/

/-- Rounding of a rational to the nearest integer, a tie going to the even
neighbour (the IEEE 754 default rounding direction). -/
def round_half_even (r : ℚ) : ℤ :=
  if 2 * (r - ⌊r⌋) < 1 then ⌊r⌋
  else if 1 < 2 * (r - ⌊r⌋) then ⌊r⌋ + 1
  else if ⌊r⌋ % 2 = 0 then ⌊r⌋
  else ⌊r⌋ + 1

/-- A value of the C++ type `float`. -/
inductive Binary32 where
  | nan
  | neg_inf
  | fin (q : ℚ)
  | pos_inf
deriving DecidableEq, Repr

namespace Binary32

/-- The binary exponent of the binade that holds `x`: `⌊log₂ |x|⌋`, and `-126`
(the exponent of the subnormal numbers) when that is smaller. -/
def exponent (x : ℚ) : ℤ := max (Int.log 2 |x|) (-126)

/-- The spacing of the binary32 numbers in the binade of `x` (24 significant
bits). -/
def ulp (x : ℚ) : ℚ := (2 : ℚ) ^ (exponent x - 23)

/-- The multiple of `ulp x` nearest to `x`, ties to even: the rounding of `x`
before the range check. -/
def nearest (x : ℚ) : ℚ := round_half_even (x / ulp x) * ulp x

/-- Rounding of an exact result to `float`: to nearest, ties to even; a
result that rounds to `2^128` or beyond in magnitude becomes an infinity. -/
def round (x : ℚ) : Binary32 :=
  if 2 ^ 128 ≤ nearest x then pos_inf
  else if nearest x ≤ -(2 ^ 128) then neg_inf
  else fin (nearest x)

/-- A `float` literal such as `0.1f`: the `float` nearest to the decimal. -/
def lit (q : ℚ) : Binary32 := round q

/-- The operator `a < b` on `float`: false when an operand is NaN. -/
def lt : Binary32 → Binary32 → Bool
  | fin a, fin b => decide (a < b)
  | neg_inf, fin _ => true
  | neg_inf, pos_inf => true
  | fin _, pos_inf => true
  | _, _ => false

/-- The operator `a <= b` on `float`: false when an operand is NaN. -/
def le : Binary32 → Binary32 → Bool
  | fin a, fin b => decide (a ≤ b)
  | neg_inf, neg_inf => true
  | neg_inf, fin _ => true
  | neg_inf, pos_inf => true
  | fin _, pos_inf => true
  | pos_inf, pos_inf => true
  | _, _ => false

/-- The operator `a + b` on `float`. -/
def add : Binary32 → Binary32 → Binary32
  | fin a, fin b => round (a + b)
  | fin _, pos_inf => pos_inf
  | fin _, neg_inf => neg_inf
  | pos_inf, fin _ => pos_inf
  | pos_inf, pos_inf => pos_inf
  | neg_inf, fin _ => neg_inf
  | neg_inf, neg_inf => neg_inf
  | _, _ => nan

/-- The operator `a - b` on `float`. -/
def sub : Binary32 → Binary32 → Binary32
  | fin a, fin b => round (a - b)
  | fin _, pos_inf => neg_inf
  | fin _, neg_inf => pos_inf
  | pos_inf, fin _ => pos_inf
  | pos_inf, neg_inf => pos_inf
  | neg_inf, fin _ => neg_inf
  | neg_inf, pos_inf => neg_inf
  | _, _ => nan

/-- The operator `a / b` on `float`.  A zero divisor is taken as `+0.0f`. -/
def div : Binary32 → Binary32 → Binary32
  | fin a, fin b =>
    if b = 0 then (if a = 0 then nan else if 0 < a then pos_inf else neg_inf)
    else round (a / b)
  | fin _, pos_inf => fin 0
  | fin _, neg_inf => fin 0
  | pos_inf, fin b => if b < 0 then neg_inf else pos_inf
  | neg_inf, fin b => if b < 0 then pos_inf else neg_inf
  | _, _ => nan

/-- The values a `float` variable can hold: NaN, an infinity, or a finite
number that is its own rounding and lies inside the range of the type. -/
def IsFloat : Binary32 → Prop
  | fin q => nearest q = q ∧ |q| < 2 ^ 128
  | _ => True

end Binary32

/-! ## HealthComponent and the attack stats over `float`

The same member functions as above, read over `Binary32` instead of `ℚ`.
-/

namespace OnFloat

/-- The function `std::max(a, b)` on `float`: `(a < b) ? b : a`. -/
def std_max (a b : Binary32) : Binary32 := if Binary32.lt a b then b else a

/-- The function `std::min(a, b)` on `float`: `(b < a) ? b : a`. -/
def std_min (a b : Binary32) : Binary32 := if Binary32.lt b a then b else a

/-- The function `std::clamp(v, lo, hi)` on `float`:
`(v < lo) ? lo : (hi < v) ? hi : v`. -/
def std_clamp (v lo hi : Binary32) : Binary32 :=
  if Binary32.lt v lo then lo else if Binary32.lt hi v then hi else v

/-- The data members of `HealthComponent`. -/
structure HealthComponent where
  max_health : Binary32
  current_health : Binary32
deriving DecidableEq, Repr

/-- The signals registered in `HealthComponent::_bind_methods`. -/
inductive HealthSignal where
  | health_changed (current : Binary32) (max : Binary32)
  | died (source : Option ObjectId)
  | damage_taken (amount : Binary32)
deriving DecidableEq, Repr

/-- What one call of `HealthComponent::apply_damage` produces: the component
afterwards, the signals emitted (in order) and the returned `bool`. -/
structure DamageOutcome where
  state : HealthComponent
  signals : List HealthSignal
  result : Bool
deriving DecidableEq, Repr

namespace HealthComponent

/-- The member initialisers of `health_component.hpp`:
`max_health = 100.0f`, `current_health = 100.0f`. -/
def initial : HealthComponent :=
  { max_health := Binary32.lit 100, current_health := Binary32.lit 100 }

/-- `HealthComponent::set_max_health`. -/
def set_max_health (s : HealthComponent) (value : Binary32) :
    HealthComponent × List HealthSignal :=
  let max_health := std_max (Binary32.lit 0) value
  let current_health :=
    if Binary32.lt max_health s.current_health then max_health else s.current_health
  ({ max_health := max_health, current_health := current_health },
    [HealthSignal.health_changed current_health max_health])

/-- `HealthComponent::set_current_health`. -/
def set_current_health (s : HealthComponent) (value : Binary32) :
    HealthComponent × List HealthSignal :=
  let current_health := std_clamp value (Binary32.lit 0) s.max_health
  ({ s with current_health := current_health },
    HealthSignal.health_changed current_health s.max_health ::
      (if Binary32.le current_health (Binary32.lit 0) then [HealthSignal.died none] else []))

/-- `HealthComponent::apply_damage`. -/
def apply_damage (s : HealthComponent) (amount : Binary32) (source : Option ObjectId) :
    DamageOutcome :=
  let amount := if Binary32.lt amount (Binary32.lit 0) then Binary32.lit 0 else amount
  let current_health := std_max (Binary32.lit 0) (Binary32.sub s.current_health amount)
  let s1 : HealthComponent := { s with current_health := current_health }
  let emitted :=
    [HealthSignal.damage_taken amount,
     HealthSignal.health_changed current_health s.max_health]
  if Binary32.le current_health (Binary32.lit 0) then
    { state := s1, signals := emitted ++ [HealthSignal.died source], result := true }
  else
    { state := s1, signals := emitted, result := false }

/-- `HealthComponent::heal`. -/
def heal (s : HealthComponent) (amount : Binary32) : HealthComponent × List HealthSignal :=
  let amount := if Binary32.lt amount (Binary32.lit 0) then Binary32.lit 0 else amount
  let current_health := std_min s.max_health (Binary32.add s.current_health amount)
  ({ s with current_health := current_health },
    [HealthSignal.health_changed current_health s.max_health])

/-- The range invariant of the data model, with the comparisons of `float`:
`0 <= current_health && current_health <= max_health`. -/
def InRange (s : HealthComponent) : Prop :=
  Binary32.le (Binary32.fin 0) s.current_health = true ∧
    Binary32.le s.current_health s.max_health = true

/-- Both data members hold values of the type `float`. -/
def Valid (s : HealthComponent) : Prop :=
  Binary32.IsFloat s.max_health ∧ Binary32.IsFloat s.current_health

end HealthComponent

/-- The attack stats of `AttackComponent` (`attack_component.hpp`), the data
members of type `float` that the stat setters write and
`get_attack_interval` reads, with `delivery_type`.  The timing state (of type
`double`) and the target pointer are not touched by these functions. -/
structure AttackComponent where
  base_attack_time : Binary32
  attack_speed : Binary32
  attack_point : Binary32
  attack_range : Binary32
  attack_damage : Binary32
  delivery_type : AttackDelivery
  projectile_speed : Binary32
  projectile_scene : Option PackedScene
deriving DecidableEq, Repr

/-- One call of a stat setter of `AttackComponent`, with its argument. -/
inductive StatSetter where
  | set_base_attack_time (bat : Binary32)
  | set_attack_speed (speed : Binary32)
  | set_attack_point (seconds : Binary32)
  | set_attack_range (range : Binary32)
  | set_attack_damage (damage : Binary32)
  | set_delivery_type (ty : ℤ)
  | set_projectile_speed (speed : Binary32)
  | set_projectile_scene (scene : Option PackedScene)
deriving DecidableEq, Repr

namespace AttackComponent

/-- The member initialisers of `attack_component.hpp`. -/
def initial : AttackComponent :=
  { base_attack_time := Binary32.lit (17 / 10)
    attack_speed := Binary32.lit 100
    attack_point := Binary32.lit (3 / 10)
    attack_range := Binary32.lit (5 / 2)
    attack_damage := Binary32.lit 10
    delivery_type := AttackDelivery.MELEE
    projectile_speed := Binary32.lit 20
    projectile_scene := none }

/-- `AttackComponent::set_base_attack_time`. -/
def set_base_attack_time (s : AttackComponent) (bat : Binary32) : AttackComponent :=
  { s with base_attack_time := std_max (Binary32.lit (1 / 10)) bat }

/-- `AttackComponent::set_attack_speed`. -/
def set_attack_speed (s : AttackComponent) (speed : Binary32) : AttackComponent :=
  { s with attack_speed := std_max (Binary32.lit 1) speed }

/-- `AttackComponent::set_attack_point`. -/
def set_attack_point (s : AttackComponent) (seconds : Binary32) : AttackComponent :=
  { s with attack_point := std_max (Binary32.lit 0) seconds }

/-- `AttackComponent::set_attack_range`. -/
def set_attack_range (s : AttackComponent) (range : Binary32) : AttackComponent :=
  { s with attack_range := std_max (Binary32.lit (1 / 10)) range }

/-- `AttackComponent::set_attack_damage`. -/
def set_attack_damage (s : AttackComponent) (damage : Binary32) : AttackComponent :=
  { s with attack_damage := std_max (Binary32.lit 0) damage }

/-- `AttackComponent::set_delivery_type`. -/
def set_delivery_type (s : AttackComponent) (ty : ℤ) : AttackComponent :=
  if ty = 0 then { s with delivery_type := AttackDelivery.MELEE }
  else if ty = 1 then { s with delivery_type := AttackDelivery.PROJECTILE }
  else s

/-- `AttackComponent::set_projectile_speed`. -/
def set_projectile_speed (s : AttackComponent) (speed : Binary32) : AttackComponent :=
  { s with projectile_speed := std_max (Binary32.lit (1 / 10)) speed }

/-- `AttackComponent::set_projectile_scene`. -/
def set_projectile_scene (s : AttackComponent) (scene : Option PackedScene) :
    AttackComponent :=
  { s with projectile_scene := scene }

/-- Dispatch of one setter call. -/
def apply_setter (s : AttackComponent) : StatSetter → AttackComponent
  | StatSetter.set_base_attack_time bat => s.set_base_attack_time bat
  | StatSetter.set_attack_speed speed => s.set_attack_speed speed
  | StatSetter.set_attack_point seconds => s.set_attack_point seconds
  | StatSetter.set_attack_range range => s.set_attack_range range
  | StatSetter.set_attack_damage damage => s.set_attack_damage damage
  | StatSetter.set_delivery_type ty => s.set_delivery_type ty
  | StatSetter.set_projectile_speed speed => s.set_projectile_speed speed
  | StatSetter.set_projectile_scene scene => s.set_projectile_scene scene

/-- A sequence of setter calls, applied in order. -/
def apply_setters (s : AttackComponent) (calls : List StatSetter) : AttackComponent :=
  calls.foldl apply_setter s

/-- The bounds the stat setters maintain, with the comparisons of `float`. -/
def StatsInDomain (s : AttackComponent) : Prop :=
  Binary32.le (Binary32.fin 0) s.attack_damage = true ∧
    Binary32.le (Binary32.fin 0) s.projectile_speed = true ∧
    Binary32.lt (Binary32.fin 0) s.attack_range = true ∧
    Binary32.lt (Binary32.fin 0) s.base_attack_time = true ∧
    Binary32.lt (Binary32.fin 0) s.attack_speed = true

/-- The floors the stat setters take the maximum with: `0.1f` for
`base_attack_time`, `attack_range` and `projectile_speed`, `1.0f` for
`attack_speed`, `0.0f` for `attack_damage`; and `attack_speed` holds a `float`
value. -/
def Floors (s : AttackComponent) : Prop :=
  Binary32.le (Binary32.lit (1 / 10)) s.base_attack_time = true ∧
    Binary32.le (Binary32.lit 1) s.attack_speed = true ∧
    Binary32.IsFloat s.attack_speed ∧
    Binary32.le (Binary32.lit 0) s.attack_damage = true ∧
    Binary32.le (Binary32.lit (1 / 10)) s.attack_range = true ∧
    Binary32.le (Binary32.lit (1 / 10)) s.projectile_speed = true

/-- The local `attack_speed_factor` of `get_attack_interval`:
`attack_speed / 100.0f`. -/
def attack_speed_factor (s : AttackComponent) : Binary32 :=
  Binary32.div s.attack_speed (Binary32.lit 100)

/-- `AttackComponent::get_attack_interval`. -/
def get_attack_interval (s : AttackComponent) : Binary32 :=
  Binary32.div s.base_attack_time s.attack_speed_factor

end AttackComponent

/-- The `float` argument of a setter call is a value of the type. -/
def StatSetter.IsFloat : StatSetter → Prop
  | StatSetter.set_base_attack_time bat => Binary32.IsFloat bat
  | StatSetter.set_attack_speed speed => Binary32.IsFloat speed
  | StatSetter.set_attack_point seconds => Binary32.IsFloat seconds
  | StatSetter.set_attack_range range => Binary32.IsFloat range
  | StatSetter.set_attack_damage damage => Binary32.IsFloat damage
  | StatSetter.set_delivery_type _ => True
  | StatSetter.set_projectile_speed speed => Binary32.IsFloat speed
  | StatSetter.set_projectile_scene _ => True

end OnFloat

/-! ## Facts about the standard-library helpers -/

theorem std_max_eq (a b : ℚ) : std_max a b = max a b := by
  unfold std_max
  split_ifs with h
  · exact (max_eq_right h.le).symm
  · exact (max_eq_left (not_lt.mp h)).symm

theorem std_min_eq (a b : ℚ) : std_min a b = min a b := by
  unfold std_min
  split_ifs with h
  · exact (min_eq_right h.le).symm
  · exact (min_eq_left (not_lt.mp h)).symm

theorem std_clamp_mem (v lo hi : ℚ) (h : lo ≤ hi) :
    lo ≤ std_clamp v lo hi ∧ std_clamp v lo hi ≤ hi := by
  unfold std_clamp
  split_ifs with h1 h2
  · exact ⟨le_refl _, h⟩
  · exact ⟨h, le_refl _⟩
  · exact ⟨not_lt.mp h1, not_lt.mp h2⟩

/-! ## HealthComponent: properties -/

theorem apply_damage_current (s : HealthComponent) (amount : ℚ)
    (source : Option ObjectId) :
    (s.apply_damage amount source).state.current_health =
      max 0 (s.current_health - max 0 amount) := by
  have hamt : (if amount < 0 then (0 : ℚ) else amount) = max 0 amount := by
    split_ifs with h
    · exact (max_eq_left h.le).symm
    · exact (max_eq_right (not_lt.mp h)).symm
  unfold HealthComponent.apply_damage
  simp only [hamt, std_max_eq]
  split_ifs <;> rfl

theorem apply_damage_max (s : HealthComponent) (amount : ℚ)
    (source : Option ObjectId) :
    (s.apply_damage amount source).state.max_health = s.max_health := by
  unfold HealthComponent.apply_damage
  simp only
  split_ifs <;> rfl

theorem apply_damage_signals (s : HealthComponent) (amount : ℚ)
    (source : Option ObjectId) :
    (s.apply_damage amount source).signals =
      [HealthSignal.damage_taken (max 0 amount),
       HealthSignal.health_changed (max 0 (s.current_health - max 0 amount)) s.max_health]
      ++ (if max 0 (s.current_health - max 0 amount) = 0
            then [HealthSignal.died source] else []) := by
  have hamt : (if amount < 0 then (0 : ℚ) else amount) = max 0 amount := by
    split_ifs with h
    · exact (max_eq_left h.le).symm
    · exact (max_eq_right (not_lt.mp h)).symm
  have hnn : (0 : ℚ) ≤ max 0 (s.current_health - max 0 amount) := le_max_left _ _
  unfold HealthComponent.apply_damage
  simp only [hamt, std_max_eq]
  by_cases h0 : max 0 (s.current_health - max 0 amount) = 0
  · rw [if_pos (le_of_eq h0), if_pos h0]
  · have hpos : ¬ max 0 (s.current_health - max 0 amount) ≤ 0 :=
      fun hle => h0 (le_antisymm hle hnn)
    rw [if_neg hpos, if_neg h0]
    simp

theorem apply_damage_result (s : HealthComponent) (amount : ℚ)
    (source : Option ObjectId) :
    (s.apply_damage amount source).result = true ↔
      (s.apply_damage amount source).state.current_health = 0 := by
  have hnn : ∀ a : ℚ, (0 : ℚ) ≤ std_max 0 (s.current_health - a) := by
    intro a; rw [std_max_eq]; exact le_max_left _ _
  unfold HealthComponent.apply_damage
  simp only
  generalize (if amount < 0 then (0 : ℚ) else amount) = a
  have hnn := hnn a
  split_ifs with h
  · simp only [true_iff]
    exact le_antisymm h hnn
  · simp only [Bool.false_eq_true, false_iff]
    exact fun h0 => h (le_of_eq h0)

theorem heal_current (s : HealthComponent) (amount : ℚ) :
    (s.heal amount).1.current_health =
      min s.max_health (s.current_health + max 0 amount) := by
  have hamt : (if amount < 0 then (0 : ℚ) else amount) = max 0 amount := by
    split_ifs with h
    · exact (max_eq_left h.le).symm
    · exact (max_eq_right (not_lt.mp h)).symm
  unfold HealthComponent.heal
  simp only [hamt, std_min_eq]

/-- C1, evaluated on the code.  The claim says that `apply_damage` on a unit
that is already dead (`current_health = 0`) returns false.  The code returns
true there, for every `max_health`, amount and source, while `current_health`
stays 0; in the scenario of the claim (100/100, damage 150, then damage 10) the
second call returns true as well. -/
theorem apply_damage_on_dead_returns_true :
    (∀ (max_health amount : ℚ) (source : Option ObjectId),
      (HealthComponent.apply_damage ⟨max_health, 0⟩ amount source).result = true ∧
      (HealthComponent.apply_damage ⟨max_health, 0⟩ amount source).state.current_health
        = 0) ∧
    (HealthComponent.apply_damage HealthComponent.initial 150 none).result = true ∧
    (HealthComponent.apply_damage HealthComponent.initial 150 none).state.current_health
      = 0 ∧
    (HealthComponent.apply_damage
      (HealthComponent.apply_damage HealthComponent.initial 150 none).state 10 none).result
      = true ∧
    (HealthComponent.apply_damage
      (HealthComponent.apply_damage HealthComponent.initial 150 none).state 10
        none).state.current_health = 0 := by
  have dead : ∀ (max_health amount : ℚ) (source : Option ObjectId),
      (HealthComponent.apply_damage ⟨max_health, 0⟩ amount source).state.current_health
        = 0 := by
    intro m a src
    rw [apply_damage_current]
    have : (0 : ℚ) ≤ max 0 a := le_max_left _ _
    exact max_eq_left (by simp only [zero_sub]; linarith)
  have first : (HealthComponent.apply_damage HealthComponent.initial 150
      none).state.current_health = 0 := by
    rw [apply_damage_current]
    norm_num [HealthComponent.initial]
  refine ⟨fun m a src => ⟨(apply_damage_result _ a src).mpr (dead m a src), dead m a src⟩,
    (apply_damage_result _ _ _).mpr first, first, ?_, ?_⟩
  · refine (apply_damage_result _ _ _).mpr ?_
    rw [apply_damage_current, first]
    norm_num
  · rw [apply_damage_current, first]
    norm_num

/-- C2, evaluated on the code.  The claim says that a run of `apply_damage`
calls with nothing in between emits `died` at most once.  On the code the run
"damage 150, then damage 10" from 100/100 emits `died` twice, and the second
call alone, made at `current_health = 0`, emits it again. -/
theorem repeated_damage_emits_died_twice :
    died_count
      (HealthComponent.apply_damage_seq HealthComponent.initial
        [(150, none), (10, none)]).2 = 2 ∧
    HealthSignal.died none ∈
      (HealthComponent.apply_damage
        (HealthComponent.apply_damage HealthComponent.initial 150 none).state 10
          none).signals := by
  constructor
  · simp only [HealthComponent.apply_damage_seq, apply_damage_signals, apply_damage_current,
      HealthComponent.initial]
    norm_num [died_count, HealthSignal.is_died]
  · simp only [apply_damage_signals, apply_damage_current, HealthComponent.initial]
    norm_num

theorem apply_setter_stats (s : AttackComponent) (call : StatSetter)
    (h : AttackComponent.StatsInDomain s) :
    AttackComponent.StatsInDomain (s.apply_setter call) := by
  obtain ⟨hd, hp, hr, hb, hs⟩ := h
  have tenth : ∀ v : ℚ, 0 < std_max (1 / 10) v := by
    intro v
    rw [std_max_eq]
    exact lt_of_lt_of_le (by norm_num) (le_max_left _ _)
  cases call with
  | set_base_attack_time bat => exact ⟨hd, hp, hr, tenth bat, hs⟩
  | set_attack_speed speed =>
    refine ⟨hd, hp, hr, hb, ?_⟩
    show 0 < std_max 1 speed
    rw [std_max_eq]
    exact lt_of_lt_of_le one_pos (le_max_left _ _)
  | set_attack_point seconds => exact ⟨hd, hp, hr, hb, hs⟩
  | set_attack_range range => exact ⟨hd, hp, tenth range, hb, hs⟩
  | set_attack_damage damage =>
    refine ⟨?_, hp, hr, hb, hs⟩
    show 0 ≤ std_max 0 damage
    rw [std_max_eq]
    exact le_max_left _ _
  | set_delivery_type ty =>
    show AttackComponent.StatsInDomain (s.set_delivery_type ty)
    unfold AttackComponent.set_delivery_type
    split_ifs <;> exact ⟨hd, hp, hr, hb, hs⟩
  | set_projectile_speed speed => exact ⟨hd, (tenth speed).le, hr, hb, hs⟩
  | set_projectile_scene scene => exact ⟨hd, hp, hr, hb, hs⟩

theorem apply_setters_stats (calls : List StatSetter) (s : AttackComponent)
    (h : AttackComponent.StatsInDomain s) :
    AttackComponent.StatsInDomain (s.apply_setters calls) := by
  induction calls generalizing s with
  | nil => exact h
  | cons call rest ih => exact ih (s.apply_setter call) (apply_setter_stats s call h)

theorem try_fire_at_state_cases (units : Units) (s : AttackComponent)
    (target : Option ObjectId) (delta : ℚ) :
    (s.try_fire_at units target delta).state = s ∧
        (s.try_fire_at units target delta).signals = [] ∨
    ∃ t, target = some t ∧ (units t).inside_tree = true ∧
      s.in_attack_windup = false ∧ s.time_until_next_attack ≤ 0 ∧
      (s.try_fire_at units target delta).state =
        { s with in_attack_windup := true
                 attack_windup_timer := 0
                 current_attack_target := some t } ∧
      (s.try_fire_at units target delta).signals =
        [AttackSignal.attack_started (some t),
         AttackSignal.attack_speed_changed (s.base_attack_time / s.get_attack_interval)] := by
  cases target with
  | none => exact Or.inl ⟨rfl, rfl⟩
  | some t =>
    unfold AttackComponent.try_fire_at
    simp only
    by_cases hin : (units t).inside_tree = true
    · by_cases hw : s.in_attack_windup = true
      · left
        simp [hin, hw]
      · by_cases hc : s.time_until_next_attack ≤ 0
        · right
          refine ⟨t, rfl, hin, by simpa using hw, hc, ?_, ?_⟩
          · simp [hin, hw, hc]
          · simp [hin, hw, hc, AttackComponent.get_attack_interval]
        · left
          simp [hin, hc]
    · left
      simp [hin]

theorem try_fire_at_result (units : Units) (s : AttackComponent)
    (target : Option ObjectId) (delta : ℚ) :
    (s.try_fire_at units target delta).result = false := by
  unfold AttackComponent.try_fire_at
  cases target with
  | none => rfl
  | some t =>
    simp only
    split_ifs <;> rfl

theorem reach_attack_point_leaves_windup (c : AttackTick) :
    (AttackComponent.reach_attack_point c).state.in_attack_windup = false := by
  unfold AttackComponent.reach_attack_point
  rfl

theorem physics_process_windup_cases (editor_hint : Bool) (units : Units)
    (s : AttackComponent) (delta : ℚ) :
    (AttackComponent._physics_process editor_hint units s delta).state.in_attack_windup
        = false ∨
    ((AttackComponent._physics_process editor_hint units s delta).state.in_attack_windup
        = s.in_attack_windup ∧
     (AttackComponent._physics_process editor_hint units s delta).state.current_attack_target
        = s.current_attack_target) := by
  unfold AttackComponent._physics_process
  simp only
  split_ifs with he hc hw hp hw hp
  · exact Or.inr ⟨rfl, rfl⟩
  · exact Or.inl (reach_attack_point_leaves_windup _)
  · exact Or.inr ⟨rfl, rfl⟩
  · exact Or.inr ⟨rfl, rfl⟩
  · exact Or.inl (reach_attack_point_leaves_windup _)
  · exact Or.inr ⟨rfl, rfl⟩
  · exact Or.inr ⟨rfl, rfl⟩

theorem try_fire_at_not_ready (units : Units) (s : AttackComponent) (t : ObjectId)
    (delta : ℚ) (hin : (units t).inside_tree = true) :
    ¬ ((s.try_fire_at units (some t) delta).state.in_attack_windup = false ∧
       (s.try_fire_at units (some t) delta).state.time_until_next_attack ≤ 0) := by
  unfold AttackComponent.try_fire_at
  simp only [hin, Bool.not_true, Bool.false_eq_true, if_false]
  by_cases hw : s.in_attack_windup = true
  · simp [hw]
  · by_cases hc : s.time_until_next_attack ≤ 0
    · simp [hw, hc]
    · simp [hw, hc]

/-- C6.  `get_attack_interval` returns `base_attack_time / (attack_speed / 100)`
for every stored base attack time and attack speed; with base 1.7 the interval
is 1.7 at speed 100 and 0.85 at speed 200. -/
theorem attack_interval_formula :
    (∀ s : AttackComponent,
      s.get_attack_interval = s.base_attack_time / (s.attack_speed / 100)) ∧
    (((AttackComponent.initial none false).set_base_attack_time (17 / 10)).set_attack_speed
      100).get_attack_interval = 17 / 10 ∧
    (((AttackComponent.initial none false).set_base_attack_time (17 / 10)).set_attack_speed
      200).get_attack_interval = 17 / 20 := by
  refine ⟨fun s => rfl, ?_, ?_⟩ <;>
    norm_num [AttackComponent.get_attack_interval, AttackComponent.set_attack_speed,
      AttackComponent.set_base_attack_time, AttackComponent.initial, std_max]

/-- C8.  For every component state and every valid target `t` (not null, in
the tree), `try_fire_at(t)` begins a new windup (`in_attack_windup := true`,
`attack_windup_timer := 0`, `current_attack_target := t`, `attack_started(t)`
emitted) if and only if beforehand the component was not in windup and
`time_until_next_attack ≤ 0`; otherwise, and for every null or removed
target, the state is unchanged and nothing is emitted. -/
theorem try_fire_at_begins_windup_iff (units : Units) (s : AttackComponent)
    (t : ObjectId) (delta : ℚ) (hvalid : (units t).inside_tree = true) :
    (((s.try_fire_at units (some t) delta).state =
        { s with in_attack_windup := true
                 attack_windup_timer := 0
                 current_attack_target := some t } ∧
      AttackSignal.attack_started (some t) ∈ (s.try_fire_at units (some t) delta).signals)
      ↔ (s.in_attack_windup = false ∧ s.time_until_next_attack ≤ 0)) ∧
    (¬ (s.in_attack_windup = false ∧ s.time_until_next_attack ≤ 0) →
      (s.try_fire_at units (some t) delta).state = s ∧
      (s.try_fire_at units (some t) delta).signals = []) ∧
    (∀ target : Option ObjectId,
      (target = none ∨ ∃ u, target = some u ∧ (units u).inside_tree = false) →
      (s.try_fire_at units target delta).state = s ∧
      (s.try_fire_at units target delta).signals = []) := by
  refine ⟨⟨?_, ?_⟩, ?_, ?_⟩
  · rintro ⟨-, hmem⟩
    rcases try_fire_at_state_cases units s (some t) delta with ⟨-, hsig⟩ | ⟨u, -, -, hw, hc, -, -⟩
    · rw [hsig] at hmem
      exact absurd hmem (List.not_mem_nil _)
    · exact ⟨hw, hc⟩
  · rintro ⟨hw, hc⟩
    unfold AttackComponent.try_fire_at
    simp [hvalid, hw, hc]
  · intro hnot
    rcases try_fire_at_state_cases units s (some t) delta with h | ⟨u, -, -, hw, hc, -, -⟩
    · exact h
    · exact absurd ⟨hw, hc⟩ hnot
  · rintro target (rfl | ⟨u, rfl, hu⟩)
    · exact ⟨rfl, rfl⟩
    · unfold AttackComponent.try_fire_at
      simp [hu]

/-- The theorem of C8 at the initial component and a target 1 that is in the
tree: the component is idle with no cooldown, the call begins a windup on 1. -/
theorem try_fire_at_begins_windup_iff_witness :
    ((AttackComponent.initial none false).try_fire_at
        (fun _ => { inside_tree := true, health := none }) (some 1) 0).state =
      { AttackComponent.initial none false with
          in_attack_windup := true
          attack_windup_timer := 0
          current_attack_target := some 1 } ∧
    AttackSignal.attack_started (some 1) ∈
      ((AttackComponent.initial none false).try_fire_at
        (fun _ => { inside_tree := true, health := none }) (some 1) 0).signals :=
  (try_fire_at_begins_windup_iff (fun _ => { inside_tree := true, health := none })
    (AttackComponent.initial none false) 1 0 rfl).1.mpr
    ⟨rfl, by norm_num [AttackComponent.initial]⟩

/-- C9.  Calling `try_fire_at(target)` twice with no tick in between is the
same as calling it once: for every component state and every target, the
second call returns false, emits nothing (no `attack_started`, no
`attack_speed_changed`) and leaves the state of the first call as it is, so
`attack_windup_timer` is not reset and `current_attack_target` is not
changed. -/
theorem try_fire_at_twice (units : Units) (s : AttackComponent)
    (target : Option ObjectId) (delta1 delta2 : ℚ) :
    ((s.try_fire_at units target delta1).state.try_fire_at units target delta2).result
      = false ∧
    ((s.try_fire_at units target delta1).state.try_fire_at units target delta2).signals
      = [] ∧
    ((s.try_fire_at units target delta1).state.try_fire_at units target delta2).state
      = (s.try_fire_at units target delta1).state := by
  refine ⟨try_fire_at_result _ _ _ _, ?_⟩
  rcases try_fire_at_state_cases units (s.try_fire_at units target delta1).state target delta2
    with ⟨hst, hsig⟩ | ⟨u, htarget, hin, hw, hc, -, -⟩
  · exact ⟨hsig, hst⟩
  · subst target
    exact absurd ⟨hw, hc⟩ (try_fire_at_not_ready units s u delta1 hin)

/-- C10.  The invariant "`in_attack_windup = true` implies
`current_attack_target ≠ nullptr`" holds in the initial component and is
preserved by `try_fire_at` for every target (null included) and by the
per-tick update `_physics_process` for every delta. -/
theorem windup_has_target_invariant :
    (∀ (owner_unit : Option ObjectId) (has_parent : Bool),
      AttackComponent.WindupHasTarget (AttackComponent.initial owner_unit has_parent)) ∧
    ∀ (s : AttackComponent), AttackComponent.WindupHasTarget s →
      (∀ (units : Units) (target : Option ObjectId) (delta : ℚ),
        AttackComponent.WindupHasTarget (s.try_fire_at units target delta).state) ∧
      (∀ (editor_hint : Bool) (units : Units) (delta : ℚ),
        AttackComponent.WindupHasTarget
          (AttackComponent._physics_process editor_hint units s delta).state) := by
  refine ⟨fun _ _ h => absurd h (by simp [AttackComponent.initial]), ?_⟩
  intro s hs
  constructor
  · intro units target delta
    rcases try_fire_at_state_cases units s target delta with ⟨hst, -⟩ | ⟨u, -, -, -, -, hst, -⟩
    · rw [hst]; exact hs
    · rw [hst]
      intro _
      exact Option.some_ne_none u
  · intro editor_hint units delta hw
    rcases physics_process_windup_cases editor_hint units s delta with hf | ⟨hsame, htarget⟩
    · rw [hf] at hw
      exact Bool.noConfusion hw
    · rw [htarget]
      exact hs (hsame ▸ hw)

/-- The invariant theorem of C10 at a component that is winding up on target
1: a second `try_fire_at`, a tick of 0.1 s that stays in windup and a tick of
0.5 s that reaches the attack point all keep the invariant. -/
theorem windup_has_target_invariant_witness :
    AttackComponent.WindupHasTarget
      { AttackComponent.initial none false with
          in_attack_windup := true, current_attack_target := some 1 } ∧
    AttackComponent.WindupHasTarget
      (AttackComponent.try_fire_at (fun _ => { inside_tree := true, health := none })
        { AttackComponent.initial none false with
            in_attack_windup := true, current_attack_target := some 1 }
        none 0).state ∧
    AttackComponent.WindupHasTarget
      (AttackComponent._physics_process false
        (fun _ => { inside_tree := true, health := some HealthComponent.initial })
        { AttackComponent.initial none false with
            in_attack_windup := true, current_attack_target := some 1 }
        (1 / 10)).state ∧
    AttackComponent.WindupHasTarget
      (AttackComponent._physics_process false
        (fun _ => { inside_tree := true, health := some HealthComponent.initial })
        { AttackComponent.initial none false with
            in_attack_windup := true, current_attack_target := some 1 }
        (1 / 2)).state :=
  have h : AttackComponent.WindupHasTarget
      { AttackComponent.initial none false with
          in_attack_windup := true, current_attack_target := some 1 } :=
    fun _ => Option.some_ne_none 1
  ⟨h, (windup_has_target_invariant.2 _ h).1 _ none 0,
    (windup_has_target_invariant.2 _ h).2 false _ (1 / 10),
    (windup_has_target_invariant.2 _ h).2 false _ (1 / 2)⟩

/-! ## AttackComponent: the tick at the attack point -/

theorem physics_process_at_attack_point (units : Units) (s : AttackComponent) (delta : ℚ)
    (hwind : s.in_attack_windup = true)
    (hreach : s.attack_point ≤ s.attack_windup_timer + delta) :
    AttackComponent._physics_process false units s delta =
      AttackComponent.reach_attack_point
        { state :=
            { s with
                time_until_next_attack :=
                  if s.time_until_next_attack > 0 then s.time_until_next_attack - delta
                  else s.time_until_next_attack
                attack_windup_timer := s.attack_windup_timer + delta }
          units := units, signals := [], health_signals := [], spawned := [],
          errors := [] } := by
  unfold AttackComponent._physics_process
  by_cases hc : s.time_until_next_attack > 0
  · simp [hc, hwind, hreach]
  · simp [hc, hwind, hreach]

/-- C11.  In a tick in which the windup reaches the attack point
(`attack_windup_timer + delta ≥ attack_point`) while its target is no longer
in the tree or has a `HealthComponent` reporting dead, the windup state is
cleared (`in_attack_windup := false`, `current_attack_target := nullptr`) and
nothing else happens beyond the timers advancing: no unit's health changes, no
projectile is spawned, no signal is emitted (so no `attack_point_reached` and
no `attack_hit`), and `time_until_next_attack` is only decremented, not reset
to the attack interval. -/
theorem whiffed_windup_only_clears (units : Units) (s : AttackComponent) (delta : ℚ)
    (t : ObjectId)
    (hwind : s.in_attack_windup = true)
    (htarget : s.current_attack_target = some t)
    (hreach : s.attack_point ≤ s.attack_windup_timer + delta)
    (hgone : (units t).inside_tree = false ∨
      ∃ h, (units t).health = some h ∧ h.is_dead = true) :
    (AttackComponent._physics_process false units s delta).state =
      { s with
          time_until_next_attack :=
            if s.time_until_next_attack > 0 then s.time_until_next_attack - delta
            else s.time_until_next_attack
          attack_windup_timer := s.attack_windup_timer + delta
          in_attack_windup := false
          current_attack_target := none } ∧
    (AttackComponent._physics_process false units s delta).units = units ∧
    (AttackComponent._physics_process false units s delta).signals = [] ∧
    (AttackComponent._physics_process false units s delta).health_signals = [] ∧
    (AttackComponent._physics_process false units s delta).spawned = [] ∧
    (AttackComponent._physics_process false units s delta).errors = [] := by
  rw [physics_process_at_attack_point units s delta hwind hreach]
  unfold AttackComponent.reach_attack_point
  rcases hgone with hout | ⟨h, hh, hdead⟩
  · simp [htarget, hout]
  · by_cases hin : (units t).inside_tree = true
    · simp [htarget, hin, hh, hdead]
    · simp [htarget, hin]

/-- The theorem of C11 at a component whose windup on unit 1 has run 0.25 s of
its 0.3 s, ticked by 0.1 s while unit 1 stands at 0 health: the windup is
cleared, unit 1 keeps its health, nothing is emitted and the cooldown stays 0. -/
theorem whiffed_windup_only_clears_witness :
    (AttackComponent._physics_process false
        (fun _ => { inside_tree := true, health := some ⟨100, 0⟩ })
        { AttackComponent.initial none false with
            in_attack_windup := true, current_attack_target := some 1,
            attack_windup_timer := 1 / 4 }
        (1 / 10)).state.in_attack_windup = false ∧
    (AttackComponent._physics_process false
        (fun _ => { inside_tree := true, health := some ⟨100, 0⟩ })
        { AttackComponent.initial none false with
            in_attack_windup := true, current_attack_target := some 1,
            attack_windup_timer := 1 / 4 }
        (1 / 10)).units 1 = { inside_tree := true, health := some ⟨100, 0⟩ } ∧
    (AttackComponent._physics_process false
        (fun _ => { inside_tree := true, health := some ⟨100, 0⟩ })
        { AttackComponent.initial none false with
            in_attack_windup := true, current_attack_target := some 1,
            attack_windup_timer := 1 / 4 }
        (1 / 10)).signals = [] :=
  have h := whiffed_windup_only_clears
    (fun _ => { inside_tree := true, health := some ⟨100, 0⟩ })
    { AttackComponent.initial none false with
        in_attack_windup := true, current_attack_target := some 1,
        attack_windup_timer := 1 / 4 }
    (1 / 10) 1 rfl rfl (by norm_num [AttackComponent.initial])
    (Or.inr ⟨⟨100, 0⟩, rfl, by simp [HealthComponent.is_dead]⟩)
  ⟨by rw [h.1], by rw [h.2.1], h.2.2.1⟩

/-- C12.  In a tick in which the windup reaches the attack point with a target
that is in the tree and alive, with MELEE delivery: the target's
`current_health` becomes `max(0, h - attack_damage)` (for the non-negative
`attack_damage` the setters maintain; `max_health` and every other unit are
untouched) through exactly one `apply_damage(attack_damage, owner_unit)` call,
whose signals are the only health signals of the tick; `time_until_next_attack`
is set to `get_attack_interval()`; and the windup state is cleared
(`in_attack_windup = false`, `current_attack_target = nullptr`). -/
theorem melee_strike_at_attack_point (units : Units) (s : AttackComponent) (delta : ℚ)
    (t : ObjectId) (h : HealthComponent)
    (hwind : s.in_attack_windup = true)
    (htarget : s.current_attack_target = some t)
    (hreach : s.attack_point ≤ s.attack_windup_timer + delta)
    (hin : (units t).inside_tree = true)
    (hhealth : (units t).health = some h)
    (halive : h.is_dead = false)
    (hmelee : s.delivery_type = AttackDelivery.MELEE) :
    (∃ h1 : HealthComponent,
      ((AttackComponent._physics_process false units s delta).units t).health = some h1 ∧
      h1.current_health = max 0 (h.current_health - max 0 s.attack_damage) ∧
      (0 ≤ s.attack_damage →
        h1.current_health = max 0 (h.current_health - s.attack_damage)) ∧
      h1.max_health = h.max_health) ∧
    (∀ u, u ≠ t → (AttackComponent._physics_process false units s delta).units u = units u) ∧
    (AttackComponent._physics_process false units s delta).health_signals =
      (h.apply_damage s.attack_damage s.owner_unit).signals.map (fun sig => (t, sig)) ∧
    (AttackComponent._physics_process false units s delta).spawned = [] ∧
    (AttackComponent._physics_process false units s delta).state.time_until_next_attack =
      s.get_attack_interval ∧
    (AttackComponent._physics_process false units s delta).state.in_attack_windup = false ∧
    (AttackComponent._physics_process false units s delta).state.current_attack_target
      = none := by
  rw [physics_process_at_attack_point units s delta hwind hreach]
  unfold AttackComponent.reach_attack_point
  simp only [htarget, hin, hhealth, halive, hmelee, AttackComponent._fire_melee, if_true,
    Bool.not_false]
  refine ⟨⟨(h.apply_damage s.attack_damage s.owner_unit).state, by simp, ?_, ?_, ?_⟩,
    ?_, by simp, by simp, ?_, by simp, by simp⟩
  · exact apply_damage_current h _ _
  · intro hd
    rw [apply_damage_current, max_eq_right hd]
  · exact apply_damage_max h _ _
  · intro u hu
    simp [Function.update, hu]
  · simp [AttackComponent.get_attack_interval]

/-- The theorem of C12 at a default melee component (damage 10) whose windup
on unit 1 has run 0.25 s, ticked by 0.1 s while unit 1 stands at 100/100: the
cooldown becomes the attack interval and the windup is left. -/
theorem melee_strike_at_attack_point_witness :
    (AttackComponent._physics_process false
        (fun _ => { inside_tree := true, health := some HealthComponent.initial })
        { AttackComponent.initial none false with
            in_attack_windup := true, current_attack_target := some 1,
            attack_windup_timer := 1 / 4 }
        (1 / 10)).state.time_until_next_attack =
      AttackComponent.get_attack_interval
        { AttackComponent.initial none false with
            in_attack_windup := true, current_attack_target := some 1,
            attack_windup_timer := 1 / 4 } ∧
    (AttackComponent._physics_process false
        (fun _ => { inside_tree := true, health := some HealthComponent.initial })
        { AttackComponent.initial none false with
            in_attack_windup := true, current_attack_target := some 1,
            attack_windup_timer := 1 / 4 }
        (1 / 10)).state.in_attack_windup = false :=
  have h := melee_strike_at_attack_point
    (fun _ => { inside_tree := true, health := some HealthComponent.initial })
    { AttackComponent.initial none false with
        in_attack_windup := true, current_attack_target := some 1,
        attack_windup_timer := 1 / 4 }
    (1 / 10) 1 HealthComponent.initial rfl rfl (by norm_num [AttackComponent.initial])
    rfl rfl (by simp [HealthComponent.is_dead, HealthComponent.initial]) rfl
  ⟨h.2.2.2.2.1, h.2.2.2.2.2.1⟩

theorem physics_process_ready (E : Engine) (scene : Scene)
    (found : Option NavigationAgent) (u : Unit) (delta : ℚ) (hready : Unit.Ready u) :
    Unit._physics_process E false scene found u delta =
      Unit.tick_orders E scene (Unit.start u) delta := by
  obtain ⟨hin, hr, nav, hnav, hnavin⟩ := hready
  unfold Unit._physics_process
  simp [hin, hr, hnav, hnavin]

theorem face_order_view (E : Engine) (c : UnitRun) (direction : Vector3) :
    (Unit._face_horizontal_direction E c direction).order_view = c.order_view ∧
    (Unit._face_horizontal_direction E c direction).state.velocity = c.state.velocity ∧
    (Unit._face_horizontal_direction E c direction).velocity_writes = c.velocity_writes ∧
    (Unit._face_horizontal_direction E c direction).next_path_queries
      = c.next_path_queries ∧
    (Unit._face_horizontal_direction E c direction).move_and_slide_calls
      = c.move_and_slide_calls ∧
    (Unit._face_horizontal_direction E c direction).state.navigation_agent
      = c.state.navigation_agent ∧
    (Unit._face_horizontal_direction E c direction).state.desired_location
      = c.state.desired_location := by
  unfold Unit._face_horizontal_direction
  simp only
  split_ifs <;> exact ⟨rfl, rfl, rfl, rfl, rfl, rfl, rfl⟩

theorem update_navigation_target_order_view (E : Engine) (c : UnitRun) :
    (Unit.update_navigation_target E c).order_view = c.order_view ∧
    (Unit.update_navigation_target E c).state.velocity = c.state.velocity ∧
    (Unit.update_navigation_target E c).velocity_writes = c.velocity_writes ∧
    (Unit.update_navigation_target E c).next_path_queries = c.next_path_queries ∧
    (Unit.update_navigation_target E c).move_and_slide_calls = c.move_and_slide_calls ∧
    (Unit.update_navigation_target E c).state.desired_location
      = c.state.desired_location := by
  unfold Unit.update_navigation_target
  cases c.state.navigation_agent with
  | none => exact ⟨rfl, rfl, rfl, rfl, rfl, rfl⟩
  | some nav =>
    simp only
    split_ifs <;> exact ⟨rfl, rfl, rfl, rfl, rfl, rfl⟩

theorem shared_movement_order_view (E : Engine) (c : UnitRun) :
    (Unit.shared_movement E c).order_view = c.order_view := by
  have h1 := (update_navigation_target_order_view E c).1
  unfold Unit.shared_movement
  simp only
  cases (Unit.update_navigation_target E c).state.navigation_agent with
  | none => exact h1
  | some nav =>
    simp only
    split_ifs
    · exact h1
    · rw [← h1]
      exact (face_order_view E _ _).1
    · exact h1

theorem stop_order_order_view (c : UnitRun) :
    (Unit.stop_order c).state.current_order = OrderType.NONE ∧
    (Unit.stop_order c).state.current_order_target = none ∧
    (Unit.stop_order c).state.attack_target = none ∧
    (Unit.stop_order c).state.interact_target = none ∧
    (Unit.stop_order c).state.attack_component = c.state.attack_component ∧
    (Unit.stop_order c).try_fire_at_calls = c.try_fire_at_calls ∧
    (Unit.stop_order c).attack_signals = c.attack_signals := by
  unfold Unit.stop_order Unit._set_order Unit._clear_order_targets Unit.set_velocity
  simp only
  split_ifs <;> exact ⟨rfl, rfl, rfl, rfl, rfl, rfl, rfl⟩

theorem tick_orders_target_gone (E : Engine) (scene : Scene) (u : Unit) (delta : ℚ)
    (horder : u.current_order = OrderType.ATTACK) (hgone : Unit.TargetGone scene u) :
    Unit.tick_orders E scene (Unit.start u) delta =
      Unit.shared_movement E (Unit.stop_order (Unit.start u)) := by
  unfold Unit.tick_orders
  simp only [Unit.start, horder]
  cases htarget : u.attack_target with
  | none => rfl
  | some t =>
    simp only
    rcases hgone t htarget with hout | ⟨h, hh, hdead⟩
    · simp [hout]
    · by_cases hin : (scene.units t).inside_tree = true
      · simp [hin, hh, hdead]
      · simp [hin]

theorem tick_orders_live_target (E : Engine) (scene : Scene) (u : Unit) (delta : ℚ)
    (t : ObjectId) (horder : u.current_order = OrderType.ATTACK)
    (htarget : u.attack_target = some t) (hlive : Unit.LiveTarget scene t) :
    Unit.tick_orders E scene (Unit.start u) delta =
      Unit.attack_live_target E scene (Unit.start u) t delta := by
  obtain ⟨hin, halive⟩ := hlive
  unfold Unit.tick_orders
  simp only [Unit.start, horder, htarget, hin, Bool.not_true, Bool.false_eq_true, if_false]
  cases hh : (scene.units t).health with
  | none => rfl
  | some h => simp [halive h hh]

/-- C16.  For every ready unit holding an ATTACK order, a tick in which the
target is null, not in the tree, or has a `HealthComponent` reporting dead
ends with the order NONE and both target references (and
`current_order_target`) cleared, and makes no strike attempt: `try_fire_at` is
not called and the attack component is as it was. -/
theorem attack_order_dropped_when_target_gone (E : Engine) (scene : Scene)
    (found : Option NavigationAgent) (u : Unit) (delta : ℚ)
    (hready : Unit.Ready u) (horder : u.current_order = OrderType.ATTACK)
    (hgone : Unit.TargetGone scene u) :
    (Unit._physics_process E false scene found u delta).state.current_order
      = OrderType.NONE ∧
    (Unit._physics_process E false scene found u delta).state.attack_target = none ∧
    (Unit._physics_process E false scene found u delta).state.interact_target = none ∧
    (Unit._physics_process E false scene found u delta).state.current_order_target
      = none ∧
    (Unit._physics_process E false scene found u delta).try_fire_at_calls = [] ∧
    (Unit._physics_process E false scene found u delta).attack_signals = [] ∧
    (Unit._physics_process E false scene found u delta).state.attack_component
      = u.attack_component := by
  rw [physics_process_ready E scene found u delta hready,
    tick_orders_target_gone E scene u delta horder hgone]
  have hview := shared_movement_order_view E (Unit.stop_order (Unit.start u))
  simp only [UnitRun.order_view, Prod.mk.injEq] at hview
  obtain ⟨h1, h2, h3, h4, h5, h6, h7, -⟩ := hview
  obtain ⟨s1, s2, s3, s4, s5, s6, s7⟩ := stop_order_order_view (Unit.start u)
  exact ⟨h1.trans s1, h3.trans s3, h4.trans s4, h2.trans s2, h6.trans s6, h7.trans s7,
    h5.trans s5⟩

theorem face_target_fields (E : Engine) (c : UnitRun) (to_target : Vector3)
    (distance_to_target : ℚ) :
    (Unit.face_target E c to_target distance_to_target).order_view = c.order_view ∧
    (Unit.face_target E c to_target distance_to_target).state.velocity = c.state.velocity ∧
    (Unit.face_target E c to_target distance_to_target).velocity_writes
      = c.velocity_writes ∧
    (Unit.face_target E c to_target distance_to_target).next_path_queries
      = c.next_path_queries ∧
    (Unit.face_target E c to_target distance_to_target).move_and_slide_calls
      = c.move_and_slide_calls ∧
    (Unit.face_target E c to_target distance_to_target).state.navigation_agent
      = c.state.navigation_agent ∧
    (Unit.face_target E c to_target distance_to_target).state.desired_location
      = c.state.desired_location := by
  unfold Unit.face_target
  split_ifs
  · exact face_order_view E c _
  · exact ⟨rfl, rfl, rfl, rfl, rfl, rfl, rfl⟩

theorem hold_strike_fields (scene : Scene) (c : UnitRun) (a : AttackComponent)
    (t : ObjectId) (delta : ℚ) :
    (Unit.hold_velocity (Unit.strike scene c a t delta)).try_fire_at_calls
      = c.try_fire_at_calls ++ [some t] ∧
    (Unit.hold_velocity (Unit.strike scene c a t delta)).state.attack_component
      = some (a.try_fire_at scene.units (some t) delta).state ∧
    (Unit.hold_velocity (Unit.strike scene c a t delta)).velocity_writes
      = c.velocity_writes ++ [{ x := 0, y := c.state.velocity.y, z := 0 }] ∧
    (Unit.hold_velocity (Unit.strike scene c a t delta)).state.velocity
      = { x := 0, y := c.state.velocity.y, z := 0 } ∧
    (Unit.hold_velocity (Unit.strike scene c a t delta)).state.current_order
      = c.state.current_order ∧
    (Unit.hold_velocity (Unit.strike scene c a t delta)).next_path_queries
      = c.next_path_queries ∧
    (Unit.hold_velocity (Unit.strike scene c a t delta)).move_and_slide_calls
      = c.move_and_slide_calls + 1 :=
  ⟨rfl, rfl, rfl, rfl, rfl, rfl, rfl⟩

theorem faced_and_updated_fields (E : Engine) (c : UnitRun) (to_target : Vector3)
    (distance_to_target : ℚ) :
    (Unit.update_navigation_target E
      (Unit.face_target E c to_target distance_to_target)).order_view = c.order_view ∧
    (Unit.update_navigation_target E
      (Unit.face_target E c to_target distance_to_target)).state.velocity
        = c.state.velocity ∧
    (Unit.update_navigation_target E
      (Unit.face_target E c to_target distance_to_target)).velocity_writes
        = c.velocity_writes ∧
    (Unit.update_navigation_target E
      (Unit.face_target E c to_target distance_to_target)).next_path_queries
        = c.next_path_queries ∧
    (Unit.update_navigation_target E
      (Unit.face_target E c to_target distance_to_target)).move_and_slide_calls
        = c.move_and_slide_calls ∧
    (Unit.update_navigation_target E
      (Unit.face_target E c to_target distance_to_target)).state.desired_location
        = c.state.desired_location := by
  obtain ⟨f1, f2, f3, f4, f5, -, f7⟩ := face_target_fields E c to_target distance_to_target
  obtain ⟨n1, n2, n3, n4, n5, n6⟩ :=
    update_navigation_target_order_view E (Unit.face_target E c to_target distance_to_target)
  exact ⟨n1.trans f1, n2.trans f2, n3.trans f3, n4.trans f4, n5.trans f5, n6.trans f7⟩

theorem attack_live_target_in_range (E : Engine) (scene : Scene) (c : UnitRun)
    (t : ObjectId) (delta : ℚ)
    (hd : E.length (Unit.horizontal_offset c.state (scene.position t))
      ≤ Unit.effective_attack_range c.state) :
    Unit.attack_live_target E scene c t delta =
      Unit.hold_and_strike E scene (Unit.track c (scene.position t)) t delta
        (Unit.horizontal_offset c.state (scene.position t))
        (E.length (Unit.horizontal_offset c.state (scene.position t)))
        c.state.attack_component := by
  unfold Unit.attack_live_target
  exact if_pos hd

theorem attack_live_target_in_buffer (E : Engine) (scene : Scene) (c : UnitRun)
    (t : ObjectId) (delta : ℚ)
    (hfar : Unit.effective_attack_range c.state
      < E.length (Unit.horizontal_offset c.state (scene.position t)))
    (hnear : E.length (Unit.horizontal_offset c.state (scene.position t))
      ≤ Unit.effective_attack_range c.state + c.state.attack_buffer_range) :
    Unit.attack_live_target E scene c t delta =
      Unit.shared_movement E
        (Unit.update_navigation_target E
          (Unit.face_target E (Unit.track c (scene.position t))
            (Unit.horizontal_offset c.state (scene.position t))
            (E.length (Unit.horizontal_offset c.state (scene.position t))))) := by
  unfold Unit.attack_live_target
  exact (if_neg (not_le.mpr hfar)).trans (if_pos hnear)

/-- C17.  For every ready unit with an `AttackComponent`, holding an ATTACK
order on a live target at horizontal distance `d ≤ attack_range` of that
component, the tick calls `try_fire_at` on that target exactly once, writes
one velocity, `(0, v.y, 0)` with `v.y` the previous vertical velocity, keeps
the order ATTACK, and does not enter the shared movement path: the next path
position is never queried and `move_and_slide` runs once. -/
theorem hold_and_strike_in_range (E : Engine) (scene : Scene)
    (found : Option NavigationAgent) (u : Unit) (delta : ℚ) (t : ObjectId)
    (a : AttackComponent)
    (hready : Unit.Ready u) (horder : u.current_order = OrderType.ATTACK)
    (htarget : u.attack_target = some t) (hlive : Unit.LiveTarget scene t)
    (hcomp : u.attack_component = some a)
    (hd : E.length (Unit.horizontal_offset u (scene.position t)) ≤ a.attack_range) :
    (Unit._physics_process E false scene found u delta).try_fire_at_calls = [some t] ∧
    (Unit._physics_process E false scene found u delta).state.attack_component =
      some (a.try_fire_at scene.units (some t) delta).state ∧
    (Unit._physics_process E false scene found u delta).velocity_writes =
      [{ x := 0, y := u.velocity.y, z := 0 }] ∧
    (Unit._physics_process E false scene found u delta).state.velocity =
      { x := 0, y := u.velocity.y, z := 0 } ∧
    (Unit._physics_process E false scene found u delta).state.current_order
      = OrderType.ATTACK ∧
    (Unit._physics_process E false scene found u delta).next_path_queries = 0 ∧
    (Unit._physics_process E false scene found u delta).move_and_slide_calls = 1 := by
  have hrange : Unit.effective_attack_range (Unit.start u).state = a.attack_range := by
    show Unit.effective_attack_range u = a.attack_range
    unfold Unit.effective_attack_range
    rw [hcomp]
    rfl
  rw [physics_process_ready E scene found u delta hready,
    tick_orders_live_target E scene u delta t horder htarget hlive,
    attack_live_target_in_range E scene (Unit.start u) t delta (by rw [hrange]; exact hd)]
  have hc : (Unit.start u).state.attack_component = some a := hcomp
  rw [hc]
  unfold Unit.hold_and_strike
  simp only
  obtain ⟨g1, g2, g3, g4, g5, -⟩ := faced_and_updated_fields E
    (Unit.track (Unit.start u) (scene.position t))
    (Unit.horizontal_offset (Unit.start u).state (scene.position t))
    (E.length (Unit.horizontal_offset (Unit.start u).state (scene.position t)))
  simp only [UnitRun.order_view, Prod.mk.injEq] at g1
  obtain ⟨k1, k2, k3, k4, k5, k6, k7⟩ := hold_strike_fields scene
    (Unit.update_navigation_target E
      (Unit.face_target E (Unit.track (Unit.start u) (scene.position t))
        (Unit.horizontal_offset (Unit.start u).state (scene.position t))
        (E.length (Unit.horizontal_offset (Unit.start u).state (scene.position t)))))
    a t delta
  refine ⟨?_, k2, ?_, ?_, ?_, ?_, ?_⟩
  · rw [k1, g1.2.2.2.2.2.1]; rfl
  · rw [k3, g3, g2]; rfl
  · rw [k4, g2]; rfl
  · rw [k5, g1.1]; exact horder
  · rw [k6, g4]; rfl
  · rw [k7, g5]; rfl

theorem sample_length_axis (a : ℚ) :
    Engine.sample.length { x := a, y := 0, z := 0 } = |a| := by
  show Rat.sqrt (Vector3.length_squared { x := a, y := 0, z := 0 }) = |a|
  have h : Vector3.length_squared { x := a, y := 0, z := 0 } = a * a := by
    simp [Vector3.length_squared]
  rw [h, Rat.sqrt_eq]

theorem sample_offset (attack_component : Option AttackComponent) (nav_target : Vector3)
    (x : ℚ) (health : Option HealthComponent) :
    Engine.sample.length
      (Unit.horizontal_offset (sample_attacker attack_component nav_target)
        ((sample_scene x health).position 1)) = |x| := by
  have h : Unit.horizontal_offset (sample_attacker attack_component nav_target)
      ((sample_scene x health).position 1) = { x := x, y := 0, z := 0 } := by
    simp [Unit.horizontal_offset, sample_attacker, sample_unit, sample_scene, Unit.initial,
      Vector3.sub]
  rw [h, sample_length_axis]

theorem sample_attacker_ready (attack_component : Option AttackComponent)
    (nav_target : Vector3) : Unit.Ready (sample_attacker attack_component nav_target) :=
  ⟨rfl, rfl, sample_agent nav_target, rfl, rfl⟩

/-- The theorem of C16 for the sample attacker whose target, unit 1, stands at
0 health: the tick ends with the order NONE, no target and no `try_fire_at`
call. -/
theorem attack_order_dropped_when_target_gone_witness :
    (Unit._physics_process Engine.sample false (sample_scene 10 (some ⟨100, 0⟩)) none
      (sample_attacker (some (AttackComponent.initial (some 9) true)) ⟨10, 0, 0⟩)
      (1 / 60)).state.current_order = OrderType.NONE ∧
    (Unit._physics_process Engine.sample false (sample_scene 10 (some ⟨100, 0⟩)) none
      (sample_attacker (some (AttackComponent.initial (some 9) true)) ⟨10, 0, 0⟩)
      (1 / 60)).state.attack_target = none ∧
    (Unit._physics_process Engine.sample false (sample_scene 10 (some ⟨100, 0⟩)) none
      (sample_attacker (some (AttackComponent.initial (some 9) true)) ⟨10, 0, 0⟩)
      (1 / 60)).try_fire_at_calls = [] :=
  have h := attack_order_dropped_when_target_gone Engine.sample
    (sample_scene 10 (some ⟨100, 0⟩)) none
    (sample_attacker (some (AttackComponent.initial (some 9) true)) ⟨10, 0, 0⟩) (1 / 60)
    (sample_attacker_ready _ _) rfl
    (fun _ _ => Or.inr ⟨⟨100, 0⟩, rfl, by simp [HealthComponent.is_dead]⟩)
  ⟨h.1, h.2.1, h.2.2.2.2.1⟩

/-- The theorem of C17 for the sample attacker with a default attack component
(range 2.5) and its target, unit 1, alive at distance 2: the tick calls
`try_fire_at` on unit 1 once, writes the velocity `(0, 0, 0)` and keeps the
order ATTACK. -/
theorem hold_and_strike_in_range_witness :
    (Unit._physics_process Engine.sample false (sample_scene 2 (some HealthComponent.initial))
      none (sample_attacker (some (AttackComponent.initial (some 9) true)) ⟨2, 0, 0⟩)
      (1 / 60)).try_fire_at_calls = [some 1] ∧
    (Unit._physics_process Engine.sample false (sample_scene 2 (some HealthComponent.initial))
      none (sample_attacker (some (AttackComponent.initial (some 9) true)) ⟨2, 0, 0⟩)
      (1 / 60)).velocity_writes = [{ x := 0, y := 0, z := 0 }] ∧
    (Unit._physics_process Engine.sample false (sample_scene 2 (some HealthComponent.initial))
      none (sample_attacker (some (AttackComponent.initial (some 9) true)) ⟨2, 0, 0⟩)
      (1 / 60)).state.current_order = OrderType.ATTACK :=
  have h := hold_and_strike_in_range Engine.sample
    (sample_scene 2 (some HealthComponent.initial)) none
    (sample_attacker (some (AttackComponent.initial (some 9) true)) ⟨2, 0, 0⟩) (1 / 60) 1
    (AttackComponent.initial (some 9) true)
    (sample_attacker_ready _ _) rfl rfl
    ⟨rfl, fun h hh => by
      have : h = HealthComponent.initial := (Option.some.inj hh).symm
      subst this
      simp [HealthComponent.is_dead, HealthComponent.initial]⟩
    rfl
    (by rw [sample_offset]; norm_num [AttackComponent.initial])
  ⟨h.1, h.2.2.1, h.2.2.2.2.1⟩

theorem update_navigation_target_form (E : Engine) (c : UnitRun) :
    ∃ n, Unit.update_navigation_target E c =
      { c with state := { c.state with navigation_agent := n } } := by
  unfold Unit.update_navigation_target
  cases h : c.state.navigation_agent with
  | none => exact ⟨none, by simp [← h]⟩
  | some nav =>
    simp only
    split_ifs
    · exact ⟨_, rfl⟩
    · exact ⟨some nav, by simp [← h]⟩

theorem update_navigation_target_agent (E : Engine) (c : UnitRun) (nav : NavigationAgent)
    (h : c.state.navigation_agent = some nav) :
    (Unit.update_navigation_target E c).state.navigation_agent =
      some (Unit.retarget E nav c.state.desired_location) := by
  unfold Unit.update_navigation_target Unit.retarget
  simp only [h]
  by_cases ha : E.is_equal_approx nav.target_position c.state.desired_location = true
  · simp [ha, h]
  · simp [ha, Unit.nav_set_target_position, h]

theorem face_horizontal_direction_form (E : Engine) (c : UnitRun) (direction : Vector3) :
    ∃ f, Unit._face_horizontal_direction E c direction =
      { c with state := { c.state with facing := f } } := by
  unfold Unit._face_horizontal_direction
  simp only
  split_ifs
  · exact ⟨c.state.facing, rfl⟩
  · exact ⟨_, rfl⟩

theorem face_target_form (E : Engine) (c : UnitRun) (to_target : Vector3)
    (distance_to_target : ℚ) :
    ∃ f, Unit.face_target E c to_target distance_to_target =
      { c with state := { c.state with facing := f } } := by
  unfold Unit.face_target
  split_ifs
  · exact face_horizontal_direction_form E c _
  · exact ⟨c.state.facing, rfl⟩

theorem shared_movement_effect (E : Engine) (c : UnitRun) (nav1 : NavigationAgent)
    (h : (Unit.update_navigation_target E c).state.navigation_agent = some nav1) :
    (Unit.shared_movement E c).velocity_writes =
      c.velocity_writes ++ [Unit.path_velocity E c.state (E.get_next_path_position nav1)] ∧
    (Unit.shared_movement E c).state.velocity =
      Unit.path_velocity E c.state (E.get_next_path_position nav1) ∧
    (Unit.shared_movement E c).next_path_queries = c.next_path_queries + 1 ∧
    (Unit.shared_movement E c).move_and_slide_calls = c.move_and_slide_calls + 1 ∧
    (Unit.shared_movement E c).state.navigation_agent = some nav1 := by
  obtain ⟨n, hn⟩ := update_navigation_target_form E c
  rw [hn] at h
  have hn1 : n = some nav1 := h
  subst hn1
  unfold Unit.shared_movement Unit.path_velocity
  rw [hn]
  simp only
  split_ifs with h1 h2
  · exact ⟨rfl, rfl, rfl, rfl, rfl⟩
  · obtain ⟨f, hf⟩ := face_horizontal_direction_form E
      (Unit.set_velocity
        { c with state := { c.state with navigation_agent := some nav1 }
                 next_path_queries := c.next_path_queries + 1 }
        { ((((E.get_next_path_position nav1).sub c.state.global_position).div
              (E.length ((E.get_next_path_position nav1).sub c.state.global_position))).scale
              c.state.speed) with y := c.state.velocity.y })
      (((E.get_next_path_position nav1).sub c.state.global_position).div
        (E.length ((E.get_next_path_position nav1).sub c.state.global_position)))
    rw [hf]
    exact ⟨rfl, rfl, rfl, rfl, rfl⟩
  · exact ⟨rfl, rfl, rfl, rfl, rfl⟩

theorem retarget_idem (E : Engine) (nav : NavigationAgent) (p : Vector3) :
    Unit.retarget E (Unit.retarget E nav p) p = Unit.retarget E nav p := by
  unfold Unit.retarget
  by_cases ha : E.is_equal_approx nav.target_position p = true
  · simp [ha]
  · simp only [ha, Bool.false_eq_true, if_false]
    split_ifs <;> rfl

theorem buffer_zone_effect (E : Engine) (scene : Scene) (found : Option NavigationAgent)
    (u : Unit) (delta : ℚ) (t : ObjectId) (nav : NavigationAgent)
    (hready : Unit.Ready u) (horder : u.current_order = OrderType.ATTACK)
    (htarget : u.attack_target = some t) (hlive : Unit.LiveTarget scene t)
    (hnav : u.navigation_agent = some nav)
    (hfar : Unit.effective_attack_range u
      < E.length (Unit.horizontal_offset u (scene.position t)))
    (hnear : E.length (Unit.horizontal_offset u (scene.position t))
      ≤ Unit.effective_attack_range u + u.attack_buffer_range) :
    (Unit._physics_process E false scene found u delta).try_fire_at_calls = [] ∧
    (Unit._physics_process E false scene found u delta).attack_signals = [] ∧
    (Unit._physics_process E false scene found u delta).state.attack_component
      = u.attack_component ∧
    (Unit._physics_process E false scene found u delta).state.current_order
      = OrderType.ATTACK ∧
    (Unit._physics_process E false scene found u delta).state.navigation_agent =
      some (Unit.retarget E nav (scene.position t)) ∧
    (Unit._physics_process E false scene found u delta).velocity_writes =
      [Unit.path_velocity E u
        (E.get_next_path_position (Unit.retarget E nav (scene.position t)))] ∧
    (Unit._physics_process E false scene found u delta).next_path_queries = 1 := by
  rw [physics_process_ready E scene found u delta hready,
    tick_orders_live_target E scene u delta t horder htarget hlive,
    attack_live_target_in_buffer E scene (Unit.start u) t delta hfar hnear]
  obtain ⟨f, hf⟩ := face_target_form E (Unit.track (Unit.start u) (scene.position t))
    (Unit.horizontal_offset (Unit.start u).state (scene.position t))
    (E.length (Unit.horizontal_offset (Unit.start u).state (scene.position t)))
  rw [hf]
  have hagent := update_navigation_target_agent E
    { Unit.track (Unit.start u) (scene.position t) with
        state := { (Unit.track (Unit.start u) (scene.position t)).state with facing := f } }
    nav hnav
  obtain ⟨n, hn⟩ := update_navigation_target_form E
    { Unit.track (Unit.start u) (scene.position t) with
        state := { (Unit.track (Unit.start u) (scene.position t)).state with facing := f } }
  rw [hn] at hagent ⊢
  have hn1 : n = some (Unit.retarget E nav (scene.position t)) := hagent
  subst hn1
  have hview := shared_movement_order_view E
    { Unit.track (Unit.start u) (scene.position t) with
        state :=
          { (Unit.track (Unit.start u) (scene.position t)).state with
              facing := f
              navigation_agent := some (Unit.retarget E nav (scene.position t)) } }
  simp only [UnitRun.order_view, Prod.mk.injEq] at hview
  obtain ⟨v1, -, -, -, v5, v6, v7, -⟩ := hview
  have hagent2 := update_navigation_target_agent E
    { Unit.track (Unit.start u) (scene.position t) with
        state :=
          { (Unit.track (Unit.start u) (scene.position t)).state with
              facing := f
              navigation_agent := some (Unit.retarget E nav (scene.position t)) } }
    (Unit.retarget E nav (scene.position t)) rfl
  have hdes : ({ Unit.track (Unit.start u) (scene.position t) with
        state :=
          { (Unit.track (Unit.start u) (scene.position t)).state with
              facing := f
              navigation_agent := some (Unit.retarget E nav (scene.position t)) } }
        : UnitRun).state.desired_location = scene.position t := rfl
  rw [hdes, retarget_idem] at hagent2
  obtain ⟨e1, -, e3, -, e5⟩ := shared_movement_effect E _ _ hagent2
  exact ⟨v6, v7, v5, v1.trans horder, e5, e1, e3⟩

theorem sample_attacker_live : Unit.LiveTarget (sample_scene 3 (some HealthComponent.initial)) 1 :=
  ⟨rfl, fun h hh => by
    have : h = HealthComponent.initial := (Option.some.inj hh).symm
    subst this
    simp [HealthComponent.is_dead, HealthComponent.initial]⟩

theorem sample_attacker_range (a : AttackComponent) (nav_target : Vector3) :
    Unit.effective_attack_range (sample_attacker (some a) nav_target) = a.attack_range :=
  rfl

/-- C18 as stated fails in one point: the navigation target need not be the
target's current position.  The sample attacker (range 2.5, buffer 0.5) has
its target, unit 1, alive at `(3, 0, 0)`, distance 3, inside the buffer zone;
its navigation target is `(3.000001, 0, 0)`, which `is_equal_approx` to the
target's position, so the tick leaves it there. -/
theorem buffer_zone_nav_target_counterexample :
    Unit.Ready (sample_attacker (some (AttackComponent.initial (some 9) true))
      ⟨3000001 / 1000000, 0, 0⟩) ∧
    Unit.LiveTarget (sample_scene 3 (some HealthComponent.initial)) 1 ∧
    Engine.sample.length
      (Unit.horizontal_offset
        (sample_attacker (some (AttackComponent.initial (some 9) true))
          ⟨3000001 / 1000000, 0, 0⟩)
        ((sample_scene 3 (some HealthComponent.initial)).position 1)) = 3 ∧
    (AttackComponent.initial (some 9) true).attack_range = 5 / 2 ∧
    (sample_attacker (some (AttackComponent.initial (some 9) true))
      ⟨3000001 / 1000000, 0, 0⟩).attack_buffer_range = 1 / 2 ∧
    (Unit._physics_process Engine.sample false
      (sample_scene 3 (some HealthComponent.initial)) none
      (sample_attacker (some (AttackComponent.initial (some 9) true))
        ⟨3000001 / 1000000, 0, 0⟩) (1 / 60)).state.navigation_agent =
      some (sample_agent ⟨3000001 / 1000000, 0, 0⟩) ∧
    (sample_agent ⟨3000001 / 1000000, 0, 0⟩).target_position ≠
      (sample_scene 3 (some HealthComponent.initial)).position 1 := by
  have hlen := sample_offset (some (AttackComponent.initial (some 9) true))
    ⟨3000001 / 1000000, 0, 0⟩ 3 (some HealthComponent.initial)
  rw [show |(3 : ℚ)| = 3 by norm_num] at hlen
  have happrox : Engine.sample.is_equal_approx ⟨3000001 / 1000000, 0, 0⟩ ⟨3, 0, 0⟩ = true := by
    simp only [Engine.sample, scalar_is_equal_approx]
    norm_num [abs_of_pos]
  have hre : Unit.retarget Engine.sample (sample_agent ⟨3000001 / 1000000, 0, 0⟩)
      ((sample_scene 3 (some HealthComponent.initial)).position 1) =
      sample_agent ⟨3000001 / 1000000, 0, 0⟩ := by
    unfold Unit.retarget
    exact if_pos happrox
  have h := buffer_zone_effect Engine.sample (sample_scene 3 (some HealthComponent.initial))
    none (sample_attacker (some (AttackComponent.initial (some 9) true))
      ⟨3000001 / 1000000, 0, 0⟩) (1 / 60) 1 (sample_agent ⟨3000001 / 1000000, 0, 0⟩)
    (sample_attacker_ready _ _) rfl rfl sample_attacker_live rfl
    (by rw [hlen, sample_attacker_range]; norm_num [AttackComponent.initial])
    (by rw [hlen, sample_attacker_range]
        norm_num [AttackComponent.initial, sample_attacker, sample_unit, Unit.initial])
  refine ⟨sample_attacker_ready _ _, sample_attacker_live, hlen, rfl, rfl, ?_, ?_⟩
  · rw [h.2.2.2.2.1, hre]
  · simp only [sample_agent, sample_scene, ne_eq, Vector3.mk.injEq, and_true]
    norm_num

/-- C18, amended.  For every ready unit holding an ATTACK order on a live
target at horizontal distance `d` with `r < d ≤ r + attack_buffer_range` (`r`
the effective attack range), the tick keeps chasing and does not hold:
`try_fire_at` is not called, the order stays ATTACK, the velocity written is
the one the shared movement path computes from the next path position (one
query), and the navigation target is the target's current position, unless
the previous navigation target already `is_equal_approx` to that position, in
which case the agent is left as it was. -/
theorem chase_in_buffer_zone (E : Engine) (scene : Scene) (found : Option NavigationAgent)
    (u : Unit) (delta : ℚ) (t : ObjectId) (nav : NavigationAgent)
    (hready : Unit.Ready u) (horder : u.current_order = OrderType.ATTACK)
    (htarget : u.attack_target = some t) (hlive : Unit.LiveTarget scene t)
    (hnav : u.navigation_agent = some nav)
    (hfar : Unit.effective_attack_range u
      < E.length (Unit.horizontal_offset u (scene.position t)))
    (hnear : E.length (Unit.horizontal_offset u (scene.position t))
      ≤ Unit.effective_attack_range u + u.attack_buffer_range) :
    (Unit._physics_process E false scene found u delta).try_fire_at_calls = [] ∧
    (Unit._physics_process E false scene found u delta).state.current_order
      = OrderType.ATTACK ∧
    (∃ nav1 : NavigationAgent,
      (Unit._physics_process E false scene found u delta).state.navigation_agent
        = some nav1 ∧
      ((E.is_equal_approx nav.target_position (scene.position t) = false ∧
          nav1 = { nav with target_position := scene.position t }) ∨
        (E.is_equal_approx nav.target_position (scene.position t) = true ∧ nav1 = nav)) ∧
      (Unit._physics_process E false scene found u delta).velocity_writes =
        [Unit.path_velocity E u (E.get_next_path_position nav1)]) ∧
    (Unit._physics_process E false scene found u delta).next_path_queries = 1 := by
  obtain ⟨h1, -, -, h4, h5, h6, h7⟩ :=
    buffer_zone_effect E scene found u delta t nav hready horder htarget hlive hnav hfar hnear
  refine ⟨h1, h4, ⟨Unit.retarget E nav (scene.position t), h5, ?_, h6⟩, h7⟩
  unfold Unit.retarget
  by_cases ha : E.is_equal_approx nav.target_position (scene.position t) = true
  · exact Or.inr ⟨ha, if_pos ha⟩
  · exact Or.inl ⟨by simpa using ha, if_neg ha⟩

/-- The amended theorem of C18 for the sample attacker (range 2.5, buffer 0.5)
whose target, unit 1, is alive at distance 3 while the navigation agent still
aims at the origin: no `try_fire_at`, the order stays ATTACK, one path query. -/
theorem chase_in_buffer_zone_witness :
    (Unit._physics_process Engine.sample false
      (sample_scene 3 (some HealthComponent.initial)) none
      (sample_attacker (some (AttackComponent.initial (some 9) true)) ⟨0, 0, 0⟩)
      (1 / 60)).try_fire_at_calls = [] ∧
    (Unit._physics_process Engine.sample false
      (sample_scene 3 (some HealthComponent.initial)) none
      (sample_attacker (some (AttackComponent.initial (some 9) true)) ⟨0, 0, 0⟩)
      (1 / 60)).state.current_order = OrderType.ATTACK ∧
    (Unit._physics_process Engine.sample false
      (sample_scene 3 (some HealthComponent.initial)) none
      (sample_attacker (some (AttackComponent.initial (some 9) true)) ⟨0, 0, 0⟩)
      (1 / 60)).next_path_queries = 1 :=
  have hlen := sample_offset (some (AttackComponent.initial (some 9) true))
    ⟨0, 0, 0⟩ 3 (some HealthComponent.initial)
  have h := chase_in_buffer_zone Engine.sample
    (sample_scene 3 (some HealthComponent.initial)) none
    (sample_attacker (some (AttackComponent.initial (some 9) true)) ⟨0, 0, 0⟩)
    (1 / 60) 1 (sample_agent ⟨0, 0, 0⟩)
    (sample_attacker_ready _ _) rfl rfl sample_attacker_live rfl
    (by rw [hlen, sample_attacker_range]; norm_num [AttackComponent.initial])
    (by rw [hlen, sample_attacker_range]
        norm_num [AttackComponent.initial, sample_attacker, sample_unit, Unit.initial])
  ⟨h.1, h.2.1, h.2.2.2⟩

/-- C20.  For every ready unit without an `AttackComponent`, holding an ATTACK
order on a live target within the fallback range (`d ≤ auto_attack_range`),
the tick falls back to the order NONE with both target references (and
`current_order_target`) cleared; `try_fire_at` is not called, no attack signal
is emitted and the unit still has no attack component, so no windup starts.
The tick reads the units of the scene and returns none of them, so no damage
is applied. -/
theorem attack_without_component_falls_back (E : Engine) (scene : Scene)
    (found : Option NavigationAgent) (u : Unit) (delta : ℚ) (t : ObjectId)
    (hready : Unit.Ready u) (horder : u.current_order = OrderType.ATTACK)
    (htarget : u.attack_target = some t) (hlive : Unit.LiveTarget scene t)
    (hcomp : u.attack_component = none)
    (hd : E.length (Unit.horizontal_offset u (scene.position t)) ≤ u.auto_attack_range) :
    (Unit._physics_process E false scene found u delta).state.current_order
      = OrderType.NONE ∧
    (Unit._physics_process E false scene found u delta).state.attack_target = none ∧
    (Unit._physics_process E false scene found u delta).state.interact_target = none ∧
    (Unit._physics_process E false scene found u delta).state.current_order_target
      = none ∧
    (Unit._physics_process E false scene found u delta).try_fire_at_calls = [] ∧
    (Unit._physics_process E false scene found u delta).attack_signals = [] ∧
    (Unit._physics_process E false scene found u delta).state.attack_component = none := by
  have hrange : Unit.effective_attack_range (Unit.start u).state = u.auto_attack_range := by
    show Unit.effective_attack_range u = u.auto_attack_range
    unfold Unit.effective_attack_range
    rw [hcomp]
  rw [physics_process_ready E scene found u delta hready,
    tick_orders_live_target E scene u delta t horder htarget hlive,
    attack_live_target_in_range E scene (Unit.start u) t delta (by rw [hrange]; exact hd)]
  have hc : (Unit.start u).state.attack_component = none := hcomp
  rw [hc]
  unfold Unit.hold_and_strike
  simp only
  obtain ⟨g1, -⟩ := faced_and_updated_fields E
    (Unit.track (Unit.start u) (scene.position t))
    (Unit.horizontal_offset (Unit.start u).state (scene.position t))
    (E.length (Unit.horizontal_offset (Unit.start u).state (scene.position t)))
  simp only [UnitRun.order_view, Prod.mk.injEq] at g1
  obtain ⟨-, -, -, -, g5, g6, g7, -⟩ := g1
  obtain ⟨s1, s2, s3, s4, s5, s6, s7⟩ := stop_order_order_view
    { Unit.update_navigation_target E
        (Unit.face_target E (Unit.track (Unit.start u) (scene.position t))
          (Unit.horizontal_offset (Unit.start u).state (scene.position t))
          (E.length (Unit.horizontal_offset (Unit.start u).state (scene.position t)))) with
      errors := (Unit.update_navigation_target E
        (Unit.face_target E (Unit.track (Unit.start u) (scene.position t))
          (Unit.horizontal_offset (Unit.start u).state (scene.position t))
          (E.length (Unit.horizontal_offset (Unit.start u).state
            (scene.position t))))).errors ++
        ["[Unit] ATTACK order requires AttackComponent"] }
  exact ⟨s1, s3, s4, s2, s6.trans g6, s7.trans g7, (s5.trans g5).trans hcomp⟩

/-- The theorem of C20 for the sample attacker without an attack component
(`auto_attack_range` 2.5) whose target, unit 1, is alive at distance 2: the
tick ends with the order NONE, no target and no `try_fire_at` call. -/
theorem attack_without_component_falls_back_witness :
    (Unit._physics_process Engine.sample false
      (sample_scene 2 (some HealthComponent.initial)) none
      (sample_attacker none ⟨2, 0, 0⟩) (1 / 60)).state.current_order = OrderType.NONE ∧
    (Unit._physics_process Engine.sample false
      (sample_scene 2 (some HealthComponent.initial)) none
      (sample_attacker none ⟨2, 0, 0⟩) (1 / 60)).state.attack_target = none ∧
    (Unit._physics_process Engine.sample false
      (sample_scene 2 (some HealthComponent.initial)) none
      (sample_attacker none ⟨2, 0, 0⟩) (1 / 60)).try_fire_at_calls = [] :=
  have h := attack_without_component_falls_back Engine.sample
    (sample_scene 2 (some HealthComponent.initial)) none
    (sample_attacker none ⟨2, 0, 0⟩) (1 / 60) 1
    (sample_attacker_ready _ _) rfl rfl
    ⟨rfl, fun h hh => by
      have : h = HealthComponent.initial := (Option.some.inj hh).symm
      subst this
      simp [HealthComponent.is_dead, HealthComponent.initial]⟩
    rfl
    (by rw [sample_offset]; norm_num [sample_attacker, sample_unit, Unit.initial])
  ⟨h.1, h.2.1, h.2.2.2.2.1⟩

theorem tick_orders_none (E : Engine) (scene : Scene) (c : UnitRun) (delta : ℚ)
    (horder : c.state.current_order = OrderType.NONE) :
    Unit.tick_orders E scene c delta = Unit.shared_movement E c := by
  unfold Unit.tick_orders
  simp only [horder]

theorem idle_tick_effect (E : Engine) (scene : Scene) (found : Option NavigationAgent)
    (u : Unit) (delta : ℚ) (nav : NavigationAgent)
    (hready : Unit.Ready u) (horder : u.current_order = OrderType.NONE)
    (hnav : u.navigation_agent = some nav) :
    (Unit._physics_process E false scene found u delta).state.current_order
      = OrderType.NONE ∧
    (Unit._physics_process E false scene found u delta).try_fire_at_calls = [] ∧
    (Unit._physics_process E false scene found u delta).velocity_writes =
      [Unit.path_velocity E u
        (E.get_next_path_position (Unit.retarget E nav u.desired_location))] := by
  rw [physics_process_ready E scene found u delta hready,
    tick_orders_none E scene (Unit.start u) delta horder]
  have hview := shared_movement_order_view E (Unit.start u)
  simp only [UnitRun.order_view, Prod.mk.injEq] at hview
  obtain ⟨v1, -, -, -, -, v6, -, -⟩ := hview
  obtain ⟨e1, -⟩ := shared_movement_effect E (Unit.start u) _
    (update_navigation_target_agent E (Unit.start u) nav hnav)
  exact ⟨v1.trans horder, v6, e1⟩

/-- C19, evaluated on the code.  The sample unit (speed 5, at the origin,
ready) is given `issue_move_order((10, 0, 0))` and then `stop_order()`.  The
order is NONE and `stop_order` wrote a zero velocity, but `desired_location`
is still `(10, 0, 0)`: the next tick keeps the order NONE, makes no strike
attempt, and runs the shared movement path, which writes the velocity
`(5, 0, 0)` toward the old destination.  The claim says the horizontal
components of that velocity are zero. -/
theorem tick_after_stop_order_still_moves :
    (Unit.stop_order (Unit.start
      (Unit.issue_move_order (Unit.start (sample_unit none ⟨0, 0, 0⟩))
        ⟨10, 0, 0⟩).state)).state.current_order = OrderType.NONE ∧
    (Unit.stop_order (Unit.start
      (Unit.issue_move_order (Unit.start (sample_unit none ⟨0, 0, 0⟩))
        ⟨10, 0, 0⟩).state)).state.velocity = ⟨0, 0, 0⟩ ∧
    Unit.Ready (Unit.stop_order (Unit.start
      (Unit.issue_move_order (Unit.start (sample_unit none ⟨0, 0, 0⟩))
        ⟨10, 0, 0⟩).state)).state ∧
    (Unit._physics_process Engine.sample false (sample_scene 0 none) none
      (Unit.stop_order (Unit.start
        (Unit.issue_move_order (Unit.start (sample_unit none ⟨0, 0, 0⟩))
          ⟨10, 0, 0⟩).state)).state (1 / 60)).state.current_order = OrderType.NONE ∧
    (Unit._physics_process Engine.sample false (sample_scene 0 none) none
      (Unit.stop_order (Unit.start
        (Unit.issue_move_order (Unit.start (sample_unit none ⟨0, 0, 0⟩))
          ⟨10, 0, 0⟩).state)).state (1 / 60)).try_fire_at_calls = [] ∧
    (Unit._physics_process Engine.sample false (sample_scene 0 none) none
      (Unit.stop_order (Unit.start
        (Unit.issue_move_order (Unit.start (sample_unit none ⟨0, 0, 0⟩))
          ⟨10, 0, 0⟩).state)).state (1 / 60)).velocity_writes = [⟨5, 0, 0⟩] := by
  have hstate : (Unit.stop_order (Unit.start
      (Unit.issue_move_order (Unit.start (sample_unit none ⟨0, 0, 0⟩))
        ⟨10, 0, 0⟩).state)).state =
      { sample_unit none ⟨10, 0, 0⟩ with desired_location := ⟨10, 0, 0⟩ } := by
    rfl
  rw [hstate]
  have hready : Unit.Ready
      { sample_unit none ⟨10, 0, 0⟩ with desired_location := ⟨10, 0, 0⟩ } :=
    ⟨rfl, rfl, sample_agent ⟨10, 0, 0⟩, rfl, rfl⟩
  obtain ⟨h1, h2, h3⟩ := idle_tick_effect Engine.sample (sample_scene 0 none) none
    { sample_unit none ⟨10, 0, 0⟩ with desired_location := ⟨10, 0, 0⟩ } (1 / 60)
    (sample_agent ⟨10, 0, 0⟩) hready rfl rfl
  refine ⟨rfl, rfl, hready, h1, h2, ?_⟩
  rw [h3]
  have happrox : Engine.sample.is_equal_approx ⟨10, 0, 0⟩ ⟨10, 0, 0⟩ = true := by
    simp [Engine.sample, scalar_is_equal_approx]
  have hre : Unit.retarget Engine.sample (sample_agent ⟨10, 0, 0⟩)
      ({ sample_unit none ⟨10, 0, 0⟩ with desired_location := ⟨10, 0, 0⟩ } :
        Unit).desired_location = sample_agent ⟨10, 0, 0⟩ := by
    unfold Unit.retarget
    exact if_pos happrox
  rw [hre]
  have hdisp : (Engine.sample.get_next_path_position (sample_agent ⟨10, 0, 0⟩)).sub
      ({ sample_unit none ⟨10, 0, 0⟩ with desired_location := ⟨10, 0, 0⟩ } :
        Unit).global_position = ⟨10, 0, 0⟩ := by
    simp [Engine.sample, sample_agent, sample_unit, Unit.initial, Vector3.sub]
  unfold Unit.path_velocity
  simp only [hdisp, sample_length_axis]
  norm_num [Vector3.div, Vector3.scale, sample_unit, Unit.initial]

/-! ## Unit: order transitions -/

theorem apply_navigation_target_distance_form (c : UnitRun) :
    ∃ n, Unit._apply_navigation_target_distance c =
      { c with state := { c.state with navigation_agent := n } } := by
  unfold Unit._apply_navigation_target_distance
  split_ifs
  · exact ⟨c.state.navigation_agent, rfl⟩
  · cases c.state.current_order <;> exact ⟨_, rfl⟩

theorem set_order_effect (c : UnitRun) (new_order : OrderType)
    (new_target : Option ObjectId) :
    (Unit._set_order c new_order new_target).signals =
      c.signals ++
        (if c.state.current_order ≠ new_order ∨ c.state.current_order_target ≠ new_target
          then [UnitSignal.order_changed c.state.current_order new_order new_target]
          else []) ∧
    (Unit._set_order c new_order new_target).state =
      { c.state with current_order := new_order, current_order_target := new_target } := by
  unfold Unit._set_order
  simp only
  split_ifs
  · exact ⟨rfl, rfl⟩
  · exact ⟨(List.append_nil _).symm, rfl⟩

theorem issue_move_order_effect (c : UnitRun) (position : Vector3) :
    (Unit.issue_move_order c position).signals =
      c.signals ++
        (if c.state.current_order ≠ OrderType.MOVE ∨ c.state.current_order_target ≠ none
          then [UnitSignal.order_changed c.state.current_order OrderType.MOVE none]
          else []) ∧
    (Unit.issue_move_order c position).state.current_order = OrderType.MOVE ∧
    (Unit.issue_move_order c position).state.current_order_target = none ∧
    (Unit.issue_move_order c position).state.attack_target = none ∧
    (Unit.issue_move_order c position).state.interact_target = none ∧
    (Unit.issue_move_order c position).state.desired_location = position := by
  unfold Unit.issue_move_order Unit._apply_navigation_target_distance Unit._set_order
    Unit._clear_order_targets Unit.nav_set_target_position
    Unit.nav_set_target_desired_distance
  simp only
  split_ifs <;> simp

theorem issue_attack_order_effect (scene : Scene) (c : UnitRun)
    (target : Option ObjectId) :
    (Unit.issue_attack_order scene c target).signals =
      c.signals ++
        (if c.state.current_order ≠ OrderType.ATTACK ∨ c.state.current_order_target ≠ target
          then [UnitSignal.order_changed c.state.current_order OrderType.ATTACK target]
          else []) ∧
    (Unit.issue_attack_order scene c target).state.current_order = OrderType.ATTACK ∧
    (Unit.issue_attack_order scene c target).state.current_order_target = target ∧
    (Unit.issue_attack_order scene c target).state.attack_target = target ∧
    (Unit.issue_attack_order scene c target).state.interact_target = none := by
  unfold Unit.issue_attack_order Unit._apply_navigation_target_distance Unit._set_order
    Unit._clear_order_targets Unit.nav_set_target_position
    Unit.nav_set_target_desired_distance
  cases target with
  | none =>
    simp only
    split_ifs <;> simp
  | some t =>
    simp only
    by_cases h1 : c.state.navigation_agent.isSome = true <;>
    by_cases h2 : c.state.is_ready = true <;>
    by_cases h3 : (scene.units t).inside_tree = true <;>
    by_cases h4 : (c.state.current_order ≠ OrderType.ATTACK ∨
        c.state.current_order_target ≠ some t) <;>
    simp [h1, h2, h3, h4] <;>
    cases c.state.navigation_agent <;> simp_all

theorem issue_interact_order_effect (scene : Scene) (c : UnitRun)
    (target : Option ObjectId) :
    (Unit.issue_interact_order scene c target).signals =
      c.signals ++
        (if c.state.current_order ≠ OrderType.INTERACT ∨
            c.state.current_order_target ≠ target
          then [UnitSignal.order_changed c.state.current_order OrderType.INTERACT target]
          else []) ∧
    (Unit.issue_interact_order scene c target).state.current_order = OrderType.INTERACT ∧
    (Unit.issue_interact_order scene c target).state.current_order_target = target ∧
    (Unit.issue_interact_order scene c target).state.attack_target = none ∧
    (Unit.issue_interact_order scene c target).state.interact_target = target := by
  unfold Unit.issue_interact_order Unit._apply_navigation_target_distance Unit._set_order
    Unit._clear_order_targets Unit.nav_set_target_position
    Unit.nav_set_target_desired_distance
  cases target with
  | none =>
    simp only
    split_ifs <;> simp
  | some t =>
    simp only
    by_cases h1 : c.state.navigation_agent.isSome = true <;>
    by_cases h2 : c.state.is_ready = true <;>
    by_cases h3 : scene.interactable_inside_tree t = true <;>
    by_cases h4 : (c.state.current_order ≠ OrderType.INTERACT ∨
        c.state.current_order_target ≠ some t) <;>
    simp [h1, h2, h3, h4] <;>
    cases c.state.navigation_agent <;> simp_all

theorem stop_order_effect (c : UnitRun) :
    (Unit.stop_order c).signals =
      c.signals ++
        (if c.state.current_order ≠ OrderType.NONE ∨ c.state.current_order_target ≠ none
          then [UnitSignal.order_changed c.state.current_order OrderType.NONE none]
          else []) := by
  unfold Unit.stop_order Unit._set_order Unit._clear_order_targets Unit.set_velocity
  simp only
  split_ifs <;> simp

/-- C14 as stated fails in its second half: issuing the same Move order twice
does not produce exactly one `order_changed` from every starting order.  A
unit that already holds a MOVE order (here after `issue_move_order((1, 0, 0))`)
and is then given `issue_move_order((10, 0, 0))` twice emits no
`order_changed` at all. -/
theorem same_move_twice_counterexample :
    (Unit.issue_move_order (Unit.start (sample_unit none ⟨0, 0, 0⟩))
      ⟨1, 0, 0⟩).state.current_order = OrderType.MOVE ∧
    (Unit.issue_move_order
      (Unit.issue_move_order
        (Unit.start
          (Unit.issue_move_order (Unit.start (sample_unit none ⟨0, 0, 0⟩)) ⟨1, 0, 0⟩).state)
        ⟨10, 0, 0⟩)
      ⟨10, 0, 0⟩).signals = [] ∧
    (Unit.issue_move_order
      (Unit.issue_move_order
        (Unit.start
          (Unit.issue_move_order (Unit.start (sample_unit none ⟨0, 0, 0⟩)) ⟨1, 0, 0⟩).state)
        ⟨10, 0, 0⟩)
      ⟨10, 0, 0⟩).signals.length ≠ 1 := by
  have h : (Unit.issue_move_order
      (Unit.issue_move_order
        (Unit.start
          (Unit.issue_move_order (Unit.start (sample_unit none ⟨0, 0, 0⟩)) ⟨1, 0, 0⟩).state)
        ⟨10, 0, 0⟩)
      ⟨10, 0, 0⟩).signals = [] := by
    rfl
  refine ⟨rfl, h, ?_⟩
  rw [h]
  simp

/-- C14, amended.  Each order transition (`issue_move_order`,
`issue_attack_order`, `issue_interact_order`, `stop_order`) emits
`order_changed(previous_kind, new_kind, new_target)` if and only if the order
kind or the order target differs from the one held before, and emits nothing
else.  Issuing the same Move order twice in a row: the second call never
emits, so the pair emits `order_changed` once when the unit did not already
hold a MOVE order (with a null order target), and not at all when it did. -/
theorem order_changed_iff_order_differs (scene : Scene) (u : Unit) (position : Vector3)
    (target : Option ObjectId) :
    (Unit.issue_move_order (Unit.start u) position).signals =
      (if u.current_order ≠ OrderType.MOVE ∨ u.current_order_target ≠ none
        then [UnitSignal.order_changed u.current_order OrderType.MOVE none] else []) ∧
    (Unit.issue_attack_order scene (Unit.start u) target).signals =
      (if u.current_order ≠ OrderType.ATTACK ∨ u.current_order_target ≠ target
        then [UnitSignal.order_changed u.current_order OrderType.ATTACK target] else []) ∧
    (Unit.issue_interact_order scene (Unit.start u) target).signals =
      (if u.current_order ≠ OrderType.INTERACT ∨ u.current_order_target ≠ target
        then [UnitSignal.order_changed u.current_order OrderType.INTERACT target]
        else []) ∧
    (Unit.stop_order (Unit.start u)).signals =
      (if u.current_order ≠ OrderType.NONE ∨ u.current_order_target ≠ none
        then [UnitSignal.order_changed u.current_order OrderType.NONE none] else []) ∧
    (Unit.issue_move_order (Unit.issue_move_order (Unit.start u) position) position).signals =
      (Unit.issue_move_order (Unit.start u) position).signals ∧
    (Unit.issue_move_order (Unit.issue_move_order (Unit.start u) position)
        position).signals.length =
      (if u.current_order ≠ OrderType.MOVE ∨ u.current_order_target ≠ none then 1 else 0) := by
  have hmove := (issue_move_order_effect (Unit.start u) position).1
  have hmove1 : (Unit.issue_move_order (Unit.start u) position).signals =
      (if u.current_order ≠ OrderType.MOVE ∨ u.current_order_target ≠ none
        then [UnitSignal.order_changed u.current_order OrderType.MOVE none] else []) := by
    rw [hmove]
    exact List.nil_append _
  obtain ⟨-, hord, htar, -⟩ := issue_move_order_effect (Unit.start u) position
  have hsig2 :=
    (issue_move_order_effect (Unit.issue_move_order (Unit.start u) position) position).1
  have hsecond : (Unit.issue_move_order (Unit.issue_move_order (Unit.start u) position)
      position).signals = (Unit.issue_move_order (Unit.start u) position).signals := by
    rw [hsig2, hord, htar]
    simp
  refine ⟨hmove1, ?_, ?_, ?_, hsecond, ?_⟩
  · rw [(issue_attack_order_effect scene (Unit.start u) target).1]
    exact List.nil_append _
  · rw [(issue_interact_order_effect scene (Unit.start u) target).1]
    exact List.nil_append _
  · rw [stop_order_effect (Unit.start u)]
    exact List.nil_append _
  · rw [hsecond, hmove1]
    split_ifs <;> rfl

/-- C15.  After each of `issue_move_order`, `issue_attack_order`,
`issue_interact_order` and `stop_order`, from every prior unit state, no stale
target reference survives: `attack_target` is the new target after an attack
order and null otherwise, `interact_target` is the new target after an
interact order and null otherwise, and `current_order_target` is the target
of the newly installed order (null for MOVE and NONE). -/
theorem order_targets_after_transition (scene : Scene) (u : Unit) (position : Vector3)
    (target : Option ObjectId) :
    ((Unit.issue_move_order (Unit.start u) position).state.current_order = OrderType.MOVE ∧
      (Unit.issue_move_order (Unit.start u) position).state.attack_target = none ∧
      (Unit.issue_move_order (Unit.start u) position).state.interact_target = none ∧
      (Unit.issue_move_order (Unit.start u) position).state.current_order_target = none) ∧
    ((Unit.issue_attack_order scene (Unit.start u) target).state.current_order
        = OrderType.ATTACK ∧
      (Unit.issue_attack_order scene (Unit.start u) target).state.attack_target = target ∧
      (Unit.issue_attack_order scene (Unit.start u) target).state.interact_target = none ∧
      (Unit.issue_attack_order scene (Unit.start u) target).state.current_order_target
        = target) ∧
    ((Unit.issue_interact_order scene (Unit.start u) target).state.current_order
        = OrderType.INTERACT ∧
      (Unit.issue_interact_order scene (Unit.start u) target).state.attack_target = none ∧
      (Unit.issue_interact_order scene (Unit.start u) target).state.interact_target
        = target ∧
      (Unit.issue_interact_order scene (Unit.start u) target).state.current_order_target
        = target) ∧
    ((Unit.stop_order (Unit.start u)).state.current_order = OrderType.NONE ∧
      (Unit.stop_order (Unit.start u)).state.attack_target = none ∧
      (Unit.stop_order (Unit.start u)).state.interact_target = none ∧
      (Unit.stop_order (Unit.start u)).state.current_order_target = none) := by
  obtain ⟨-, m1, m2, m3, m4, -⟩ := issue_move_order_effect (Unit.start u) position
  obtain ⟨-, a1, a2, a3, a4⟩ := issue_attack_order_effect scene (Unit.start u) target
  obtain ⟨-, i1, i2, i3, i4⟩ := issue_interact_order_effect scene (Unit.start u) target
  obtain ⟨s1, s2, s3, s4, -⟩ := stop_order_order_view (Unit.start u)
  exact ⟨⟨m1, m3, m4, m2⟩, ⟨a1, a3, a4, a2⟩, ⟨i1, i3, i4, i2⟩, ⟨s1, s3, s4, s2⟩⟩

/-! ## Further properties of AttackComponent and Unit orders -/

/-- C27.  `try_fire_at` returns false for every target, delta and component
state.  The call that begins a new windup returns false as well: on the
initial component with a target in the tree, the call leaves the component in
windup, emits `attack_started`, and still returns false. -/
theorem try_fire_at_always_returns_false :
    (∀ (units : Units) (s : AttackComponent) (target : Option ObjectId) (delta : ℚ),
      (s.try_fire_at units target delta).result = false) ∧
    ((AttackComponent.initial none false).try_fire_at
      (fun _ => { inside_tree := true, health := none }) (some 1) 0).state.in_attack_windup
      = true ∧
    AttackSignal.attack_started (some 1) ∈
      ((AttackComponent.initial none false).try_fire_at
        (fun _ => { inside_tree := true, health := none }) (some 1) 0).signals ∧
    ((AttackComponent.initial none false).try_fire_at
      (fun _ => { inside_tree := true, health := none }) (some 1) 0).result = false := by
  refine ⟨try_fire_at_result, ?_, ?_, try_fire_at_result _ _ _ _⟩
  · simp [AttackComponent.try_fire_at, AttackComponent.initial]
  · simp [AttackComponent.try_fire_at, AttackComponent.initial]

/-- C29.  For every unit already holding a MOVE order (order kind MOVE, with
the null order target that `issue_move_order` installs) and every position
`q`, `issue_move_order(q)` sets `desired_location` to `q`, keeps the order
MOVE and emits no `order_changed`, whether or not `q` is the previous
destination: the changed-check compares only the order kind and the target
object. -/
theorem move_order_reissue_is_silent (u : Unit) (q : Vector3)
    (horder : u.current_order = OrderType.MOVE) (htarget : u.current_order_target = none) :
    (Unit.issue_move_order (Unit.start u) q).state.desired_location = q ∧
    (Unit.issue_move_order (Unit.start u) q).state.current_order = OrderType.MOVE ∧
    (Unit.issue_move_order (Unit.start u) q).signals = [] := by
  obtain ⟨hsig, hord, -, -, -, hdes⟩ := issue_move_order_effect (Unit.start u) q
  refine ⟨hdes, hord, ?_⟩
  rw [hsig]
  have h1 : (Unit.start u).state.current_order = OrderType.MOVE := horder
  have h2 : (Unit.start u).state.current_order_target = none := htarget
  rw [if_neg (by rw [h1, h2]; simp)]
  rfl

/-- The theorem of C29 for the sample unit after `issue_move_order((1, 0, 0))`:
it holds a MOVE order toward `(1, 0, 0)`, and `issue_move_order((10, 0, 0))`
moves `desired_location` to the new point without any `order_changed`. -/
theorem move_order_reissue_is_silent_witness :
    (Unit.issue_move_order (Unit.start (sample_unit none ⟨0, 0, 0⟩))
      ⟨1, 0, 0⟩).state.desired_location = ⟨1, 0, 0⟩ ∧
    (Unit.issue_move_order
      (Unit.start
        (Unit.issue_move_order (Unit.start (sample_unit none ⟨0, 0, 0⟩)) ⟨1, 0, 0⟩).state)
      ⟨10, 0, 0⟩).state.desired_location = ⟨10, 0, 0⟩ ∧
    (Unit.issue_move_order
      (Unit.start
        (Unit.issue_move_order (Unit.start (sample_unit none ⟨0, 0, 0⟩)) ⟨1, 0, 0⟩).state)
      ⟨10, 0, 0⟩).signals = [] :=
  have h := move_order_reissue_is_silent
    (Unit.issue_move_order (Unit.start (sample_unit none ⟨0, 0, 0⟩)) ⟨1, 0, 0⟩).state
    ⟨10, 0, 0⟩ rfl rfl
  ⟨rfl, h.1, h.2.2⟩

theorem physics_process_idle (units : Units) (s : AttackComponent) (delta : ℚ)
    (hidle : s.in_attack_windup = false) :
    (AttackComponent._physics_process false units s delta).state =
      { s with
          time_until_next_attack :=
            if s.time_until_next_attack > 0 then s.time_until_next_attack - delta
            else s.time_until_next_attack } ∧
    (AttackComponent._physics_process false units s delta).signals = [] := by
  rcases s with ⟨bat, asp, ap, ar, ad, dt, ps, c, wt, w, tg, sc, ow, hp⟩
  simp only at hidle
  subst hidle
  unfold AttackComponent._physics_process
  by_cases hc : c > 0
  · simp [hc]
  · simp [hc]

theorem try_fire_at_cooling (units : Units) (s : AttackComponent)
    (target : Option ObjectId) (delta : ℚ) (hcool : 0 < s.time_until_next_attack) :
    (s.try_fire_at units target delta).state = s ∧
    (s.try_fire_at units target delta).signals = [] := by
  rcases try_fire_at_state_cases units s target delta with h | ⟨t, -, -, -, hc, -, -⟩
  · exact h
  · exact absurd hcool (not_lt.mpr hc)

theorem run_events_before_cooldown (limit : ℚ) (events : List AttackEvent) :
    ∀ (s : AttackComponent) (since : ℚ),
      s.in_attack_windup = false → s.get_attack_interval = limit →
      (since < limit → s.time_until_next_attack = limit - since) →
      (limit ≤ since → s.time_until_next_attack ≤ 0) →
      AttackComponent.FiresBefore limit since events →
      (s.run_events events).2 = [] ∧
      (s.run_events events).1.in_attack_windup = false ∧
      (s.run_events events).1.get_attack_interval = limit ∧
      (since + AttackComponent.elapsed events < limit →
        (s.run_events events).1.time_until_next_attack
          = limit - (since + AttackComponent.elapsed events)) ∧
      (limit ≤ since + AttackComponent.elapsed events →
        (s.run_events events).1.time_until_next_attack ≤ 0) := by
  induction events with
  | nil =>
    intro s since hidle hint hlt hge _
    have he : AttackComponent.elapsed ([] : List AttackEvent) = 0 := rfl
    rw [he, add_zero]
    exact ⟨rfl, hidle, hint, hlt, hge⟩
  | cons e rest ih =>
    intro s since hidle hint hlt hge hfires
    cases e with
    | tick units delta =>
      obtain ⟨hpos, hrest⟩ := hfires
      obtain ⟨hstate, hsig⟩ := physics_process_idle units s delta hidle
      have hstep : (s.step (AttackEvent.tick units delta)).1 =
          { s with
              time_until_next_attack :=
                if s.time_until_next_attack > 0 then s.time_until_next_attack - delta
                else s.time_until_next_attack } := hstate
      have hstepsig : (s.step (AttackEvent.tick units delta)).2 = [] := hsig
      have := ih (s.step (AttackEvent.tick units delta)).1 (since + delta)
        (by rw [hstep]; exact hidle) (by rw [hstep]; exact hint)
        (by
          intro h
          rw [hstep]
          have hs : since < limit := by linarith
          have hc := hlt hs
          show (if s.time_until_next_attack > 0 then s.time_until_next_attack - delta
            else s.time_until_next_attack) = limit - (since + delta)
          rw [if_pos (by rw [hc]; linarith), hc]
          ring)
        (by
          intro h
          rw [hstep]
          show (if s.time_until_next_attack > 0 then s.time_until_next_attack - delta
            else s.time_until_next_attack) ≤ 0
          by_cases hs : since < limit
          · have hc := hlt hs
            rw [if_pos (by rw [hc]; linarith), hc]
            linarith
          · have hc := hge (not_lt.mp hs)
            rw [if_neg (not_lt.mpr hc)]
            exact hc)
        hrest
      obtain ⟨i1, i2, i3, i4, i5⟩ := this
      simp only [AttackComponent.run_events, AttackComponent.elapsed]
      refine ⟨by rw [hstepsig, i1]; rfl, i2, i3, ?_, ?_⟩
      · intro h
        rw [i4 (by linarith)]
        ring
      · intro h
        exact i5 (by linarith)
    | fire units target delta =>
      obtain ⟨hearly, hrest⟩ := hfires
      have hc := hlt hearly
      obtain ⟨hstate, hsig⟩ := try_fire_at_cooling units s target delta
        (by rw [hc]; linarith)
      have hstep : (s.step (AttackEvent.fire units target delta)).1 = s := hstate
      have hstepsig : (s.step (AttackEvent.fire units target delta)).2 = [] := hsig
      obtain ⟨i1, i2, i3, i4, i5⟩ := ih (s.step (AttackEvent.fire units target delta)).1 since
        (by rw [hstep]; exact hidle) (by rw [hstep]; exact hint)
        (by rw [hstep]; exact hlt) (by rw [hstep]; exact hge) hrest
      simp only [AttackComponent.run_events, AttackComponent.elapsed]
      exact ⟨by rw [hstepsig, i1]; rfl, i2, i3, i4, i5⟩

theorem try_fire_at_when_ready (units : Units) (s : AttackComponent) (t : ObjectId)
    (delta : ℚ) (hvalid : (units t).inside_tree = true)
    (hidle : s.in_attack_windup = false) (hcool : s.time_until_next_attack ≤ 0) :
    (s.try_fire_at units (some t) delta).state.in_attack_windup = true ∧
    (s.try_fire_at units (some t) delta).state.attack_windup_timer = 0 ∧
    (s.try_fire_at units (some t) delta).state.current_attack_target = some t ∧
    AttackSignal.attack_started (some t) ∈ (s.try_fire_at units (some t) delta).signals := by
  unfold AttackComponent.try_fire_at
  simp [hvalid, hidle, hcool]

/-- C28.  After a strike lands (the component is out of windup and
`time_until_next_attack` is the attack interval), for every run of ticks with
positive deltas interleaved with any number of `try_fire_at` calls, each call
made while the deltas summed so far are below the attack interval: no windup
begins during the run (no signal is emitted, the component stays out of
windup), and once the deltas sum to at least the attack interval, the next
`try_fire_at` on a target in the tree begins a windup on it. -/
theorem cooldown_gates_next_windup (s : AttackComponent) (events : List AttackEvent)
    (hidle : s.in_attack_windup = false)
    (hcool : s.time_until_next_attack = s.get_attack_interval)
    (hfires : AttackComponent.FiresBefore s.get_attack_interval 0 events) :
    (s.run_events events).2 = [] ∧
    (s.run_events events).1.in_attack_windup = false ∧
    (s.get_attack_interval ≤ AttackComponent.elapsed events →
      ∀ (units : Units) (t : ObjectId) (delta : ℚ), (units t).inside_tree = true →
        (((s.run_events events).1.try_fire_at units (some t) delta).state.in_attack_windup
            = true ∧
          ((s.run_events events).1.try_fire_at units (some t)
            delta).state.current_attack_target = some t ∧
          AttackSignal.attack_started (some t) ∈
            ((s.run_events events).1.try_fire_at units (some t) delta).signals)) := by
  obtain ⟨h1, h2, -, -, h5⟩ := run_events_before_cooldown s.get_attack_interval events s 0
    hidle rfl (fun _ => by rw [hcool, sub_zero]) (fun h => by rw [hcool]; exact h) hfires
  refine ⟨h1, h2, ?_⟩
  intro hge units t delta hvalid
  obtain ⟨w1, -, w3, w4⟩ := try_fire_at_when_ready units (s.run_events events).1 t delta hvalid
    h2 (h5 (by rw [zero_add]; exact hge))
  exact ⟨w1, w3, w4⟩

/-- The theorem of C28 for the default component (attack interval 1.7) right
after a strike: a tick of 1 s, a `try_fire_at` call, and another tick of 1 s
emit nothing; the deltas then sum to 2, and the next `try_fire_at` on unit 1
begins a windup. -/
theorem cooldown_gates_next_windup_witness :
    (AttackComponent.run_events
      { AttackComponent.initial none false with time_until_next_attack := 17 / 10 }
      [AttackEvent.tick (fun _ => { inside_tree := true, health := none }) 1,
       AttackEvent.fire (fun _ => { inside_tree := true, health := none }) (some 1) 0,
       AttackEvent.tick (fun _ => { inside_tree := true, health := none }) 1]).2 = [] ∧
    ((AttackComponent.run_events
      { AttackComponent.initial none false with time_until_next_attack := 17 / 10 }
      [AttackEvent.tick (fun _ => { inside_tree := true, health := none }) 1,
       AttackEvent.fire (fun _ => { inside_tree := true, health := none }) (some 1) 0,
       AttackEvent.tick (fun _ => { inside_tree := true, health := none }) 1]).1.try_fire_at
      (fun _ => { inside_tree := true, health := none }) (some 1) 0).state.in_attack_windup
      = true :=
  have h := cooldown_gates_next_windup
    { AttackComponent.initial none false with time_until_next_attack := 17 / 10 }
    [AttackEvent.tick (fun _ => { inside_tree := true, health := none }) 1,
     AttackEvent.fire (fun _ => { inside_tree := true, health := none }) (some 1) 0,
     AttackEvent.tick (fun _ => { inside_tree := true, health := none }) 1]
    rfl (by norm_num [AttackComponent.get_attack_interval, AttackComponent.initial])
    (by norm_num [AttackComponent.FiresBefore, AttackComponent.get_attack_interval,
      AttackComponent.initial])
  ⟨h.1, (h.2.2 (by norm_num [AttackComponent.elapsed, AttackComponent.get_attack_interval,
      AttackComponent.initial]) (fun _ => { inside_tree := true, health := none }) 1 0 rfl).1⟩

/-! ## Unit: the buffer zone after a hold -/

theorem try_fire_at_attack_range (units : Units) (s : AttackComponent)
    (target : Option ObjectId) (delta : ℚ) :
    (s.try_fire_at units target delta).state.attack_range = s.attack_range := by
  rcases try_fire_at_state_cases units s target delta with ⟨h, -⟩ | ⟨t, -, -, -, -, h, -⟩
  · rw [h]
  · rw [h]

theorem hold_tick_state (E : Engine) (scene : Scene) (found : Option NavigationAgent)
    (u : Unit) (delta : ℚ) (t : ObjectId) (a : AttackComponent) (nav : NavigationAgent)
    (hready : Unit.Ready u) (horder : u.current_order = OrderType.ATTACK)
    (htarget : u.attack_target = some t) (hlive : Unit.LiveTarget scene t)
    (hcomp : u.attack_component = some a) (hnav : u.navigation_agent = some nav)
    (hd : E.length (Unit.horizontal_offset u (scene.position t)) ≤ a.attack_range) :
    ∃ f : Vector3,
      (Unit._physics_process E false scene found u delta).state =
        { u with
            desired_location := scene.position t
            facing := f
            navigation_agent := some (Unit.retarget E nav (scene.position t))
            attack_component := some (a.try_fire_at scene.units (some t) delta).state
            velocity := { x := 0, y := u.velocity.y, z := 0 } } ∧
      (Unit._physics_process E false scene found u delta).try_fire_at_calls = [some t] ∧
      (Unit._physics_process E false scene found u delta).velocity_writes =
        [{ x := 0, y := u.velocity.y, z := 0 }] := by
  have hrange : Unit.effective_attack_range (Unit.start u).state = a.attack_range := by
    show Unit.effective_attack_range u = a.attack_range
    unfold Unit.effective_attack_range
    rw [hcomp]
    rfl
  rw [physics_process_ready E scene found u delta hready,
    tick_orders_live_target E scene u delta t horder htarget hlive,
    attack_live_target_in_range E scene (Unit.start u) t delta (by rw [hrange]; exact hd)]
  have hc : (Unit.start u).state.attack_component = some a := hcomp
  rw [hc]
  unfold Unit.hold_and_strike
  simp only
  obtain ⟨f, hf⟩ := face_target_form E (Unit.track (Unit.start u) (scene.position t))
    (Unit.horizontal_offset (Unit.start u).state (scene.position t))
    (E.length (Unit.horizontal_offset (Unit.start u).state (scene.position t)))
  rw [hf]
  have hagent := update_navigation_target_agent E
    { Unit.track (Unit.start u) (scene.position t) with
        state := { (Unit.track (Unit.start u) (scene.position t)).state with facing := f } }
    nav hnav
  obtain ⟨n, hn⟩ := update_navigation_target_form E
    { Unit.track (Unit.start u) (scene.position t) with
        state := { (Unit.track (Unit.start u) (scene.position t)).state with facing := f } }
  rw [hn] at hagent ⊢
  have hn1 : n = some (Unit.retarget E nav (scene.position t)) := hagent
  subst hn1
  exact ⟨f, rfl, rfl, rfl⟩

theorem sample_attacker_live_at (x : ℚ) :
    Unit.LiveTarget (sample_scene x (some HealthComponent.initial)) 1 :=
  ⟨rfl, fun h hh => by
    have : h = HealthComponent.initial := (Option.some.inj hh).symm
    subst this
    simp [HealthComponent.is_dead, HealthComponent.initial]⟩

/-- C26 as stated fails.  The sample attacker (attack range 2.5,
`attack_buffer_range` 0.5, speed 5) holds on a first tick with its target,
unit 1, alive at distance 2: one `try_fire_at`, velocity `(0, 0, 0)`.  On the
next tick the target stands at distance 3, inside the buffer zone
`2.5 < 3 ≤ 3.0`.  The claim says the unit still holds and strikes there; the
tick takes the buffer-zone branch, makes no `try_fire_at` call and writes the
chase velocity `(5, 0, 0)`. -/
theorem buffer_zone_after_hold_chases :
    (Unit._physics_process Engine.sample false (sample_scene 2 (some HealthComponent.initial)) none
      (sample_attacker (some (AttackComponent.initial (some 9) true)) ⟨2, 0, 0⟩) (1 / 60)).try_fire_at_calls = [some 1] ∧
    (Unit._physics_process Engine.sample false (sample_scene 2 (some HealthComponent.initial)) none
      (sample_attacker (some (AttackComponent.initial (some 9) true)) ⟨2, 0, 0⟩) (1 / 60)).velocity_writes = [⟨0, 0, 0⟩] ∧
    Unit.effective_attack_range
      (Unit._physics_process Engine.sample false (sample_scene 2 (some HealthComponent.initial)) none
      (sample_attacker (some (AttackComponent.initial (some 9) true)) ⟨2, 0, 0⟩) (1 / 60)).state = 5 / 2 ∧
    (Unit._physics_process Engine.sample false (sample_scene 2 (some HealthComponent.initial)) none
      (sample_attacker (some (AttackComponent.initial (some 9) true)) ⟨2, 0, 0⟩) (1 / 60)).state.attack_buffer_range = 1 / 2 ∧
    Engine.sample.length
      (Unit.horizontal_offset
        (Unit._physics_process Engine.sample false (sample_scene 2 (some HealthComponent.initial)) none
      (sample_attacker (some (AttackComponent.initial (some 9) true)) ⟨2, 0, 0⟩) (1 / 60)).state
        ((sample_scene 3 (some HealthComponent.initial)).position 1)) = 3 ∧
    (Unit._physics_process Engine.sample false (sample_scene 3 (some HealthComponent.initial)) none
      (Unit._physics_process Engine.sample false (sample_scene 2 (some HealthComponent.initial)) none
      (sample_attacker (some (AttackComponent.initial (some 9) true)) ⟨2, 0, 0⟩) (1 / 60)).state
      (1 / 60)).try_fire_at_calls = [] ∧
    (Unit._physics_process Engine.sample false (sample_scene 3 (some HealthComponent.initial)) none
      (Unit._physics_process Engine.sample false (sample_scene 2 (some HealthComponent.initial)) none
      (sample_attacker (some (AttackComponent.initial (some 9) true)) ⟨2, 0, 0⟩) (1 / 60)).state
      (1 / 60)).velocity_writes = [⟨5, 0, 0⟩] := by
  obtain ⟨f, hstate, hcalls, hwrites⟩ := hold_tick_state Engine.sample (sample_scene 2 (some HealthComponent.initial)) none
    (sample_attacker (some (AttackComponent.initial (some 9) true)) ⟨2, 0, 0⟩) (1 / 60) 1
    (AttackComponent.initial (some 9) true) (sample_agent ⟨2, 0, 0⟩)
    (sample_attacker_ready _ _) rfl rfl (sample_attacker_live_at 2) rfl rfl
    (by rw [sample_offset]; norm_num [AttackComponent.initial])
  have happrox2 : Engine.sample.is_equal_approx ⟨2, 0, 0⟩ ⟨2, 0, 0⟩ = true := by
    simp [Engine.sample, scalar_is_equal_approx]
  have happrox3 : Engine.sample.is_equal_approx ⟨2, 0, 0⟩ ⟨3, 0, 0⟩ = false := by
    simp only [Engine.sample, scalar_is_equal_approx]
    norm_num [abs_of_pos]
  have hre2 : Unit.retarget Engine.sample (sample_agent ⟨2, 0, 0⟩)
      ((sample_scene 2 (some HealthComponent.initial)).position 1) = sample_agent ⟨2, 0, 0⟩ := by
    unfold Unit.retarget
    exact if_pos happrox2
  have hre3 : Unit.retarget Engine.sample (sample_agent ⟨2, 0, 0⟩)
      ((sample_scene 3 (some HealthComponent.initial)).position 1) = sample_agent ⟨3, 0, 0⟩ := by
    unfold Unit.retarget
    rw [if_neg (by rw [show (sample_agent ⟨2, 0, 0⟩).target_position = ⟨2, 0, 0⟩ from rfl,
      show (sample_scene 3 (some HealthComponent.initial)).position 1 = ⟨3, 0, 0⟩ from rfl, happrox3]; simp)]
    rfl
  rw [hre2] at hstate
  rw [hstate]
  have hrange : Unit.effective_attack_range
      { (sample_attacker (some (AttackComponent.initial (some 9) true)) ⟨2, 0, 0⟩) with
          desired_location := (sample_scene 2 (some HealthComponent.initial)).position 1
          facing := f
          navigation_agent := some (sample_agent ⟨2, 0, 0⟩)
          attack_component := some ((AttackComponent.initial (some 9) true).try_fire_at
            (sample_scene 2 (some HealthComponent.initial)).units (some 1) (1 / 60)).state
          velocity := { x := 0, y := (sample_attacker (some (AttackComponent.initial (some 9) true)) ⟨2, 0, 0⟩).velocity.y, z := 0 } } = 5 / 2 := by
    show (((AttackComponent.initial (some 9) true).try_fire_at
      (sample_scene 2 (some HealthComponent.initial)).units (some 1) (1 / 60)).state).attack_range = 5 / 2
    rw [try_fire_at_attack_range]
    rfl
  have hlen : Engine.sample.length
      (Unit.horizontal_offset
        { (sample_attacker (some (AttackComponent.initial (some 9) true)) ⟨2, 0, 0⟩) with
          desired_location := (sample_scene 2 (some HealthComponent.initial)).position 1
          facing := f
          navigation_agent := some (sample_agent ⟨2, 0, 0⟩)
          attack_component := some ((AttackComponent.initial (some 9) true).try_fire_at
            (sample_scene 2 (some HealthComponent.initial)).units (some 1) (1 / 60)).state
          velocity := { x := 0, y := (sample_attacker (some (AttackComponent.initial (some 9) true)) ⟨2, 0, 0⟩).velocity.y, z := 0 } }
        ((sample_scene 3 (some HealthComponent.initial)).position 1)) = 3 := by
    have h := sample_offset (some (AttackComponent.initial (some 9) true)) ⟨2, 0, 0⟩ 3
      (some HealthComponent.initial)
    rw [show |(3 : ℚ)| = 3 by norm_num] at h
    exact h
  have hbuf := buffer_zone_effect Engine.sample (sample_scene 3 (some HealthComponent.initial)) none
    { (sample_attacker (some (AttackComponent.initial (some 9) true)) ⟨2, 0, 0⟩) with
          desired_location := (sample_scene 2 (some HealthComponent.initial)).position 1
          facing := f
          navigation_agent := some (sample_agent ⟨2, 0, 0⟩)
          attack_component := some ((AttackComponent.initial (some 9) true).try_fire_at
            (sample_scene 2 (some HealthComponent.initial)).units (some 1) (1 / 60)).state
          velocity := { x := 0, y := (sample_attacker (some (AttackComponent.initial (some 9) true)) ⟨2, 0, 0⟩).velocity.y, z := 0 } }
    (1 / 60) 1 (sample_agent ⟨2, 0, 0⟩)
    ⟨rfl, rfl, sample_agent ⟨2, 0, 0⟩, rfl, rfl⟩ rfl rfl (sample_attacker_live_at 3) rfl
    (by rw [hlen, hrange]; norm_num)
    (by rw [hlen, hrange]
        norm_num [sample_attacker, sample_unit, Unit.initial])
  refine ⟨hcalls, hwrites, hrange, rfl, hlen, hbuf.1, ?_⟩
  rw [hbuf.2.2.2.2.2.1, hre3]
  have hdisp : (Engine.sample.get_next_path_position (sample_agent ⟨3, 0, 0⟩)).sub
      ({ (sample_attacker (some (AttackComponent.initial (some 9) true)) ⟨2, 0, 0⟩) with
          desired_location := (sample_scene 2 (some HealthComponent.initial)).position 1
          facing := f
          navigation_agent := some (sample_agent ⟨2, 0, 0⟩)
          attack_component := some ((AttackComponent.initial (some 9) true).try_fire_at
            (sample_scene 2 (some HealthComponent.initial)).units (some 1) (1 / 60)).state
          velocity := { x := 0, y := (sample_attacker (some (AttackComponent.initial (some 9) true)) ⟨2, 0, 0⟩).velocity.y, z := 0 } } : Unit).global_position
      = ⟨3, 0, 0⟩ := by
    simp [Engine.sample, sample_agent, sample_attacker, sample_unit, Unit.initial, Vector3.sub]
  unfold Unit.path_velocity
  simp only [hdisp, sample_length_axis]
  norm_num [Vector3.div, Vector3.scale, sample_attacker, sample_unit, Unit.initial]

theorem retarget_inside_tree (E : Engine) (nav : NavigationAgent) (p : Vector3) :
    (Unit.retarget E nav p).inside_tree = nav.inside_tree := by
  unfold Unit.retarget
  split_ifs <;> rfl

/-- C26, amended.  The tick keeps no record of having held.  For every ready
unit with an attack component that held position on a tick (target alive at
distance `d ≤ r`: one strike attempt, velocity `(0, v.y, 0)`), a following
tick with the target alive at distance `r < d ≤ r + attack_buffer_range` does
not hold: no strike is attempted, the order stays ATTACK and the velocity
written is the one the shared movement path computes from the next path
position toward the target.  Holding is decided by `d ≤ r` on the current tick
alone, so chasing resumes as soon as `d > r`. -/
theorem hold_then_band_chases (E : Engine) (scene1 scene2 : Scene)
    (found1 found2 : Option NavigationAgent) (u : Unit) (delta1 delta2 : ℚ) (t : ObjectId)
    (a : AttackComponent) (nav : NavigationAgent)
    (hready : Unit.Ready u) (horder : u.current_order = OrderType.ATTACK)
    (htarget : u.attack_target = some t) (hcomp : u.attack_component = some a)
    (hnav : u.navigation_agent = some nav)
    (hlive1 : Unit.LiveTarget scene1 t) (hlive2 : Unit.LiveTarget scene2 t)
    (hheld : E.length (Unit.horizontal_offset u (scene1.position t)) ≤ a.attack_range)
    (hfar : a.attack_range < E.length (Unit.horizontal_offset u (scene2.position t)))
    (hnear : E.length (Unit.horizontal_offset u (scene2.position t))
      ≤ a.attack_range + u.attack_buffer_range) :
    (Unit._physics_process E false scene1 found1 u delta1).try_fire_at_calls = [some t] ∧
    (Unit._physics_process E false scene1 found1 u delta1).velocity_writes =
      [{ x := 0, y := u.velocity.y, z := 0 }] ∧
    Unit.effective_attack_range
      (Unit._physics_process E false scene1 found1 u delta1).state = a.attack_range ∧
    (Unit._physics_process E false scene2 found2
      (Unit._physics_process E false scene1 found1 u delta1).state
      delta2).try_fire_at_calls = [] ∧
    (Unit._physics_process E false scene2 found2
      (Unit._physics_process E false scene1 found1 u delta1).state
      delta2).state.current_order = OrderType.ATTACK ∧
    (Unit._physics_process E false scene2 found2
      (Unit._physics_process E false scene1 found1 u delta1).state
      delta2).velocity_writes =
      [Unit.path_velocity E (Unit._physics_process E false scene1 found1 u delta1).state
        (E.get_next_path_position
          (Unit.retarget E (Unit.retarget E nav (scene1.position t))
            (scene2.position t)))] := by
  obtain ⟨f, hstate, hcalls, hwrites⟩ := hold_tick_state E scene1 found1 u delta1 t a nav
    hready horder htarget hlive1 hcomp hnav hheld
  obtain ⟨hin, hrdy, n0, hn0, hn0in⟩ := hready
  have hnn : n0 = nav := Option.some.inj (hn0.symm.trans hnav)
  subst hnn
  have hrange : Unit.effective_attack_range
      (Unit._physics_process E false scene1 found1 u delta1).state = a.attack_range := by
    rw [hstate]
    show ((a.try_fire_at scene1.units (some t) delta1).state).attack_range = a.attack_range
    exact try_fire_at_attack_range scene1.units a (some t) delta1
  have hoff : Unit.horizontal_offset
      (Unit._physics_process E false scene1 found1 u delta1).state (scene2.position t) =
      Unit.horizontal_offset u (scene2.position t) := by
    rw [hstate]
    rfl
  have hbufr : (Unit._physics_process E false scene1 found1 u delta1).state.attack_buffer_range
      = u.attack_buffer_range := by
    rw [hstate]
  have hready1 : Unit.Ready (Unit._physics_process E false scene1 found1 u delta1).state := by
    rw [hstate]
    exact ⟨hin, hrdy, Unit.retarget E n0 (scene1.position t), rfl,
      (retarget_inside_tree E n0 (scene1.position t)).trans hn0in⟩
  have hbuf := buffer_zone_effect E scene2 found2
    (Unit._physics_process E false scene1 found1 u delta1).state delta2 t
    (Unit.retarget E n0 (scene1.position t)) hready1
    (by rw [hstate]; exact horder) (by rw [hstate]; exact htarget) hlive2
    (by rw [hstate])
    (by rw [hrange, hoff]; exact hfar)
    (by rw [hrange, hoff, hbufr]; exact hnear)
  exact ⟨hcalls, hwrites, hrange, hbuf.1, hbuf.2.2.2.1, hbuf.2.2.2.2.2.1⟩

/-- The amended statement of C26 for the sample attacker (attack range 2.5,
buffer 0.5): after a hold with the target at distance 2, a tick with the
target at distance 3 makes no strike attempt and keeps the ATTACK order. -/
theorem hold_then_band_chases_witness :
    (Unit._physics_process Engine.sample false (sample_scene 3 (some HealthComponent.initial))
      none
      (Unit._physics_process Engine.sample false
        (sample_scene 2 (some HealthComponent.initial)) none
        (sample_attacker (some (AttackComponent.initial (some 9) true)) ⟨2, 0, 0⟩)
        (1 / 60)).state
      (1 / 60)).try_fire_at_calls = [] ∧
    (Unit._physics_process Engine.sample false (sample_scene 3 (some HealthComponent.initial))
      none
      (Unit._physics_process Engine.sample false
        (sample_scene 2 (some HealthComponent.initial)) none
        (sample_attacker (some (AttackComponent.initial (some 9) true)) ⟨2, 0, 0⟩)
        (1 / 60)).state
      (1 / 60)).state.current_order = OrderType.ATTACK :=
  have h := hold_then_band_chases Engine.sample
    (sample_scene 2 (some HealthComponent.initial))
    (sample_scene 3 (some HealthComponent.initial)) none none
    (sample_attacker (some (AttackComponent.initial (some 9) true)) ⟨2, 0, 0⟩)
    (1 / 60) (1 / 60) 1 (AttackComponent.initial (some 9) true) (sample_agent ⟨2, 0, 0⟩)
    (sample_attacker_ready _ _) rfl rfl rfl rfl (sample_attacker_live_at 2)
    (sample_attacker_live_at 3)
    (by rw [sample_offset]; norm_num [AttackComponent.initial])
    (by rw [sample_offset]; norm_num [AttackComponent.initial])
    (by rw [sample_offset]
        norm_num [AttackComponent.initial, sample_attacker, sample_unit, Unit.initial])
  ⟨h.2.2.2.1, h.2.2.2.2.1⟩

/-! ## Projectile: properties -/

theorem projectile_tick_calls (E : Engine) (editor_hint : Bool) (scene : Scene)
    (p : ProjectileNode) (delta : ℚ) :
    (Projectile._physics_process E editor_hint scene p delta).apply_damage_calls = 0 ∨
    ((Projectile._physics_process E editor_hint scene p delta).apply_damage_calls = 1 ∧
      (Projectile._physics_process E editor_hint scene p delta).state.queued_for_deletion
        = true) := by
  unfold Projectile._physics_process
  simp only
  split_ifs with he
  · exact Or.inl rfl
  · cases p.config.target with
    | none => exact Or.inl rfl
    | some t =>
      simp only
      split_ifs with hin hd
      · exact Or.inl rfl
      · cases (scene.units t).health with
        | none => exact Or.inl rfl
        | some h =>
          simp only
          split_ifs
          · exact Or.inr ⟨rfl, rfl⟩
          · exact Or.inl rfl
      · exact Or.inl rfl
      · exact Or.inl rfl

theorem projectile_run_queued (E : Engine) (p : ProjectileNode) (frames : List (Scene × ℚ))
    (hq : p.queued_for_deletion = true) : Projectile.run E p frames = (p, 0) := by
  cases frames with
  | nil => rfl
  | cons frame rest =>
    unfold Projectile.run
    rw [if_pos hq]

/-- C22.  In every run of a projectile, whatever the scene of each frame
(target moving, dying, leaving) and whatever the deltas, `apply_damage` is
called at most once; and a tick that calls it also calls `queue_free()`, after
which the projectile receives no further tick. -/
theorem projectile_damages_at_most_once (E : Engine) :
    (∀ (p : ProjectileNode) (frames : List (Scene × ℚ)), (Projectile.run E p frames).2 ≤ 1) ∧
    (∀ (editor_hint : Bool) (scene : Scene) (p : ProjectileNode) (delta : ℚ),
      (Projectile._physics_process E editor_hint scene p delta).apply_damage_calls = 0 ∨
      ((Projectile._physics_process E editor_hint scene p delta).apply_damage_calls = 1 ∧
        (Projectile._physics_process E editor_hint scene p
          delta).state.queued_for_deletion = true)) := by
  refine ⟨?_, projectile_tick_calls E⟩
  intro p frames
  induction frames generalizing p with
  | nil => exact Nat.zero_le 1
  | cons frame rest ih =>
    unfold Projectile.run
    split_ifs with hq
    · exact Nat.zero_le 1
    · simp only
      rcases projectile_tick_calls E false frame.1 p frame.2 with h0 | ⟨h1, hfree⟩
      · rw [h0, Nat.zero_add]
        exact ih _
      · rw [h1, projectile_run_queued E _ rest hfree]
        exact Nat.le_refl 1

/-- C23.  In a projectile tick in which the distance to the target is at most
`hit_radius` and the target's `HealthComponent` reports dead, the projectile
calls `queue_free()` and makes no `apply_damage` call: the units of the scene
are unchanged (so is the target's health) and no health signal, in particular
no `died`, is emitted. -/
theorem projectile_skips_dead_target (E : Engine) (scene : Scene) (p : ProjectileNode)
    (delta : ℚ) (t : ObjectId) (h : HealthComponent)
    (htarget : p.config.target = some t) (hin : (scene.units t).inside_tree = true)
    (hnear : E.length ((scene.position t).sub p.global_position) ≤ p.config.hit_radius)
    (hhealth : (scene.units t).health = some h) (hdead : h.is_dead = true) :
    (Projectile._physics_process E false scene p delta).state = Projectile.queue_free p ∧
    (Projectile._physics_process E false scene p delta).state.queued_for_deletion = true ∧
    (Projectile._physics_process E false scene p delta).apply_damage_calls = 0 ∧
    (Projectile._physics_process E false scene p delta).units = scene.units ∧
    (Projectile._physics_process E false scene p delta).health_signals = [] := by
  unfold Projectile._physics_process
  simp [htarget, hin, hnear, hhealth, hdead, Projectile.queue_free]

/-- The theorem of C23 for a sample projectile (hit radius 0.5) at `(4.8, 0, 0)`
whose target, unit 1, stands at `(5, 0, 0)` with 0 health: the projectile is
queued for deletion, no `apply_damage` call, no health signal. -/
theorem projectile_skips_dead_target_witness :
    (Projectile._physics_process Engine.sample false (sample_scene 5 (some ⟨100, 0⟩))
      (sample_projectile (24 / 5) 20 (1 / 2)) (1 / 60)).state.queued_for_deletion = true ∧
    (Projectile._physics_process Engine.sample false (sample_scene 5 (some ⟨100, 0⟩))
      (sample_projectile (24 / 5) 20 (1 / 2)) (1 / 60)).apply_damage_calls = 0 ∧
    (Projectile._physics_process Engine.sample false (sample_scene 5 (some ⟨100, 0⟩))
      (sample_projectile (24 / 5) 20 (1 / 2)) (1 / 60)).health_signals = [] :=
  have hoff : ((sample_scene 5 (some ⟨100, 0⟩)).position 1).sub
      (sample_projectile (24 / 5) 20 (1 / 2)).global_position = ⟨1 / 5, 0, 0⟩ := by
    simp only [sample_scene, sample_projectile, Vector3.sub, Vector3.mk.injEq]
    norm_num
  have h := projectile_skips_dead_target Engine.sample (sample_scene 5 (some ⟨100, 0⟩))
    (sample_projectile (24 / 5) 20 (1 / 2)) (1 / 60) 1 ⟨100, 0⟩ rfl rfl
    (by rw [hoff, sample_length_axis]; norm_num [sample_projectile, abs_of_pos])
    rfl (by simp [HealthComponent.is_dead])
  ⟨h.2.1, h.2.2.1, h.2.2.2.2⟩

theorem projectile_overshoot (E : Engine) (haxis : ∀ a : ℚ, E.length ⟨a, 0, 0⟩ = |a|)
    (scene : Scene) (p : ProjectileNode) (delta : ℚ) (t : ObjectId) (side : ℚ)
    (hside : side = 1 ∨ side = -1)
    (htarget : p.config.target = some t) (hin : (scene.units t).inside_tree = true)
    (hstep : 1 / 1000 < p.config.speed * delta / 2)
    (hrad : p.config.hit_radius < p.config.speed * delta / 2)
    (hpos : p.global_position =
      { scene.position t with
          x := (scene.position t).x + side * (p.config.speed * delta / 2) }) :
    (Projectile._physics_process E false scene p delta).state.global_position =
      { scene.position t with
          x := (scene.position t).x - side * (p.config.speed * delta / 2) } ∧
    (Projectile._physics_process E false scene p delta).state.config = p.config ∧
    (Projectile._physics_process E false scene p delta).state.queued_for_deletion
      = p.queued_for_deletion ∧
    (Projectile._physics_process E false scene p delta).apply_damage_calls = 0 ∧
    (Projectile._physics_process E false scene p delta).units = scene.units ∧
    (Projectile._physics_process E false scene p delta).health_signals = [] := by
  have hd : 0 < p.config.speed * delta / 2 := lt_trans (by norm_num) hstep
  have hto : (scene.position t).sub p.global_position =
      ⟨-(side * (p.config.speed * delta / 2)), 0, 0⟩ := by
    rw [hpos]
    simp [Vector3.sub]
  have hlen : E.length ((scene.position t).sub p.global_position) =
      p.config.speed * delta / 2 := by
    rw [hto, haxis]
    rcases hside with h | h <;> rw [h] <;> simp [abs_of_pos hd]
  have hfar : ¬ E.length ((scene.position t).sub p.global_position) ≤ p.config.hit_radius := by
    rw [hlen]
    exact not_le.mpr hrad
  have hmove : E.length ((scene.position t).sub p.global_position) > 1 / 1000 := by
    rw [hlen]
    exact hstep
  unfold Projectile._physics_process
  simp only [htarget, hin, hfar, hmove, Bool.false_eq_true, if_false, if_true, Bool.not_true]
  refine ⟨?_, ?_, ?_, ?_, ?_, ?_⟩ <;> try trivial
  rw [hlen, hto, hpos]
  simp only [Vector3.add, Vector3.scale, Vector3.div, Vector3.mk.injEq]
  have hne : p.config.speed * delta / 2 ≠ 0 := ne_of_gt hd
  have hdiv : -(side * (p.config.speed * delta / 2)) / (p.config.speed * delta / 2) = -side := by
    rw [neg_div, mul_div_assoc, div_self hne, mul_one]
  refine ⟨?_, by simp, by simp⟩
  rw [hdiv]
  ring

theorem projectile_offset_length (E : Engine) (haxis : ∀ a : ℚ, E.length ⟨a, 0, 0⟩ = |a|)
    (target_pos position : Vector3) (side d : ℚ) (hside : side = 1 ∨ side = -1)
    (hd : 0 < d) (hpos : position = { target_pos with x := target_pos.x + side * d }) :
    E.length (target_pos.sub position) = d := by
  have hto : target_pos.sub position = ⟨-(side * d), 0, 0⟩ := by
    rw [hpos]
    simp [Vector3.sub]
  rw [hto, haxis]
  rcases hside with h | h <;> rw [h] <;> simp [abs_of_pos hd]

theorem projectile_never_arrives (E : Engine) (haxis : ∀ a : ℚ, E.length ⟨a, 0, 0⟩ = |a|)
    (scene : Scene) (delta : ℚ) (t : ObjectId) (hin : (scene.units t).inside_tree = true)
    (n : Nat) :
    ∀ (p : ProjectileNode) (side : ℚ), (side = 1 ∨ side = -1) →
      p.config.target = some t →
      1 / 1000 < p.config.speed * delta / 2 →
      p.config.hit_radius < p.config.speed * delta / 2 →
      p.queued_for_deletion = false →
      p.global_position =
        { scene.position t with
            x := (scene.position t).x + side * (p.config.speed * delta / 2) } →
      (Projectile.run E p (List.replicate n (scene, delta))).2 = 0 ∧
      (Projectile.run E p (List.replicate n (scene, delta))).1.queued_for_deletion
        = false ∧
      E.length ((scene.position t).sub
        (Projectile.run E p (List.replicate n (scene, delta))).1.global_position)
        = p.config.speed * delta / 2 := by
  induction n with
  | zero =>
    intro p side hside _ hstep _ hq hpos
    exact ⟨rfl, hq, projectile_offset_length E haxis _ _ side _ hside
      (lt_trans (by norm_num) hstep) hpos⟩
  | succ n ih =>
    intro p side hside htarget hstep hrad hq hpos
    obtain ⟨o1, o2, o3, o4, -, -⟩ :=
      projectile_overshoot E haxis scene p delta t side hside htarget hin hstep hrad hpos
    have hside1 : -side = 1 ∨ -side = -1 := by
      rcases hside with h | h
      · exact Or.inr (by rw [h])
      · exact Or.inl (by rw [h]; norm_num)
    have hpos1 : (Projectile._physics_process E false scene p delta).state.global_position =
        { scene.position t with
            x := (scene.position t).x +
              -side * ((Projectile._physics_process E false scene p delta).state.config.speed
                * delta / 2) } := by
      rw [o1, o2]
      simp only [Vector3.mk.injEq, and_true]
      ring
    obtain ⟨i1, i2, i3⟩ := ih (Projectile._physics_process E false scene p delta).state (-side)
      hside1 (by rw [o2]; exact htarget) (by rw [o2]; exact hstep) (by rw [o2]; exact hrad)
      (by rw [o3]; exact hq) hpos1
    rw [o2] at i3
    have hrun : Projectile.run E p (List.replicate (n + 1) (scene, delta)) =
        ((Projectile.run E (Projectile._physics_process E false scene p delta).state
            (List.replicate n (scene, delta))).1,
          (Projectile._physics_process E false scene p delta).apply_damage_calls +
            (Projectile.run E (Projectile._physics_process E false scene p delta).state
              (List.replicate n (scene, delta))).2) := by
      rw [List.replicate_succ]
      conv_lhs => unfold Projectile.run
      rw [if_neg (by rw [hq]; simp)]
    rw [hrun]
    exact ⟨by rw [o4, i1], i2, i3⟩

/-- C30.  A projectile can miss a stationary target forever.  Positions are
exact and lie on a line through the target (the x axis through it, on which
the engine's length is the absolute value).  For every speed, delta and
hit radius with `step = speed * delta`, `step / 2 > 0.001` and
`hit_radius < step / 2`, a projectile at distance `step / 2` from a target
that stays in the tree and does not move is, after one tick, on the opposite
side at distance `step / 2` again, with no `apply_damage` call, no unit
changed and no `queue_free()`; and after any number of such ticks no damage
has been delivered and the projectile is still alive at distance `step / 2`.
The advance of a tick is `speed * delta` whatever the remaining distance. -/
theorem projectile_misses_forever (E : Engine) (haxis : ∀ a : ℚ, E.length ⟨a, 0, 0⟩ = |a|)
    (scene : Scene) (p : ProjectileNode) (delta : ℚ) (t : ObjectId)
    (htarget : p.config.target = some t) (hin : (scene.units t).inside_tree = true)
    (hq : p.queued_for_deletion = false)
    (hstep : 1 / 1000 < p.config.speed * delta / 2)
    (hrad : p.config.hit_radius < p.config.speed * delta / 2)
    (hpos : p.global_position =
      { scene.position t with x := (scene.position t).x - p.config.speed * delta / 2 }) :
    E.length ((scene.position t).sub p.global_position) = p.config.speed * delta / 2 ∧
    (Projectile._physics_process E false scene p delta).state.global_position =
      { scene.position t with x := (scene.position t).x + p.config.speed * delta / 2 } ∧
    E.length ((scene.position t).sub
      (Projectile._physics_process E false scene p delta).state.global_position)
      = p.config.speed * delta / 2 ∧
    (Projectile._physics_process E false scene p delta).apply_damage_calls = 0 ∧
    (Projectile._physics_process E false scene p delta).units = scene.units ∧
    (Projectile._physics_process E false scene p delta).state.queued_for_deletion = false ∧
    (∀ n : Nat,
      (Projectile.run E p (List.replicate n (scene, delta))).2 = 0 ∧
      (Projectile.run E p (List.replicate n (scene, delta))).1.queued_for_deletion = false ∧
      E.length ((scene.position t).sub
        (Projectile.run E p (List.replicate n (scene, delta))).1.global_position)
        = p.config.speed * delta / 2) := by
  have hd : 0 < p.config.speed * delta / 2 := lt_trans (by norm_num) hstep
  have hpos1 : p.global_position =
      { scene.position t with
          x := (scene.position t).x + -1 * (p.config.speed * delta / 2) } := by
    rw [hpos]
    simp only [Vector3.mk.injEq, and_true]
    ring
  obtain ⟨o1, -, o3, o4, o5, -⟩ := projectile_overshoot E haxis scene p delta t (-1)
    (Or.inr rfl) htarget hin hstep hrad hpos1
  have hnew : (Projectile._physics_process E false scene p delta).state.global_position =
      { scene.position t with x := (scene.position t).x + p.config.speed * delta / 2 } := by
    rw [o1]
    simp only [Vector3.mk.injEq, and_true]
    ring
  refine ⟨projectile_offset_length E haxis _ _ (-1) _ (Or.inr rfl) hd hpos1, hnew, ?_, o4, o5,
    o3.trans hq, ?_⟩
  · exact projectile_offset_length E haxis _ _ 1 _ (Or.inl rfl) hd
      (by rw [hnew]; simp only [Vector3.mk.injEq, and_true]; ring)
  · intro n
    exact projectile_never_arrives E haxis scene delta t hin n p (-1) (Or.inr rfl) htarget
      hstep hrad hq hpos1

/-- The theorem of C30 for a sample projectile of speed 20 and hit radius 0.5
ticked with `delta = 0.1` (step 2): it starts at `(4, 0, 0)`, distance 1 from
its target at `(5, 0, 0)`; after one tick it is at `(6, 0, 0)`, and after 100
ticks it has made no `apply_damage` call and is not queued for deletion. -/
theorem projectile_misses_forever_witness :
    (Projectile._physics_process Engine.sample false (sample_scene 5 (some HealthComponent.initial))
      (sample_projectile 4 20 (1 / 2)) (1 / 10)).state.global_position = ⟨6, 0, 0⟩ ∧
    (Projectile.run Engine.sample (sample_projectile 4 20 (1 / 2))
      (List.replicate 100 (sample_scene 5 (some HealthComponent.initial), 1 / 10))).2 = 0 ∧
    (Projectile.run Engine.sample (sample_projectile 4 20 (1 / 2))
      (List.replicate 100
        (sample_scene 5 (some HealthComponent.initial), 1 / 10))).1.queued_for_deletion
      = false :=
  have h := projectile_misses_forever Engine.sample sample_length_axis
    (sample_scene 5 (some HealthComponent.initial)) (sample_projectile 4 20 (1 / 2)) (1 / 10) 1
    rfl rfl rfl (by norm_num [sample_projectile]) (by norm_num [sample_projectile])
    (by simp only [sample_projectile, sample_scene, Vector3.mk.injEq, and_true]; norm_num)
  ⟨by rw [h.2.1]
      simp only [sample_projectile, sample_scene, Vector3.mk.injEq, and_true]
      norm_num,
    (h.2.2.2.2.2.2 100).1, (h.2.2.2.2.2.2 100).2.1⟩

/-! ## MovementComponent: properties -/

theorem sample_length_3_4 : Engine.sample.length ⟨3, 4, 0⟩ = 5 := by
  show Rat.sqrt (Vector3.length_squared ⟨3, 4, 0⟩) = 5
  have h : Vector3.length_squared ⟨3, 4, 0⟩ = 5 * 5 := by
    norm_num [Vector3.length_squared]
  rw [h, Rat.sqrt_eq]
  norm_num

theorem sample_next_path_position (nav : NavigationAgent) :
    Engine.sample.get_next_path_position nav = nav.target_position := rfl

theorem sample_is_equal_approx_self (v : Vector3) :
    Engine.sample.is_equal_approx v v = true := by
  simp [Engine.sample, scalar_is_equal_approx]

theorem process_movement_settled (E : Engine) (m : MovementComponent) (owner : OwnerView)
    (delta : ℚ) (target_location : Vector3) (order : OrderType)
    (hin : m.agent.inside_tree = true) (hq : m.queued_for_deletion = false)
    (hready : m.is_ready = true) (hown : owner.inside_tree = true)
    (halive : ∀ h, owner.health = some h → h.is_dead = false) :
    MovementComponent.process_movement E m (some owner) delta target_location order =
      MovementComponent.steer E m (some owner) owner target_location order := by
  unfold MovementComponent.process_movement MovementComponent.get_owner_unit
  simp only [hin, hq, hready, hown, Bool.not_true, Bool.false_eq_true, if_false]
  cases hh : owner.health with
  | none => simp
  | some h => simp [halive h hh]

/-- C25, evaluated on the code.  The header documents `process_movement` as
returning a horizontal velocity whose Y component is always 0.  A settled
component of speed 5 whose parent stands at the origin and whose next path
position is `(3, 4, 0)`, 4 above the parent, returns `direction * speed =
(3, 4, 0)`: the displacement to the next path position is used with its
vertical component, so the Y component of the result is 4. -/
theorem process_movement_returns_vertical_velocity :
    (MovementComponent.process_movement Engine.sample (sample_mover ⟨3, 4, 0⟩)
      (some (sample_owner (some HealthComponent.initial))) (1 / 60) ⟨3, 4, 0⟩
      OrderType.MOVE).velocity = ⟨3, 4, 0⟩ ∧
    (MovementComponent.process_movement Engine.sample (sample_mover ⟨3, 4, 0⟩)
      (some (sample_owner (some HealthComponent.initial))) (1 / 60) ⟨3, 4, 0⟩
      OrderType.MOVE).velocity.y ≠ 0 := by
  have hv : (MovementComponent.process_movement Engine.sample (sample_mover ⟨3, 4, 0⟩)
      (some (sample_owner (some HealthComponent.initial))) (1 / 60) ⟨3, 4, 0⟩
      OrderType.MOVE).velocity = ⟨3, 4, 0⟩ := by
    rw [process_movement_settled Engine.sample (sample_mover ⟨3, 4, 0⟩)
      (sample_owner (some HealthComponent.initial)) (1 / 60) ⟨3, 4, 0⟩ OrderType.MOVE
      rfl rfl rfl rfl
      (fun h hh => by
        have : h = HealthComponent.initial := (Option.some.inj hh).symm
        subst this
        simp [HealthComponent.is_dead, HealthComponent.initial])]
    have hsub : (⟨3, 4, 0⟩ : Vector3).sub ⟨0, 0, 0⟩ = ⟨3, 4, 0⟩ := by
      simp [Vector3.sub]
    simp only [MovementComponent.steer, MovementComponent.drive,
      MovementComponent._apply_navigation_target_distance,
      MovementComponent.update_target, sample_mover, MovementComponent.initial, sample_agent, sample_owner,
      sample_is_equal_approx_self, sample_next_path_position, hsub, sample_length_3_4]
    norm_num [Vector3.div, Vector3.scale, hsub, sample_length_3_4]
  refine ⟨hv, ?_⟩
  rw [hv]
  norm_num

theorem movement_apply_distance_form (m : MovementComponent) (parent : Option OwnerView)
    (order : OrderType) :
    ∃ a, MovementComponent._apply_navigation_target_distance m parent order =
      { m with agent := a } := by
  unfold MovementComponent._apply_navigation_target_distance
  split_ifs
  · exact ⟨m.agent, rfl⟩
  · cases order with
    | ATTACK =>
      simp only
      cases MovementComponent.get_owner_unit m parent with
      | none => exact ⟨m.agent, rfl⟩
      | some owner =>
        simp only
        split_ifs
        · exact ⟨_, rfl⟩
        · exact ⟨m.agent, rfl⟩
    | MOVE => exact ⟨_, rfl⟩
    | INTERACT => exact ⟨_, rfl⟩
    | NONE => exact ⟨_, rfl⟩

theorem movement_update_target_form (E : Engine) (m : MovementComponent)
    (target_location : Vector3) :
    ∃ a, MovementComponent.update_target E m target_location = { m with agent := a } := by
  unfold MovementComponent.update_target
  simp only
  split_ifs
  · exact ⟨_, rfl⟩
  · exact ⟨m.agent, rfl⟩

theorem steer_edge (E : Engine) (m : MovementComponent) (parent : Option OwnerView)
    (owner : OwnerView) (target_location : Vector3) (order : OrderType) :
    (MovementComponent.steer E m parent owner target_location order).state.was_moving =
      decide (E.length
        (MovementComponent.steer E m parent owner target_location order).velocity > 1 / 100) ∧
    (MovementComponent.steer E m parent owner target_location order).signals =
      (if decide (E.length
            (MovementComponent.steer E m parent owner target_location order).velocity
              > 1 / 100) && !m.was_moving
        then [MovementSignal.movement_started]
        else if !decide (E.length
            (MovementComponent.steer E m parent owner target_location order).velocity
              > 1 / 100) && m.was_moving
        then [MovementSignal.movement_stopped]
        else []) := by
  have hw : (MovementComponent.update_target E
      (MovementComponent._apply_navigation_target_distance m parent order)
      target_location).was_moving = m.was_moving := by
    obtain ⟨a, ha⟩ := movement_apply_distance_form m parent order
    obtain ⟨b, hb⟩ := movement_update_target_form E { m with agent := a } target_location
    rw [ha, hb]
  unfold MovementComponent.steer
  simp only []
  rw [← hw]
  exact ⟨rfl, rfl⟩

theorem process_movement_cases (E : Engine) (m : MovementComponent)
    (parent : Option OwnerView) (delta : ℚ) (target_location : Vector3) (order : OrderType) :
    (∃ m1 : MovementComponent, m1.was_moving = m.was_moving ∧
      MovementComponent.process_movement E m parent delta target_location order =
        MovementComponent.stay m1 parent) ∨
    (∃ (m1 : MovementComponent) (owner : OwnerView), m1.was_moving = m.was_moving ∧
      MovementComponent.process_movement E m parent delta target_location order =
        MovementComponent.steer E m1 parent owner target_location order) := by
  unfold MovementComponent.process_movement
  cases MovementComponent.get_owner_unit m parent with
  | none => exact Or.inl ⟨m, rfl, rfl⟩
  | some owner =>
    simp only
    split_ifs
    · exact Or.inl ⟨m, rfl, rfl⟩
    · exact Or.inl ⟨m, rfl, rfl⟩
    · exact Or.inl ⟨{ m with frame_count := 0 }, rfl, rfl⟩
    · exact Or.inl ⟨m, rfl, rfl⟩
    · exact Or.inl ⟨{ m with frame_count := m.frame_count + 1 }, rfl, rfl⟩
    · right
      obtain ⟨a, ha⟩ := movement_apply_distance_form
        { m with frame_count := m.frame_count + 1, is_ready := true } parent order
      exact ⟨MovementComponent._apply_navigation_target_distance
        { m with frame_count := m.frame_count + 1, is_ready := true } parent order,
        owner, by rw [ha], rfl⟩
    · exact Or.inr ⟨m, owner, rfl, rfl⟩

theorem process_movement_edge (E : Engine) (m : MovementComponent)
    (parent : Option OwnerView) (delta : ℚ) (target_location : Vector3) (order : OrderType) :
    ((MovementComponent.process_movement E m parent delta target_location order).signals
        = [] ∧
      (MovementComponent.process_movement E m parent delta target_location
        order).state.was_moving = m.was_moving ∧
      (MovementComponent.process_movement E m parent delta target_location order).velocity
        = ⟨0, 0, 0⟩) ∨
    ((MovementComponent.process_movement E m parent delta target_location
        order).state.was_moving =
        decide (E.length
          (MovementComponent.process_movement E m parent delta target_location
            order).velocity > 1 / 100) ∧
      (MovementComponent.process_movement E m parent delta target_location order).signals =
        (if decide (E.length
              (MovementComponent.process_movement E m parent delta target_location
                order).velocity > 1 / 100) && !m.was_moving
          then [MovementSignal.movement_started]
          else if !decide (E.length
              (MovementComponent.process_movement E m parent delta target_location
                order).velocity > 1 / 100) && m.was_moving
          then [MovementSignal.movement_stopped]
          else [])) := by
  rcases process_movement_cases E m parent delta target_location order with
    ⟨m1, hw, h⟩ | ⟨m1, owner, hw, h⟩
  · rw [h]
    exact Or.inl ⟨rfl, hw, rfl⟩
  · rw [h, ← hw]
    exact Or.inr (steer_edge E m1 parent owner target_location order)

theorem movement_call_step (m : MovementComponent) (c : MovementCall) :
    ((m.call c).signals = [] ∧ (m.call c).state.was_moving = m.was_moving) ∨
    (m.was_moving = false ∧ (m.call c).signals = [MovementSignal.movement_started] ∧
      (m.call c).state.was_moving = true) ∨
    (m.was_moving = true ∧ (m.call c).signals = [MovementSignal.movement_stopped] ∧
      (m.call c).state.was_moving = false) := by
  have h := process_movement_edge c.engine (m.arrive c) c.parent c.delta c.target_location
    c.order
  have hw : (m.arrive c).was_moving = m.was_moving := rfl
  rw [hw] at h
  rcases h with ⟨h1, h2, -⟩ | ⟨h1, h2⟩
  · exact Or.inl ⟨h1, h2⟩
  · unfold MovementComponent.call
    rw [h1, h2]
    cases hm : decide (c.engine.length
        (MovementComponent.process_movement c.engine (m.arrive c) c.parent c.delta
          c.target_location c.order).velocity > 1 / 100) <;>
      cases hwas : m.was_moving <;> simp

theorem movement_run_alternates (calls : List MovementCall) :
    ∀ m : MovementComponent,
      MovementComponent.Alternates m.was_moving (m.run_calls calls).2 := by
  induction calls with
  | nil =>
    intro m
    cases hw : m.was_moving <;> exact trivial
  | cons c rest ih =>
    intro m
    have hrest := ih (m.call c).state
    show MovementComponent.Alternates m.was_moving
      ((m.call c).signals ++ ((m.call c).state.run_calls rest).2)
    rcases movement_call_step m c with ⟨h1, h2⟩ | ⟨h0, h1, h2⟩ | ⟨h0, h1, h2⟩
    · rw [h1, List.nil_append, ← h2]
      exact hrest
    · rw [h2] at hrest
      rw [h0, h1]
      exact hrest
    · rw [h2] at hrest
      rw [h0, h1]
      exact hrest

theorem process_movement_dead_owner (E : Engine) (m : MovementComponent)
    (owner : OwnerView) (delta : ℚ) (target_location : Vector3) (order : OrderType)
    (h : HealthComponent) (hin : m.agent.inside_tree = true)
    (hown : owner.inside_tree = true) (hhealth : owner.health = some h)
    (hdead : h.is_dead = true) :
    MovementComponent.process_movement E m (some owner) delta target_location order =
      MovementComponent.stay m (some owner) := by
  unfold MovementComponent.process_movement MovementComponent.get_owner_unit
  simp [hin, hown, hhealth, hdead]

theorem sample_first_call_velocity :
    (MovementComponent.call (sample_mover ⟨10, 0, 0⟩)
      (sample_call ⟨10, 0, 0⟩ (some (sample_owner (some HealthComponent.initial))))).velocity = ⟨5, 0, 0⟩ := by
  show (MovementComponent.process_movement Engine.sample
    (MovementComponent.arrive (sample_mover ⟨10, 0, 0⟩) (sample_call ⟨10, 0, 0⟩ (some (sample_owner (some HealthComponent.initial)))))
    (some (sample_owner (some HealthComponent.initial))) (1 / 60) ⟨10, 0, 0⟩
    OrderType.MOVE).velocity = ⟨5, 0, 0⟩
  rw [process_movement_settled Engine.sample _
    (sample_owner (some HealthComponent.initial)) _ _ _ rfl rfl rfl rfl
    (fun h hh => by
      have : h = HealthComponent.initial := (Option.some.inj hh).symm
      subst this
      simp [HealthComponent.is_dead, HealthComponent.initial])]
  have hsub : (⟨10, 0, 0⟩ : Vector3).sub ⟨0, 0, 0⟩ = ⟨10, 0, 0⟩ := by
    simp [Vector3.sub]
  simp only [MovementComponent.steer, MovementComponent.drive,
    MovementComponent._apply_navigation_target_distance, MovementComponent.update_target,
    MovementComponent.arrive, sample_call, sample_mover, MovementComponent.initial,
    sample_agent, sample_owner, sample_is_equal_approx_self, sample_next_path_position]
  norm_num [Vector3.div, Vector3.scale, hsub, sample_length_axis]

/-- C24 as stated fails on the calls that return early.  A settled component
of speed 5 is called twice with a MOVE order toward `(10, 0, 0)`.  On the
first call its parent is alive: the velocity is `(5, 0, 0)`, of magnitude
5 > 0.01, and `movement_started` is emitted.  On the second call the parent's
health is 0: the call returns `(0, 0, 0)` at the owner-is-dead check, so the
velocity magnitude went from above 0.01 to 0, yet no `movement_stopped` is
emitted and `was_moving` stays true. -/
theorem movement_stopped_missing_counterexample :
    (MovementComponent.call (sample_mover ⟨10, 0, 0⟩)
      (sample_call ⟨10, 0, 0⟩ (some (sample_owner (some HealthComponent.initial))))).velocity = ⟨5, 0, 0⟩ ∧
    Engine.sample.length ⟨5, 0, 0⟩ > 1 / 100 ∧
    (MovementComponent.call (sample_mover ⟨10, 0, 0⟩)
      (sample_call ⟨10, 0, 0⟩ (some (sample_owner (some HealthComponent.initial))))).signals = [MovementSignal.movement_started] ∧
    (MovementComponent.call (MovementComponent.call (sample_mover ⟨10, 0, 0⟩)
      (sample_call ⟨10, 0, 0⟩ (some (sample_owner (some HealthComponent.initial))))).state
      (sample_call ⟨10, 0, 0⟩ (some (sample_owner (some ⟨100, 0⟩))))).velocity = ⟨0, 0, 0⟩ ∧
    ¬ (Engine.sample.length ⟨0, 0, 0⟩ > 1 / 100) ∧
    (MovementComponent.call (MovementComponent.call (sample_mover ⟨10, 0, 0⟩)
      (sample_call ⟨10, 0, 0⟩ (some (sample_owner (some HealthComponent.initial))))).state
      (sample_call ⟨10, 0, 0⟩ (some (sample_owner (some ⟨100, 0⟩))))).signals = [] ∧
    (MovementComponent.call (MovementComponent.call (sample_mover ⟨10, 0, 0⟩)
      (sample_call ⟨10, 0, 0⟩ (some (sample_owner (some HealthComponent.initial))))).state
      (sample_call ⟨10, 0, 0⟩ (some (sample_owner (some ⟨100, 0⟩))))).state.was_moving = true := by
  have hv := sample_first_call_velocity
  have hlen5 : Engine.sample.length ⟨5, 0, 0⟩ = 5 := by
    rw [sample_length_axis]
    norm_num
  have hlen0 : Engine.sample.length ⟨0, 0, 0⟩ = 0 := by
    rw [sample_length_axis]
    norm_num
  have hedge := process_movement_edge Engine.sample
    (MovementComponent.arrive (sample_mover ⟨10, 0, 0⟩) (sample_call ⟨10, 0, 0⟩ (some (sample_owner (some HealthComponent.initial)))))
    (some (sample_owner (some HealthComponent.initial))) (1 / 60) ⟨10, 0, 0⟩ OrderType.MOVE
  have hv1 : (MovementComponent.process_movement Engine.sample
      (MovementComponent.arrive (sample_mover ⟨10, 0, 0⟩) (sample_call ⟨10, 0, 0⟩ (some (sample_owner (some HealthComponent.initial)))))
      (some (sample_owner (some HealthComponent.initial))) (1 / 60) ⟨10, 0, 0⟩
      OrderType.MOVE).velocity = ⟨5, 0, 0⟩ := hv
  rw [hv1, hlen5] at hedge
  have hfirst : (MovementComponent.call (sample_mover ⟨10, 0, 0⟩)
      (sample_call ⟨10, 0, 0⟩ (some (sample_owner (some HealthComponent.initial))))).signals = [MovementSignal.movement_started] ∧
      (MovementComponent.call (sample_mover ⟨10, 0, 0⟩)
      (sample_call ⟨10, 0, 0⟩ (some (sample_owner (some HealthComponent.initial))))).state.was_moving = true := by
    rcases hedge with ⟨-, -, h3⟩ | ⟨h1, h2⟩
    · exact absurd h3 (by simp)
    · constructor
      · show (MovementComponent.process_movement Engine.sample
          (MovementComponent.arrive (sample_mover ⟨10, 0, 0⟩) (sample_call ⟨10, 0, 0⟩ (some (sample_owner (some HealthComponent.initial)))))
          (some (sample_owner (some HealthComponent.initial))) (1 / 60) ⟨10, 0, 0⟩
          OrderType.MOVE).signals = [MovementSignal.movement_started]
        rw [h2]
        norm_num [MovementComponent.arrive, sample_mover, MovementComponent.initial]
      · show (MovementComponent.process_movement Engine.sample
          (MovementComponent.arrive (sample_mover ⟨10, 0, 0⟩) (sample_call ⟨10, 0, 0⟩ (some (sample_owner (some HealthComponent.initial)))))
          (some (sample_owner (some HealthComponent.initial))) (1 / 60) ⟨10, 0, 0⟩
          OrderType.MOVE).state.was_moving = true
        rw [h1]
        norm_num
  have hsecond : (MovementComponent.call (MovementComponent.call (sample_mover ⟨10, 0, 0⟩)
      (sample_call ⟨10, 0, 0⟩ (some (sample_owner (some HealthComponent.initial))))).state
      (sample_call ⟨10, 0, 0⟩ (some (sample_owner (some ⟨100, 0⟩))))) =
      MovementComponent.stay
        (MovementComponent.arrive (MovementComponent.call (sample_mover ⟨10, 0, 0⟩)
      (sample_call ⟨10, 0, 0⟩ (some (sample_owner (some HealthComponent.initial))))).state
          (sample_call ⟨10, 0, 0⟩ (some (sample_owner (some ⟨100, 0⟩)))))
        (some (sample_owner (some ⟨100, 0⟩))) :=
    process_movement_dead_owner Engine.sample _ (sample_owner (some ⟨100, 0⟩)) _ _ _ ⟨100, 0⟩
      rfl rfl rfl (by simp [HealthComponent.is_dead])
  refine ⟨hv, by rw [hlen5]; norm_num, hfirst.1, ?_, by rw [hlen0]; norm_num, ?_, ?_⟩
  · rw [hsecond]; rfl
  · rw [hsecond]; rfl
  · rw [hsecond]
    exact hfirst.2

theorem steer_velocity (E : Engine) (m : MovementComponent) (parent : Option OwnerView)
    (owner : OwnerView) (target_location : Vector3) (order : OrderType) :
    (MovementComponent.steer E m parent owner target_location order).velocity =
      MovementComponent.velocity_toward E m.speed owner.global_position
        (E.get_next_path_position
          (MovementComponent.steer E m parent owner target_location order).state.agent) := by
  have hs : (MovementComponent.update_target E
      (MovementComponent._apply_navigation_target_distance m parent order)
      target_location).speed = m.speed := by
    obtain ⟨a, ha⟩ := movement_apply_distance_form m parent order
    obtain ⟨b, hb⟩ := movement_update_target_form E { m with agent := a } target_location
    rw [ha, hb]
  unfold MovementComponent.steer
  simp only []
  rw [← hs]
  rfl

theorem process_movement_early (E : Engine) (m : MovementComponent)
    (parent : Option OwnerView) (delta : ℚ) (target_location : Vector3) (order : OrderType)
    (h : MovementComponent.ReturnsEarly m parent) :
    ∃ m1 : MovementComponent, m1.was_moving = m.was_moving ∧
      MovementComponent.process_movement E m parent delta target_location order =
        MovementComponent.stay m1 parent := by
  unfold MovementComponent.process_movement MovementComponent.get_owner_unit
  by_cases hin : m.agent.inside_tree = true
  · cases parent with
    | none => exact ⟨m, rfl, by simp⟩
    | some owner =>
      simp only [hin, Bool.not_true, Bool.false_eq_true, if_false]
      by_cases hot : owner.inside_tree = true
      · simp only [hot, Bool.not_true, Bool.false_eq_true, if_false]
        by_cases hdead : (match owner.health with
            | some health_comp => health_comp.is_dead
            | none => false) = true
        · exact ⟨m, rfl, by rw [if_pos hdead]⟩
        · rw [if_neg hdead]
          by_cases hq : m.queued_for_deletion = true
          · exact ⟨m, rfl, by rw [if_pos hq]⟩
          · rw [if_neg hq]
            rcases h with h | h | ⟨hr, hf⟩ | h | ⟨o, ho, h | ⟨hc, h1, h2⟩⟩
            · rw [hin] at h
              exact absurd h (by simp)
            · exact absurd h hq
            · refine ⟨{ m with frame_count := m.frame_count + 1 }, rfl, ?_⟩
              simp only [hr, Bool.not_false, if_true]
              rw [if_pos (by omega)]
            · exact absurd h (by simp)
            · cases Option.some.inj ho
              rw [hot] at h
              exact absurd h (by simp)
            · cases Option.some.inj ho
              rw [h1] at hdead
              exact absurd h2 hdead
      · exact ⟨m, rfl, by simp [hot]⟩
  · exact ⟨m, rfl, by simp [hin]⟩

theorem process_movement_late (E : Engine) (m : MovementComponent)
    (parent : Option OwnerView) (delta : ℚ) (target_location : Vector3) (order : OrderType)
    (h : ¬ MovementComponent.ReturnsEarly m parent) :
    ∃ (m1 : MovementComponent) (owner : OwnerView), parent = some owner ∧
      m1.was_moving = m.was_moving ∧ m1.speed = m.speed ∧
      MovementComponent.process_movement E m parent delta target_location order =
        MovementComponent.steer E m1 parent owner target_location order := by
  unfold MovementComponent.ReturnsEarly at h
  push_neg at h
  obtain ⟨hin, hq, hset, hp, hown⟩ := h
  have hin1 : m.agent.inside_tree = true := by simpa using hin
  have hq1 : m.queued_for_deletion = false := by simpa using hq
  cases parent with
  | none => exact absurd rfl hp
  | some owner =>
    obtain ⟨hot, hdead⟩ := hown owner rfl
    have hot1 : owner.inside_tree = true := by simpa using hot
    have hd : (match owner.health with
        | some health_comp => health_comp.is_dead
        | none => false) = false := by
      cases hh : owner.health with
      | none => rfl
      | some hc => simpa using hdead hc hh
    unfold MovementComponent.process_movement MovementComponent.get_owner_unit
    simp only [hin1, hot1, hd, Bool.not_true, Bool.false_eq_true, if_false]
    rw [if_neg (by rw [hq1]; exact Bool.false_ne_true)]
    by_cases hr : m.is_ready = true
    · simp only [hr, Bool.not_true, Bool.false_eq_true, if_false]
      exact ⟨m, owner, rfl, rfl, rfl, rfl⟩
    · have hr0 : m.is_ready = false := by simpa using hr
      have hfc := hset hr0
      simp only [hr0, Bool.not_false, if_true]
      rw [if_neg (by omega)]
      obtain ⟨a, ha⟩ := movement_apply_distance_form
        { m with frame_count := m.frame_count + 1, is_ready := true } (some owner) order
      exact ⟨MovementComponent._apply_navigation_target_distance
        { m with frame_count := m.frame_count + 1, is_ready := true } (some owner) order,
        owner, rfl, by rw [ha], by rw [ha], rfl⟩

/-- C24, amended.  Over every sequence of `process_movement` calls, whatever
each call finds (engine, navigation state, parent, arguments): a call that
returns early (component outside the tree or queued for deletion, settle
delay, owner missing, outside the tree or dead) returns the zero vector, emits
nothing and leaves `was_moving` as it was; every other call returns the
velocity toward the next path position, sets `was_moving` to "is moving"
(velocity magnitude above 0.01) and emits `movement_started` exactly when "is
moving" is true and `was_moving` was false, and `movement_stopped` exactly
when "is moving" is false and `was_moving` was true.  Consequently the two
notifications strictly alternate, beginning with `movement_started` for a
fresh component, and no call emits both. -/
theorem movement_signals_follow_was_moving :
    (∀ (m : MovementComponent) (c : MovementCall),
      MovementComponent.ReturnsEarly (m.arrive c) c.parent →
        (m.call c).signals = [] ∧ (m.call c).state.was_moving = m.was_moving ∧
        (m.call c).velocity = ⟨0, 0, 0⟩) ∧
    (∀ (m : MovementComponent) (c : MovementCall),
      ¬ MovementComponent.ReturnsEarly (m.arrive c) c.parent →
        (∃ owner, c.parent = some owner ∧
          (m.call c).velocity =
            MovementComponent.velocity_toward c.engine c.speed owner.global_position
              (c.engine.get_next_path_position (m.call c).state.agent)) ∧
        (m.call c).state.was_moving = decide (c.engine.length (m.call c).velocity > 1 / 100) ∧
        (m.call c).signals =
          (if decide (c.engine.length (m.call c).velocity > 1 / 100) && !m.was_moving
            then [MovementSignal.movement_started]
            else if !decide (c.engine.length (m.call c).velocity > 1 / 100) && m.was_moving
            then [MovementSignal.movement_stopped]
            else [])) ∧
    (∀ (m : MovementComponent) (calls : List MovementCall),
      MovementComponent.Alternates m.was_moving (m.run_calls calls).2) ∧
    (∀ (agent : NavigationAgent) (calls : List MovementCall),
      MovementComponent.Alternates false
        ((MovementComponent.initial agent).run_calls calls).2) ∧
    (∀ (m : MovementComponent) (c : MovementCall), (m.call c).signals.length ≤ 1) := by
  refine ⟨?_, ?_, fun m calls => movement_run_alternates calls m,
    fun agent calls => movement_run_alternates calls (MovementComponent.initial agent), ?_⟩
  · intro m c h
    obtain ⟨m1, hw, heq⟩ := process_movement_early c.engine (m.arrive c) c.parent c.delta
      c.target_location c.order h
    unfold MovementComponent.call
    rw [heq]
    exact ⟨rfl, hw, rfl⟩
  · intro m c h
    obtain ⟨m1, owner, hp, hw, hs, heq⟩ := process_movement_late c.engine (m.arrive c)
      c.parent c.delta c.target_location c.order h
    have hw2 : m1.was_moving = m.was_moving := hw
    have hs2 : m1.speed = c.speed := hs
    unfold MovementComponent.call
    rw [heq]
    refine ⟨⟨owner, hp, ?_⟩, ?_⟩
    · rw [← hs2]
      exact steer_velocity c.engine m1 c.parent owner c.target_location c.order
    · rw [← hw2]
      exact steer_edge c.engine m1 c.parent owner c.target_location c.order
  · intro m c
    rcases movement_call_step m c with ⟨h, -⟩ | ⟨-, h, -⟩ | ⟨-, h, -⟩ <;> rw [h] <;> simp

/-- The amended statement of C24 on the sample component moving toward
`(10, 0, 0)`: a call with a dead owner returns early and emits nothing, and a
call with a live owner does not return early, so it records "is moving" in
`was_moving`. -/
theorem movement_signals_follow_was_moving_witness :
    (MovementComponent.call (sample_mover ⟨10, 0, 0⟩)
      (sample_call ⟨10, 0, 0⟩ (some (sample_owner (some ⟨100, 0⟩))))).signals = [] ∧
    (MovementComponent.call (sample_mover ⟨10, 0, 0⟩)
      (sample_call ⟨10, 0, 0⟩
        (some (sample_owner (some HealthComponent.initial))))).state.was_moving =
      decide (Engine.sample.length
        (MovementComponent.call (sample_mover ⟨10, 0, 0⟩)
          (sample_call ⟨10, 0, 0⟩
            (some (sample_owner (some HealthComponent.initial))))).velocity > 1 / 100) :=
  ⟨(movement_signals_follow_was_moving.1 (sample_mover ⟨10, 0, 0⟩)
      (sample_call ⟨10, 0, 0⟩ (some (sample_owner (some ⟨100, 0⟩))))
      (Or.inr (Or.inr (Or.inr (Or.inr ⟨sample_owner (some ⟨100, 0⟩), rfl,
        Or.inr ⟨⟨100, 0⟩, rfl, by simp [HealthComponent.is_dead]⟩⟩))))).1,
   (movement_signals_follow_was_moving.2.1 (sample_mover ⟨10, 0, 0⟩)
      (sample_call ⟨10, 0, 0⟩ (some (sample_owner (some HealthComponent.initial))))
      (by
        intro h
        rcases h with h | h | ⟨h, -⟩ | h | ⟨o, ho, h | ⟨hc, h1, h2⟩⟩
        · exact absurd h (by decide)
        · exact absurd h (by decide)
        · exact absurd h (by decide)
        · exact absurd h (by simp [sample_call])
        · cases Option.some.inj ho
          exact absurd h (by decide)
        · cases Option.some.inj ho
          cases Option.some.inj h1
          exact absurd h2 (by simp [HealthComponent.is_dead, HealthComponent.initial]))).2.1⟩

/-! ## Stopping distance requested from the navigation agent -/

theorem unit_apply_distance (u : Unit) (nav : NavigationAgent)
    (hnav : u.navigation_agent = some nav) (hready : u.is_ready = true) :
    (Unit._apply_navigation_target_distance (Unit.start u)).state.navigation_agent =
      some { nav with
        target_desired_distance :=
          if u.current_order = OrderType.ATTACK then u.auto_attack_range else 0 } := by
  have h1 : (Unit.start u).state.navigation_agent = some nav := hnav
  have h2 : (Unit.start u).state.is_ready = true := hready
  unfold Unit._apply_navigation_target_distance
  rw [if_neg (by rw [h1, h2]; simp)]
  have h3 : (Unit.start u).state.current_order = u.current_order := rfl
  cases ho : u.current_order <;> rw [h3, ho] <;>
    simp [Unit.nav_set_target_desired_distance, h1]
  rfl

theorem movement_apply_distance (m : MovementComponent) (parent : Option OwnerView)
    (order : OrderType) (hready : m.is_ready = true) (hin : m.agent.inside_tree = true) :
    (order ≠ OrderType.ATTACK →
      (m._apply_navigation_target_distance parent order).agent.target_desired_distance = 0) ∧
    (∀ owner : OwnerView, parent = some owner → owner.inside_tree = true →
      (m._apply_navigation_target_distance parent OrderType.ATTACK).agent.target_desired_distance
        = 5 / 2) := by
  constructor
  · intro hne
    unfold MovementComponent._apply_navigation_target_distance
    rw [if_neg (by rw [hready, hin]; simp)]
    cases order with
    | ATTACK => exact absurd rfl hne
    | MOVE => rfl
    | INTERACT => rfl
    | NONE => rfl
  · intro owner hp hown
    unfold MovementComponent._apply_navigation_target_distance MovementComponent.get_owner_unit
    rw [if_neg (by rw [hready, hin]; simp)]
    simp [hin, hp, hown]

/-- C21 as stated fails for ATTACK orders: neither function requests the
attack range the tick holds at.  The sample attacker has an attack component
with `attack_range` 5 (set by `set_attack_range(5)`), so its tick holds at
distance 5; `Unit::_apply_navigation_target_distance` requests
`auto_attack_range = 2.5`, and
`MovementComponent::_apply_navigation_target_distance` requests its fixed
default 2.5. -/
theorem stopping_distance_counterexample :
    Unit.effective_attack_range
      (sample_attacker (some ((AttackComponent.initial (some 9) true).set_attack_range 5))
      ⟨0, 0, 0⟩) = 5 ∧
    (Unit._apply_navigation_target_distance (Unit.start
      (sample_attacker (some ((AttackComponent.initial (some 9) true).set_attack_range 5))
      ⟨0, 0, 0⟩))).state.navigation_agent =
      some { sample_agent ⟨0, 0, 0⟩ with target_desired_distance := 5 / 2 } ∧
    (MovementComponent._apply_navigation_target_distance (sample_mover ⟨0, 0, 0⟩)
      (some (sample_owner none)) OrderType.ATTACK).agent.target_desired_distance = 5 / 2 ∧
    (5 / 2 : ℚ) ≠ 5 := by
  refine ⟨?_, ?_, ?_, by norm_num⟩
  · show (std_max (1 / 10) 5 : ℚ) = 5
    norm_num [std_max]
  · rw [unit_apply_distance _ (sample_agent ⟨0, 0, 0⟩) rfl rfl]
    rfl
  · exact (movement_apply_distance (sample_mover ⟨0, 0, 0⟩) (some (sample_owner none))
      OrderType.ATTACK rfl rfl).2 (sample_owner none) rfl rfl

/-- C21, amended.  For a ready unit with a resolved navigation agent,
`Unit::_apply_navigation_target_distance` requests the stopping distance 0
for MOVE, INTERACT and NONE orders and the unit's `auto_attack_range` for
ATTACK orders; that is the range the tick holds at when the unit has no
attack component.  For a settled `MovementComponent` in the tree,
`MovementComponent::_apply_navigation_target_distance` requests 0 for MOVE,
INTERACT and NONE orders and, when its owner is in the tree, the fixed
default 2.5 for ATTACK orders.  Neither reads the `attack_range` of the
attack component. -/
theorem stopping_distance_by_order (u : Unit) (nav : NavigationAgent)
    (m : MovementComponent) (parent : Option OwnerView) (order : OrderType)
    (hnav : u.navigation_agent = some nav) (hready : u.is_ready = true)
    (hsettled : m.is_ready = true) (hin : m.agent.inside_tree = true) :
    (Unit._apply_navigation_target_distance (Unit.start u)).state.navigation_agent =
      some { nav with
        target_desired_distance :=
          if u.current_order = OrderType.ATTACK then u.auto_attack_range else 0 } ∧
    (u.attack_component = none → Unit.effective_attack_range u = u.auto_attack_range) ∧
    (order ≠ OrderType.ATTACK →
      (m._apply_navigation_target_distance parent order).agent.target_desired_distance = 0) ∧
    (∀ owner : OwnerView, parent = some owner → owner.inside_tree = true →
      (m._apply_navigation_target_distance parent
        OrderType.ATTACK).agent.target_desired_distance = 5 / 2) := by
  refine ⟨unit_apply_distance u nav hnav hready, ?_,
    (movement_apply_distance m parent order hsettled hin).1,
    (movement_apply_distance m parent order hsettled hin).2⟩
  intro hnone
  unfold Unit.effective_attack_range
  rw [hnone]

/-- The amended theorem of C21 for the sample attacker without an attack
component (ATTACK order, `auto_attack_range` 2.5) and the sample movement
component with a MOVE order: the unit requests 2.5, the component 0. -/
theorem stopping_distance_by_order_witness :
    (Unit._apply_navigation_target_distance
      (Unit.start (sample_attacker none ⟨0, 0, 0⟩))).state.navigation_agent =
      some { sample_agent ⟨0, 0, 0⟩ with
        target_desired_distance :=
          if (sample_attacker none ⟨0, 0, 0⟩).current_order = OrderType.ATTACK
            then (sample_attacker none ⟨0, 0, 0⟩).auto_attack_range else 0 } ∧
    (MovementComponent._apply_navigation_target_distance (sample_mover ⟨0, 0, 0⟩)
      (some (sample_owner none)) OrderType.MOVE).agent.target_desired_distance = 0 :=
  have h := stopping_distance_by_order (sample_attacker none ⟨0, 0, 0⟩)
    (sample_agent ⟨0, 0, 0⟩) (sample_mover ⟨0, 0, 0⟩) (some (sample_owner none))
    OrderType.MOVE rfl rfl rfl rfl
  ⟨h.1, h.2.2.1 (by decide)⟩

theorem round_half_even_floor_le (r : ℚ) : ⌊r⌋ ≤ round_half_even r := by
  unfold round_half_even
  split_ifs <;> omega

theorem round_half_even_le_floor_succ (r : ℚ) : round_half_even r ≤ ⌊r⌋ + 1 := by
  unfold round_half_even
  split_ifs <;> omega

theorem round_half_even_intCast (n : ℤ) : round_half_even (n : ℚ) = n := by
  unfold round_half_even
  rw [Int.floor_intCast]
  simp

theorem round_half_even_mono {r s : ℚ} (h : r ≤ s) : round_half_even r ≤ round_half_even s := by
  have hf : ⌊r⌋ ≤ ⌊s⌋ := Int.floor_mono h
  rcases hf.lt_or_eq with hlt | heq
  · calc round_half_even r ≤ ⌊r⌋ + 1 := round_half_even_le_floor_succ r
      _ ≤ ⌊s⌋ := hlt
      _ ≤ round_half_even s := round_half_even_floor_le s
  · unfold round_half_even
    rw [← heq]
    split_ifs <;> first | omega | (exfalso; linarith)

theorem ulp_pos (x : ℚ) : 0 < Binary32.ulp x := by
  unfold Binary32.ulp
  positivity

theorem exponent_ge (x : ℚ) : -126 ≤ Binary32.exponent x := le_max_right _ _

/-- The exponent of a positive number lying in the binade of `e`. -/
theorem exponent_eq {x : ℚ} {e : ℤ} (hx : 0 < x) (he : -126 ≤ e) (hlt : x < 2 ^ (e + 1))
    (hge : 2 ^ e ≤ x ∨ e = -126) : Binary32.exponent x = e := by
  unfold Binary32.exponent
  rw [abs_of_pos hx]
  have h1 : Int.log 2 x < e + 1 := by
    have := (Int.lt_zpow_iff_log_lt (R := ℚ) (b := 2) (by norm_num) hx (x := e + 1)).1
      (by exact_mod_cast hlt)
    exact this
  rcases hge with hge | he
  · have h2 : e ≤ Int.log 2 x :=
      (Int.zpow_le_iff_le_log (R := ℚ) (b := 2) (by norm_num) hx (x := e)).1
        (by exact_mod_cast hge)
    have : Int.log 2 x = e := by omega
    rw [this]
    exact max_eq_left he
  · subst he
    exact max_eq_right (by omega)

theorem exponent_lt {x : ℚ} (hx : 0 < x) : x < 2 ^ (Binary32.exponent x + 1) := by
  have h1 : x < (2 : ℚ) ^ (Int.log 2 x + 1) := by
    exact_mod_cast Int.lt_zpow_succ_log_self (R := ℚ) (b := 2) (by norm_num) x
  have h2 : Int.log 2 x + 1 ≤ Binary32.exponent x + 1 := by
    unfold Binary32.exponent
    rw [abs_of_pos hx]
    have := le_max_left (Int.log 2 x) (-126)
    omega
  exact lt_of_lt_of_le h1 (zpow_le_zpow_right₀ (by norm_num) h2)

theorem exponent_le {x : ℚ} (hx : 0 < x) :
    2 ^ Binary32.exponent x ≤ x ∨ Binary32.exponent x = -126 := by
  unfold Binary32.exponent
  rw [abs_of_pos hx]
  rcases le_total (Int.log 2 x) (-126) with h | h
  · right
    exact max_eq_right h
  · left
    rw [max_eq_left h]
    exact_mod_cast Int.zpow_log_le_self (R := ℚ) (b := 2) (by norm_num) hx

theorem exponent_mono {x y : ℚ} (hx : 0 < x) (hxy : x ≤ y) :
    Binary32.exponent x ≤ Binary32.exponent y := by
  unfold Binary32.exponent
  rw [abs_of_pos hx, abs_of_pos (lt_of_lt_of_le hx hxy)]
  exact max_le_max (Int.log_mono_right hx hxy) le_rfl

theorem nearest_le_grid {x : ℚ} {n : ℤ} (h : x ≤ n * Binary32.ulp x) :
    Binary32.nearest x ≤ n * Binary32.ulp x := by
  unfold Binary32.nearest
  have h1 : x / Binary32.ulp x ≤ (n : ℚ) := by
    rw [div_le_iff₀ (ulp_pos x)]
    exact h
  have h2 := round_half_even_mono h1
  rw [round_half_even_intCast] at h2
  have h3 : ((round_half_even (x / Binary32.ulp x) : ℤ) : ℚ) ≤ (n : ℚ) := by exact_mod_cast h2
  exact mul_le_mul_of_nonneg_right h3 (ulp_pos x).le

theorem nearest_ge_grid {x : ℚ} {n : ℤ} (h : n * Binary32.ulp x ≤ x) :
    n * Binary32.ulp x ≤ Binary32.nearest x := by
  unfold Binary32.nearest
  have h1 : (n : ℚ) ≤ x / Binary32.ulp x := by
    rw [le_div_iff₀ (ulp_pos x)]
    exact h
  have h2 := round_half_even_mono h1
  rw [round_half_even_intCast] at h2
  have h3 : (n : ℚ) ≤ ((round_half_even (x / Binary32.ulp x) : ℤ) : ℚ) := by exact_mod_cast h2
  exact mul_le_mul_of_nonneg_right h3 (ulp_pos x).le

theorem nearest_nonneg {x : ℚ} (h : 0 ≤ x) : 0 ≤ Binary32.nearest x := by
  have := nearest_ge_grid (x := x) (n := 0) (by simpa using h)
  simpa using this

theorem nearest_nonpos {x : ℚ} (h : x ≤ 0) : Binary32.nearest x ≤ 0 := by
  have := nearest_le_grid (x := x) (n := 0) (by simpa using h)
  simpa using this

theorem nearest_zero : Binary32.nearest 0 = 0 :=
  le_antisymm (nearest_nonpos le_rfl) (nearest_nonneg le_rfl)

/-- A point of the grid of binade `e` is its own rounding. -/
theorem nearest_grid {n e : ℤ} (he : -126 ≤ e) (hpos : 0 < n) (hlt : n < 2 ^ 24)
    (hge : 2 ^ 23 ≤ n ∨ e = -126) :
    Binary32.nearest (n * 2 ^ (e - 23)) = n * 2 ^ (e - 23) := by
  have hu : (0 : ℚ) < 2 ^ (e - 23) := by positivity
  have hx : (0 : ℚ) < n * 2 ^ (e - 23) := mul_pos (by exact_mod_cast hpos) hu
  have hsplit : (2 : ℚ) ^ (e + 1) = 2 ^ 24 * 2 ^ (e - 23) := by
    rw [show e + 1 = 24 + (e - 23) by ring, zpow_add₀ (by norm_num)]
    norm_num
  have hsplit2 : (2 : ℚ) ^ e = 2 ^ 23 * 2 ^ (e - 23) := by
    rw [show e = 23 + (e - 23) by ring, zpow_add₀ (by norm_num)]
    norm_num
  have hexp : Binary32.exponent ((n : ℚ) * 2 ^ (e - 23)) = e := by
    apply exponent_eq hx he
    · rw [hsplit]
      exact mul_lt_mul_of_pos_right (by exact_mod_cast hlt) hu
    · rcases hge with h | h
      · left
        rw [hsplit2]
        exact mul_le_mul_of_nonneg_right (by exact_mod_cast h) hu.le
      · right
        exact h
  unfold Binary32.nearest Binary32.ulp
  rw [hexp, mul_div_assoc, div_self hu.ne', mul_one, round_half_even_intCast]

theorem nearest_two_zpow {k : ℤ} (hk : -126 ≤ k) : Binary32.nearest (2 ^ k) = 2 ^ k := by
  have h := nearest_grid (n := 2 ^ 23) (e := k) hk (by norm_num) (by norm_num)
    (Or.inl (by norm_num))
  have hsplit2 : (2 : ℚ) ^ k = ((2 ^ 23 : ℤ) : ℚ) * 2 ^ (k - 23) := by
    rw [show k = 23 + (k - 23) by ring, zpow_add₀ (by norm_num)]
    norm_num
  rw [hsplit2]
  exact h

theorem nearest_le_binade {x : ℚ} (hx : 0 < x) :
    Binary32.nearest x ≤ 2 ^ (Binary32.exponent x + 1) := by
  have hsplit : (2 : ℚ) ^ (Binary32.exponent x + 1) = ((2 ^ 24 : ℤ) : ℚ) * Binary32.ulp x := by
    unfold Binary32.ulp
    rw [show Binary32.exponent x + 1 = 24 + (Binary32.exponent x - 23) by ring,
      zpow_add₀ (by norm_num)]
    norm_num
  rw [hsplit]
  apply nearest_le_grid
  rw [← hsplit]
  exact (exponent_lt hx).le

theorem two_zpow_split (e : ℤ) : (2 : ℚ) ^ e = ((2 ^ 23 : ℤ) : ℚ) * 2 ^ (e - 23) := by
  have h : e = 23 + (e - 23) := by ring
  conv_lhs => rw [h, zpow_add₀ (by norm_num : (2 : ℚ) ≠ 0)]
  norm_num

theorem nearest_ge_binade {x : ℚ} (hx : 2 ^ Binary32.exponent x ≤ x) :
    2 ^ Binary32.exponent x ≤ Binary32.nearest x := by
  have hsplit : (2 : ℚ) ^ Binary32.exponent x = ((2 ^ 23 : ℤ) : ℚ) * Binary32.ulp x :=
    two_zpow_split _
  rw [hsplit]
  apply nearest_ge_grid
  rw [← hsplit]
  exact hx

/-- Rounding to nearest is monotone on the non-negative rationals. -/
theorem nearest_mono {x y : ℚ} (hx : 0 ≤ x) (hxy : x ≤ y) :
    Binary32.nearest x ≤ Binary32.nearest y := by
  rcases hx.lt_or_eq with hpos | hzero
  · have hy : 0 < y := lt_of_lt_of_le hpos hxy
    rcases (exponent_mono hpos hxy).lt_or_eq with hlt | heq
    · have hy2 : 2 ^ Binary32.exponent y ≤ y := by
        rcases exponent_le hy with h | h
        · exact h
        · have := exponent_ge x
          omega
      calc Binary32.nearest x ≤ 2 ^ (Binary32.exponent x + 1) := nearest_le_binade hpos
        _ ≤ 2 ^ Binary32.exponent y := zpow_le_zpow_right₀ (by norm_num) (by omega)
        _ ≤ Binary32.nearest y := nearest_ge_binade hy2
    · have hu : Binary32.ulp x = Binary32.ulp y := by
        unfold Binary32.ulp
        rw [heq]
      unfold Binary32.nearest
      rw [hu]
      have h1 : x / Binary32.ulp y ≤ y / Binary32.ulp y :=
        div_le_div_of_nonneg_right hxy (ulp_pos y).le
      have h2 : ((round_half_even (x / Binary32.ulp y) : ℤ) : ℚ) ≤
          ((round_half_even (y / Binary32.ulp y) : ℤ) : ℚ) := by
        exact_mod_cast round_half_even_mono h1
      exact mul_le_mul_of_nonneg_right h2 (ulp_pos y).le
  · rw [← hzero, nearest_zero]
    exact nearest_nonneg (hzero ▸ hxy)

/-- The rounding of a non-negative rational is a fixed point of rounding. -/
theorem nearest_idem {x : ℚ} (hx : 0 ≤ x) :
    Binary32.nearest (Binary32.nearest x) = Binary32.nearest x := by
  rcases hx.lt_or_eq with hpos | hzero
  · have hn0 : 0 ≤ round_half_even (x / Binary32.ulp x) := by
      have h1 : (0 : ℚ) ≤ x / Binary32.ulp x := div_nonneg hx (ulp_pos x).le
      have := round_half_even_mono h1
      rw [show ((0 : ℚ)) = ((0 : ℤ) : ℚ) by norm_num, round_half_even_intCast] at this
      exact this
    have hn24 : round_half_even (x / Binary32.ulp x) ≤ 2 ^ 24 := by
      have h1 : x / Binary32.ulp x ≤ ((2 ^ 24 : ℤ) : ℚ) := by
        rw [div_le_iff₀ (ulp_pos x)]
        have := (exponent_lt hpos).le
        have hs : (2 : ℚ) ^ (Binary32.exponent x + 1) = ((2 ^ 24 : ℤ) : ℚ) * Binary32.ulp x := by
          unfold Binary32.ulp
          rw [show Binary32.exponent x + 1 = 24 + (Binary32.exponent x - 23) by ring,
            zpow_add₀ (by norm_num)]
          norm_num
        rw [← hs]
        exact this
      have := round_half_even_mono h1
      rw [round_half_even_intCast] at this
      exact this
    rcases hn0.lt_or_eq with hnpos | hnz
    · rcases hn24.lt_or_eq with hnlt | hneq
      · have hge : 2 ^ 23 ≤ round_half_even (x / Binary32.ulp x) ∨ Binary32.exponent x = -126 := by
          rcases exponent_le hpos with h | h
          · left
            have h1 : ((2 ^ 23 : ℤ) : ℚ) ≤ x / Binary32.ulp x := by
              rw [le_div_iff₀ (ulp_pos x)]
              have := two_zpow_split (Binary32.exponent x)
              unfold Binary32.ulp
              rw [← this]
              exact h
            have := round_half_even_mono h1
            rw [round_half_even_intCast] at this
            exact this
          · right
            exact h
        exact nearest_grid (exponent_ge x) hnpos hnlt hge
      · have hv : Binary32.nearest x = 2 ^ (Binary32.exponent x + 1) := by
          unfold Binary32.nearest
          rw [hneq]
          unfold Binary32.ulp
          rw [show Binary32.exponent x + 1 = 24 + (Binary32.exponent x - 23) by ring,
            zpow_add₀ (by norm_num)]
          norm_num
        rw [hv]
        exact nearest_two_zpow (by have := exponent_ge x; omega)
    · have hv : Binary32.nearest x = 0 := by
        unfold Binary32.nearest
        rw [← hnz]
        simp
      rw [hv, nearest_zero]
  · rw [← hzero, nearest_zero, nearest_zero]

/-! ## The order and the rounding of `float` values -/

theorem b32_lt_le {a b : Binary32} (h : Binary32.lt a b = true) : Binary32.le a b = true := by
  cases a <;> cases b <;> simp_all [Binary32.lt, Binary32.le]
  exact le_of_lt h

theorem b32_not_lt_le {a b : Binary32} (ha : a ≠ Binary32.nan) (hb : b ≠ Binary32.nan)
    (h : Binary32.lt a b = false) : Binary32.le b a = true := by
  cases a <;> cases b <;> simp_all [Binary32.lt, Binary32.le]

theorem b32_le_trans {a b c : Binary32} (h1 : Binary32.le a b = true)
    (h2 : Binary32.le b c = true) : Binary32.le a c = true := by
  cases a <;> cases b <;> cases c <;> simp_all [Binary32.le]
  exact le_trans h1 h2

theorem b32_le_refl {a : Binary32} (ha : a ≠ Binary32.nan) : Binary32.le a a = true := by
  cases a <;> simp_all [Binary32.le]

theorem b32_le_left_ne_nan {a b : Binary32} (h : Binary32.le a b = true) :
    a ≠ Binary32.nan := by
  cases a <;> simp_all [Binary32.le]

theorem b32_le_right_ne_nan {a b : Binary32} (h : Binary32.le a b = true) :
    b ≠ Binary32.nan := by
  cases a <;> cases b <;> simp_all [Binary32.le]

theorem b32_lt_right_ne_nan {a b : Binary32} (h : Binary32.lt a b = true) :
    b ≠ Binary32.nan := by
  cases a <;> cases b <;> simp_all [Binary32.lt]

/-- The rounding of a non-negative exact result: `+inf` on overflow, else the
nearest grid point, which is non-negative and in range. -/
theorem round_of_nonneg {x : ℚ} (hx : 0 ≤ x) :
    Binary32.round x = Binary32.pos_inf ∨
      (Binary32.round x = Binary32.fin (Binary32.nearest x) ∧ Binary32.nearest x < 2 ^ 128) := by
  unfold Binary32.round
  have h0 := nearest_nonneg hx
  by_cases h : (2 : ℚ) ^ 128 ≤ Binary32.nearest x
  · left
    rw [if_pos h]
  · right
    rw [if_neg h, if_neg (by intro h2; have : (0:ℚ) < 2 ^ 128 := by positivity
                             linarith)]
    exact ⟨rfl, lt_of_not_le h⟩

theorem round_isFloat_of_nonneg {x : ℚ} (hx : 0 ≤ x) : Binary32.IsFloat (Binary32.round x) := by
  rcases round_of_nonneg hx with h | ⟨h, hlt⟩
  · rw [h]
    trivial
  · rw [h]
    exact ⟨nearest_idem hx, by rw [abs_of_nonneg (nearest_nonneg hx)]; exact hlt⟩

theorem round_of_float {q : ℚ} (h : Binary32.IsFloat (Binary32.fin q)) :
    Binary32.round q = Binary32.fin q := by
  obtain ⟨h1, h2⟩ := h
  unfold Binary32.round
  rw [h1]
  have := abs_lt.1 h2
  rw [if_neg (by linarith), if_neg (by linarith)]

theorem round_nonpos {x : ℚ} (hx : x ≤ 0) :
    Binary32.lt (Binary32.fin 0) (Binary32.round x) = false := by
  unfold Binary32.round
  have h0 := nearest_nonpos hx
  have : (0:ℚ) < 2 ^ 128 := by positivity
  rw [if_neg (by linarith)]
  split_ifs
  · rfl
  · simp [Binary32.lt]
    exact h0

theorem isFloat_zero : Binary32.IsFloat (Binary32.fin 0) :=
  ⟨nearest_zero, by norm_num⟩

theorem lit_zero : Binary32.lit 0 = Binary32.fin 0 := round_of_float isFloat_zero

/-- A number `n * 2^(e - 23)` with a 24-bit `n` in binade `e` is a `float`. -/
theorem isFloat_grid {q : ℚ} (n e : ℤ) (he : -126 ≤ e) (he2 : e ≤ 127) (hpos : 0 < n)
    (hlt : n < 2 ^ 24) (hge : 2 ^ 23 ≤ n ∨ e = -126) (hq : q = n * 2 ^ (e - 23)) :
    Binary32.IsFloat (Binary32.fin q) := by
  subst hq
  refine ⟨nearest_grid he hpos hlt hge, ?_⟩
  have hu : (0 : ℚ) < 2 ^ (e - 23) := by positivity
  rw [abs_of_pos (mul_pos (by exact_mod_cast hpos) hu)]
  calc (n : ℚ) * 2 ^ (e - 23) < 2 ^ 24 * 2 ^ (e - 23) :=
        mul_lt_mul_of_pos_right (by exact_mod_cast hlt) hu
    _ = 2 ^ (e + 1) := by
        rw [show e + 1 = 24 + (e - 23) by ring, zpow_add₀ (by norm_num)]
        norm_num
    _ ≤ 2 ^ (128 : ℤ) := zpow_le_zpow_right₀ (by norm_num) (by omega)
    _ = 2 ^ 128 := by norm_num

theorem isFloat_one : Binary32.IsFloat (Binary32.fin 1) :=
  isFloat_grid (2 ^ 23) 0 (by norm_num) (by norm_num) (by norm_num) (by norm_num)
    (Or.inl (by norm_num)) (by norm_num)

theorem isFloat_hundred : Binary32.IsFloat (Binary32.fin 100) :=
  isFloat_grid 13107200 6 (by norm_num) (by norm_num) (by norm_num) (by norm_num)
    (Or.inl (by norm_num)) (by norm_num)

theorem lit_one : Binary32.lit 1 = Binary32.fin 1 := round_of_float isFloat_one

theorem lit_hundred : Binary32.lit 100 = Binary32.fin 100 := round_of_float isFloat_hundred

/-! ## HealthComponent over `float`: the range invariant -/

theorem b32_lt_left_ne_nan {a b : Binary32} (h : Binary32.lt a b = true) :
    a ≠ Binary32.nan := by
  cases a <;> cases b <;> simp_all [Binary32.lt]

/-- The value `std::max(0.0f, v)` is `v` when `0 < v` and `0` otherwise (so
also for a NaN `v`). -/
theorem std_max_zero_cases (v : Binary32) :
    (OnFloat.std_max (Binary32.lit 0) v = v ∧ Binary32.lt (Binary32.fin 0) v = true) ∨
    (OnFloat.std_max (Binary32.lit 0) v = Binary32.fin 0 ∧
      Binary32.lt (Binary32.fin 0) v = false) := by
  unfold OnFloat.std_max
  rw [lit_zero]
  by_cases h : Binary32.lt (Binary32.fin 0) v = true
  · left
    rw [if_pos h]
    exact ⟨rfl, h⟩
  · right
    rw [if_neg h]
    exact ⟨rfl, by simpa using h⟩

theorem std_max_zero_nonneg (v : Binary32) :
    Binary32.le (Binary32.fin 0) (OnFloat.std_max (Binary32.lit 0) v) = true := by
  rcases std_max_zero_cases v with ⟨h1, h2⟩ | ⟨h1, -⟩
  · rw [h1]
    exact b32_lt_le h2
  · rw [h1]
    rfl

theorem std_max_zero_isFloat {v : Binary32} (hv : Binary32.IsFloat v) :
    Binary32.IsFloat (OnFloat.std_max (Binary32.lit 0) v) := by
  rcases std_max_zero_cases v with ⟨h1, -⟩ | ⟨h1, -⟩
  · rw [h1]
    exact hv
  · rw [h1]
    exact isFloat_zero

/-- The amount after the guard `if (amount < 0.0f) amount = 0.0f`: it is not
below zero, and it is a `float` when the argument is. -/
theorem guarded_amount (a : Binary32) :
    Binary32.lt (if Binary32.lt a (Binary32.lit 0) = true then Binary32.lit 0 else a)
      (Binary32.fin 0) = false ∧
    (Binary32.IsFloat a →
      Binary32.IsFloat (if Binary32.lt a (Binary32.lit 0) = true then Binary32.lit 0 else a)) := by
  rw [lit_zero]
  by_cases h : Binary32.lt a (Binary32.fin 0) = true
  · rw [if_pos h]
    exact ⟨by simp [Binary32.lt], fun _ => isFloat_zero⟩
  · rw [if_neg h]
    exact ⟨by simpa using h, fun ha => ha⟩

/-- A positive difference `c - a` of a non-negative `float` `c` and an amount
that is not below zero does not exceed `c`, and is a `float`. -/
theorem b32_sub_le_self {c a : Binary32} (hc : Binary32.IsFloat c)
    (h0 : Binary32.le (Binary32.fin 0) c = true) (ha : Binary32.lt a (Binary32.fin 0) = false)
    (hd : Binary32.lt (Binary32.fin 0) (Binary32.sub c a) = true) :
    Binary32.le (Binary32.sub c a) c = true ∧ Binary32.IsFloat (Binary32.sub c a) := by
  cases c with
  | nan => simp [Binary32.le] at h0
  | neg_inf => simp [Binary32.le] at h0
  | pos_inf =>
    cases a with
    | fin a => exact ⟨rfl, trivial⟩
    | nan => simp [Binary32.sub, Binary32.lt] at hd
    | neg_inf => simp [Binary32.lt] at ha
    | pos_inf => simp [Binary32.sub, Binary32.lt] at hd
  | fin c =>
    cases a with
    | nan => simp [Binary32.sub, Binary32.lt] at hd
    | neg_inf => simp [Binary32.lt] at ha
    | pos_inf => simp [Binary32.sub, Binary32.lt] at hd
    | fin a =>
      have hc0 : 0 ≤ c := by simpa [Binary32.le] using h0
      have ha0 : 0 ≤ a := by simpa [Binary32.lt] using ha
      have hpos : 0 < c - a := by
        by_contra hn
        have := round_nonpos (not_lt.1 hn)
        simp only [Binary32.sub] at hd
        rw [this] at hd
        exact Bool.false_ne_true hd
      have hle : Binary32.nearest (c - a) ≤ c := by
        have := nearest_mono hpos.le (by linarith : c - a ≤ c)
        rw [hc.1] at this
        exact this
      have hc128 : c < 2 ^ 128 := (abs_lt.1 hc.2).2
      show Binary32.le (Binary32.round (c - a)) (Binary32.fin c) = true ∧
        Binary32.IsFloat (Binary32.round (c - a))
      refine ⟨?_, round_isFloat_of_nonneg hpos.le⟩
      rcases round_of_nonneg hpos.le with h | ⟨h, -⟩
      · exfalso
        unfold Binary32.round at h
        split_ifs at h with h1
        linarith
      · rw [h]
        simpa [Binary32.le] using hle

/-- A sum `c + a` of a non-negative `float` and an amount that is not below
zero is a `float`, and is not below zero unless it is NaN. -/
theorem b32_add_nonneg {c a : Binary32} (h0 : Binary32.le (Binary32.fin 0) c = true)
    (ha : Binary32.lt a (Binary32.fin 0) = false) :
    Binary32.IsFloat (Binary32.add c a) ∧
    (Binary32.add c a ≠ Binary32.nan →
      Binary32.le (Binary32.fin 0) (Binary32.add c a) = true) := by
  cases c with
  | nan => simp [Binary32.le] at h0
  | neg_inf => simp [Binary32.le] at h0
  | pos_inf =>
    cases a with
    | fin a => exact ⟨trivial, fun _ => rfl⟩
    | nan => exact ⟨trivial, fun h => absurd rfl h⟩
    | neg_inf => simp [Binary32.lt] at ha
    | pos_inf => exact ⟨trivial, fun _ => rfl⟩
  | fin c =>
    cases a with
    | nan => exact ⟨trivial, fun h => absurd rfl h⟩
    | neg_inf => simp [Binary32.lt] at ha
    | pos_inf => exact ⟨trivial, fun _ => rfl⟩
    | fin a =>
      have hc0 : 0 ≤ c := by simpa [Binary32.le] using h0
      have ha0 : 0 ≤ a := by simpa [Binary32.lt] using ha
      have hsum : 0 ≤ c + a := by linarith
      show Binary32.IsFloat (Binary32.round (c + a)) ∧
        (Binary32.round (c + a) ≠ Binary32.nan →
          Binary32.le (Binary32.fin 0) (Binary32.round (c + a)) = true)
      refine ⟨round_isFloat_of_nonneg hsum, fun _ => ?_⟩
      rcases round_of_nonneg hsum with h | ⟨h, -⟩
      · rw [h]
        rfl
      · rw [h]
        simpa [Binary32.le] using nearest_nonneg hsum

theorem health_set_max_health_keeps (s : OnFloat.HealthComponent) (v : Binary32)
    (hr : s.InRange) :
    (s.set_max_health v).1.InRange ∧
    (s.Valid → Binary32.IsFloat v → (s.set_max_health v).1.Valid) := by
  have hm0 := std_max_zero_nonneg v
  have hmn := b32_le_right_ne_nan hm0
  unfold OnFloat.HealthComponent.set_max_health
  by_cases h : Binary32.lt (OnFloat.std_max (Binary32.lit 0) v) s.current_health = true
  · simp only [h, if_true]
    exact ⟨⟨hm0, b32_le_refl hmn⟩,
      fun _ hv => ⟨std_max_zero_isFloat hv, std_max_zero_isFloat hv⟩⟩
  · simp only [h, if_false]
    refine ⟨⟨hr.1, b32_not_lt_le hmn (b32_le_right_ne_nan hr.1) (by simpa using h)⟩,
      fun hs hv => ⟨std_max_zero_isFloat hv, hs.2⟩⟩

theorem health_set_current_health_keeps (s : OnFloat.HealthComponent) (v : Binary32)
    (hr : s.InRange) (hv : v ≠ Binary32.nan) :
    (s.set_current_health v).1.InRange ∧
    (s.Valid → Binary32.IsFloat v → (s.set_current_health v).1.Valid) := by
  have hmax0 : Binary32.le (Binary32.fin 0) s.max_health = true := b32_le_trans hr.1 hr.2
  have hmn := b32_le_right_ne_nan hr.2
  unfold OnFloat.HealthComponent.set_current_health OnFloat.std_clamp
  rw [lit_zero]
  by_cases h1 : Binary32.lt v (Binary32.fin 0) = true
  · simp only [h1, if_true]
    exact ⟨⟨rfl, hmax0⟩, fun hs _ => ⟨hs.1, isFloat_zero⟩⟩
  · by_cases h2 : Binary32.lt s.max_health v = true
    · simp only [h1, h2, if_true, if_false]
      exact ⟨⟨hmax0, b32_le_refl hmn⟩, fun hs _ => ⟨hs.1, hs.1⟩⟩
    · simp only [h1, h2, if_false]
      exact ⟨⟨b32_not_lt_le hv (by simp) (by simpa using h1),
        b32_not_lt_le hmn hv (by simpa using h2)⟩, fun hs hv2 => ⟨hs.1, hv2⟩⟩

theorem health_apply_damage_state (s : OnFloat.HealthComponent) (a : Binary32)
    (source : Option ObjectId) :
    (s.apply_damage a source).state =
      { s with
        current_health :=
          OnFloat.std_max (Binary32.lit 0)
            (Binary32.sub s.current_health
              (if Binary32.lt a (Binary32.lit 0) = true then Binary32.lit 0 else a)) } := by
  unfold OnFloat.HealthComponent.apply_damage
  simp only []
  split_ifs <;> rfl

theorem health_apply_damage_keeps (s : OnFloat.HealthComponent) (a : Binary32)
    (source : Option ObjectId) (hs : s.Valid) (hr : s.InRange) :
    (s.apply_damage a source).state.InRange ∧ (s.apply_damage a source).state.Valid := by
  have hmax0 : Binary32.le (Binary32.fin 0) s.max_health = true := b32_le_trans hr.1 hr.2
  rw [health_apply_damage_state]
  rcases std_max_zero_cases (Binary32.sub s.current_health
    (if Binary32.lt a (Binary32.lit 0) = true then Binary32.lit 0 else a)) with
    ⟨h1, h2⟩ | ⟨h1, -⟩
  · have hsub := b32_sub_le_self hs.2 hr.1 (guarded_amount a).1 h2
    unfold OnFloat.HealthComponent.InRange OnFloat.HealthComponent.Valid
    simp only [h1]
    exact ⟨⟨b32_lt_le h2, b32_le_trans hsub.1 hr.2⟩, hs.1, hsub.2⟩
  · unfold OnFloat.HealthComponent.InRange OnFloat.HealthComponent.Valid
    simp only [h1]
    exact ⟨⟨rfl, hmax0⟩, hs.1, isFloat_zero⟩

theorem health_heal_keeps (s : OnFloat.HealthComponent) (a : Binary32)
    (hs : s.Valid) (hr : s.InRange) :
    (s.heal a).1.InRange ∧ (s.heal a).1.Valid := by
  have hmax0 : Binary32.le (Binary32.fin 0) s.max_health = true := b32_le_trans hr.1 hr.2
  have hmn := b32_le_right_ne_nan hr.2
  have hadd := b32_add_nonneg (a := if Binary32.lt a (Binary32.lit 0) = true then Binary32.lit 0 else a)
    hr.1 (guarded_amount a).1
  unfold OnFloat.HealthComponent.heal OnFloat.std_min
  unfold OnFloat.HealthComponent.InRange OnFloat.HealthComponent.Valid
  simp only []
  by_cases h : Binary32.lt (Binary32.add s.current_health
      (if Binary32.lt a (Binary32.lit 0) = true then Binary32.lit 0 else a)) s.max_health = true
  · rw [if_pos h]
    exact ⟨⟨hadd.2 (b32_lt_left_ne_nan h), b32_lt_le h⟩, hs.1, hadd.1⟩
  · rw [if_neg h]
    exact ⟨⟨hmax0, b32_le_refl hmn⟩, hs.1, hs.1⟩

/-- C3 as stated fails for a NaN argument: from the initial component
(100/100, in range) `set_current_health(NaN)` stores NaN, because
`std::clamp` returns its argument when both of its comparisons are false;
`0 <= current_health` is false afterwards. -/
theorem set_current_health_nan_counterexample :
    OnFloat.HealthComponent.initial.InRange ∧
    (OnFloat.HealthComponent.initial.set_current_health Binary32.nan).1.current_health =
      Binary32.nan ∧
    ¬ (OnFloat.HealthComponent.initial.set_current_health Binary32.nan).1.InRange := by
  have h1 : OnFloat.HealthComponent.initial.InRange := by
    unfold OnFloat.HealthComponent.InRange OnFloat.HealthComponent.initial
    rw [lit_hundred]
    simp [Binary32.le]
  have h2 : (OnFloat.HealthComponent.initial.set_current_health Binary32.nan).1.current_health =
      Binary32.nan := by
    simp [OnFloat.HealthComponent.set_current_health, OnFloat.std_clamp, Binary32.lt]
  refine ⟨h1, h2, ?_⟩
  intro h
  have := h.1
  rw [h2] at this
  simp [Binary32.le] at this

/-- C3, amended.  The predicate `0 <= current_health <= max_health` holds in
the initial state (100/100) and, on a component whose members hold `float`
values, is preserved by `set_max_health`, `apply_damage` and `heal` for every
argument value (NaN and the infinities included) and by `set_current_health`
for every argument value other than NaN.  The members keep holding `float`
values, so the statement applies to every sequence of calls. -/
theorem health_in_range_unless_nan :
    OnFloat.HealthComponent.initial.InRange ∧ OnFloat.HealthComponent.initial.Valid ∧
    ∀ s : OnFloat.HealthComponent, s.Valid → s.InRange →
      (∀ v, Binary32.IsFloat v →
        (s.set_max_health v).1.InRange ∧ (s.set_max_health v).1.Valid) ∧
      (∀ v, Binary32.IsFloat v → v ≠ Binary32.nan →
        (s.set_current_health v).1.InRange ∧ (s.set_current_health v).1.Valid) ∧
      (∀ a source, (s.apply_damage a source).state.InRange ∧
        (s.apply_damage a source).state.Valid) ∧
      (∀ a, (s.heal a).1.InRange ∧ (s.heal a).1.Valid) := by
  refine ⟨?_, ?_, ?_⟩
  · unfold OnFloat.HealthComponent.InRange OnFloat.HealthComponent.initial
    rw [lit_hundred]
    simp [Binary32.le]
  · unfold OnFloat.HealthComponent.Valid OnFloat.HealthComponent.initial
    rw [lit_hundred]
    exact ⟨isFloat_hundred, isFloat_hundred⟩
  · intro s hs hr
    refine ⟨fun v hv => ?_, fun v hv hn => ?_, fun a source => ?_, fun a => ?_⟩
    · exact ⟨(health_set_max_health_keeps s v hr).1,
        (health_set_max_health_keeps s v hr).2 hs hv⟩
    · exact ⟨(health_set_current_health_keeps s v hr hn).1,
        (health_set_current_health_keeps s v hr hn).2 hs hv⟩
    · exact health_apply_damage_keeps s a source hs hr
    · exact health_heal_keeps s a hs hr

/-- The amended invariant of C3 at the initial component: it survives
`set_max_health(NaN)`, `apply_damage(NaN)`, `heal(+inf)` and
`set_current_health(-inf)`. -/
theorem health_in_range_unless_nan_witness :
    (OnFloat.HealthComponent.initial.set_max_health Binary32.nan).1.InRange ∧
    (OnFloat.HealthComponent.initial.apply_damage Binary32.nan none).state.InRange ∧
    (OnFloat.HealthComponent.initial.heal Binary32.pos_inf).1.InRange ∧
    (OnFloat.HealthComponent.initial.set_current_health Binary32.neg_inf).1.InRange :=
  have h := health_in_range_unless_nan.2.2 OnFloat.HealthComponent.initial
    health_in_range_unless_nan.2.1 health_in_range_unless_nan.1
  ⟨(h.1 Binary32.nan trivial).1, (h.2.2.1 Binary32.nan none).1,
    (h.2.2.2 Binary32.pos_inf).1,
    (h.2.1 Binary32.neg_inf trivial (by decide)).1⟩

/-! ## HealthComponent over `float`: damage followed by healing -/

theorem std_max_zero_of_nonneg {c : Binary32}
    (h : Binary32.le (Binary32.fin 0) c = true) :
    OnFloat.std_max (Binary32.lit 0) c = c := by
  rcases std_max_zero_cases c with ⟨h1, -⟩ | ⟨h1, h2⟩
  · exact h1
  · rw [h1]
    cases c <;> simp_all [Binary32.lt, Binary32.le]
    exact le_antisymm h h2

theorem std_min_of_le {m c : Binary32} (h : Binary32.le c m = true) :
    OnFloat.std_min m c = c := by
  unfold OnFloat.std_min
  by_cases h1 : Binary32.lt c m = true
  · rw [if_pos h1]
  · rw [if_neg h1]
    cases c <;> cases m <;> simp_all [Binary32.lt, Binary32.le]
    exact le_antisymm h1 h

/-- The component after `apply_damage(a)` followed by `heal(a)`. -/
theorem health_round_trip_form (s : OnFloat.HealthComponent) (a : Binary32)
    (source : Option ObjectId) :
    ((s.apply_damage a source).state.heal a).1.current_health =
      OnFloat.std_min s.max_health
        (Binary32.add
          (OnFloat.std_max (Binary32.lit 0)
            (Binary32.sub s.current_health
              (if Binary32.lt a (Binary32.lit 0) = true then Binary32.lit 0 else a)))
          (if Binary32.lt a (Binary32.lit 0) = true then Binary32.lit 0 else a)) := by
  rw [health_apply_damage_state]
  rfl

/-- An amount that the guards replace by zero leaves the health as it was. -/
theorem health_round_trip_negative (s : OnFloat.HealthComponent) (h : ℚ) (a : Binary32)
    (source : Option ObjectId) (hs : s.Valid) (hr : s.InRange)
    (hh : s.current_health = Binary32.fin h)
    (ha : Binary32.lt a (Binary32.fin 0) = true) :
    ((s.apply_damage a source).state.heal a).1.current_health = Binary32.fin h := by
  have hf : Binary32.IsFloat (Binary32.fin h) := hh ▸ hs.2
  have h0 : Binary32.le (Binary32.fin 0) (Binary32.fin h) = true := hh ▸ hr.1
  have hm : Binary32.le (Binary32.fin h) s.max_health = true := hh ▸ hr.2
  rw [health_round_trip_form, hh, lit_zero, if_pos ha]
  have h1 : Binary32.sub (Binary32.fin h) (Binary32.fin 0) = Binary32.fin h := by
    show Binary32.round (h - 0) = Binary32.fin h
    rw [sub_zero]
    exact round_of_float hf
  have h2 : Binary32.add (Binary32.fin h) (Binary32.fin 0) = Binary32.fin h := by
    show Binary32.round (h + 0) = Binary32.fin h
    rw [add_zero]
    exact round_of_float hf
  rw [h1, ← lit_zero, std_max_zero_of_nonneg h0, lit_zero, h2, std_min_of_le hm]

/-- An amount `q` with `0 ≤ q ≤ h`: the health ends at
`min(max_health, fl(fl(h - q) + q))`. -/
theorem health_round_trip_within (s : OnFloat.HealthComponent) (h q : ℚ)
    (source : Option ObjectId) (hs : s.Valid)
    (hh : s.current_health = Binary32.fin h) (hq0 : 0 ≤ q) (hqh : q ≤ h) :
    ((s.apply_damage (Binary32.fin q) source).state.heal (Binary32.fin q)).1.current_health =
      OnFloat.std_min s.max_health (Binary32.round (Binary32.nearest (h - q) + q)) := by
  have hf : Binary32.IsFloat (Binary32.fin h) := hh ▸ hs.2
  have hg : Binary32.lt (Binary32.fin q) (Binary32.fin 0) = false := by
    simpa [Binary32.lt] using hq0
  rw [health_round_trip_form, hh, lit_zero, hg]
  simp only [Bool.false_eq_true, if_false]
  have hd : 0 ≤ h - q := by linarith
  have hle : Binary32.nearest (h - q) ≤ h := by
    have := nearest_mono hd (by linarith : h - q ≤ h)
    rw [hf.1] at this
    exact this
  have h128 : h < 2 ^ 128 := (abs_lt.1 hf.2).2
  have h1 : Binary32.sub (Binary32.fin h) (Binary32.fin q) =
      Binary32.fin (Binary32.nearest (h - q)) := by
    show Binary32.round (h - q) = _
    rcases round_of_nonneg hd with h | ⟨h, -⟩
    · exfalso
      unfold Binary32.round at h
      split_ifs at h with h1
      linarith
    · exact h
  rw [h1, ← lit_zero, std_max_zero_of_nonneg (by simpa [Binary32.le] using nearest_nonneg hd)]
  rfl

/-- An amount above the health: the damage is clamped at zero and the pair
ends at `min(max_health, a)`. -/
theorem health_round_trip_overkill (s : OnFloat.HealthComponent) (h : ℚ) (a : Binary32)
    (source : Option ObjectId) (hh : s.current_health = Binary32.fin h)
    (ha : Binary32.IsFloat a) (hlt : Binary32.lt (Binary32.fin h) a = true)
    (h0 : 0 ≤ h) :
    ((s.apply_damage a source).state.heal a).1.current_health =
      OnFloat.std_min s.max_health a := by
  rw [health_round_trip_form, hh, lit_zero]
  cases a with
  | nan => simp [Binary32.lt] at hlt
  | neg_inf => simp [Binary32.lt] at hlt
  | pos_inf =>
    have hg : Binary32.lt Binary32.pos_inf (Binary32.fin 0) = false := rfl
    rw [hg]
    simp only [Bool.false_eq_true, if_false]
    have h1 : Binary32.sub (Binary32.fin h) Binary32.pos_inf = Binary32.neg_inf := rfl
    rw [h1]
    have h2 : OnFloat.std_max (Binary32.fin 0) Binary32.neg_inf = Binary32.fin 0 := rfl
    rw [h2]
    rfl
  | fin q =>
    have hq : h < q := by simpa [Binary32.lt] using hlt
    have hg : Binary32.lt (Binary32.fin q) (Binary32.fin 0) = false := by
      simp [Binary32.lt]
      linarith
    rw [hg]
    simp only [Bool.false_eq_true, if_false]
    have h1 : OnFloat.std_max (Binary32.fin 0) (Binary32.sub (Binary32.fin h) (Binary32.fin q)) =
        Binary32.fin 0 := by
      unfold OnFloat.std_max
      have : Binary32.lt (Binary32.fin 0) (Binary32.round (h - q)) = false :=
        round_nonpos (by linarith)
      show (if Binary32.lt (Binary32.fin 0) (Binary32.round (h - q)) = true then _ else _) = _
      rw [this]
      simp
    rw [h1]
    have h2 : Binary32.add (Binary32.fin 0) (Binary32.fin q) = Binary32.fin q := by
      show Binary32.round (0 + q) = Binary32.fin q
      rw [zero_add]
      exact round_of_float ha
    rw [h2]

/-- A NaN amount: the damage sets the health to zero and the healing sets it
to `max_health`. -/
theorem health_round_trip_nan (s : OnFloat.HealthComponent) (source : Option ObjectId) :
    ((s.apply_damage Binary32.nan source).state.heal Binary32.nan).1.current_health =
      s.max_health := by
  rw [health_round_trip_form]
  have hg : Binary32.lt Binary32.nan (Binary32.lit 0) = false := rfl
  rw [hg]
  simp only [Bool.false_eq_true, if_false]
  have h1 : Binary32.sub s.current_health Binary32.nan = Binary32.nan := by
    cases s.current_health <;> rfl
  rw [h1]
  have h2 : OnFloat.std_max (Binary32.lit 0) Binary32.nan = Binary32.lit 0 := by
    unfold OnFloat.std_max
    have : Binary32.lt (Binary32.lit 0) Binary32.nan = false := by
      cases Binary32.lit 0 <;> rfl
    rw [this]
    simp
  rw [h2, lit_zero]
  have h3 : Binary32.add (Binary32.fin 0) Binary32.nan = Binary32.nan := rfl
  rw [h3]
  unfold OnFloat.std_min
  have h4 : Binary32.lt Binary32.nan s.max_health = false := rfl
  rw [h4]
  simp

theorem round_half_even_tie_even (n : ℤ) (hn : n % 2 = 0) :
    round_half_even ((n : ℚ) + 1 / 2) = n := by
  have hf : ⌊(n : ℚ) + 1 / 2⌋ = n := by
    rw [Int.floor_eq_iff]
    constructor <;> linarith
  unfold round_half_even
  rw [hf]
  have h1 : ¬ (2 * ((n : ℚ) + 1 / 2 - n) < 1) := by
    have : 2 * ((n : ℚ) + 1 / 2 - n) = 1 := by ring
    rw [this]
    exact lt_irrefl 1
  have h2 : ¬ (1 < 2 * ((n : ℚ) + 1 / 2 - n)) := by
    have : 2 * ((n : ℚ) + 1 / 2 - n) = 1 := by ring
    rw [this]
    exact lt_irrefl 1
  rw [if_neg h1, if_neg h2, if_pos hn]

/-- A number halfway between two grid points of binade `e` rounds to the even
one. -/
theorem nearest_tie_even {x : ℚ} (n e : ℤ) (he : -126 ≤ e) (hpos : 0 < n)
    (hlt : n < 2 ^ 24) (hge : 2 ^ 23 ≤ n ∨ e = -126) (hn : n % 2 = 0)
    (hx : x = ((n : ℚ) + 1 / 2) * 2 ^ (e - 23)) :
    Binary32.nearest x = n * 2 ^ (e - 23) := by
  have hu : (0 : ℚ) < 2 ^ (e - 23) := by positivity
  have hnq : (0 : ℚ) < n := by exact_mod_cast hpos
  have hxpos : 0 < x := by
    rw [hx]
    exact mul_pos (by linarith) hu
  have hsplit : (2 : ℚ) ^ (e + 1) = 2 ^ 24 * 2 ^ (e - 23) := by
    rw [show e + 1 = 24 + (e - 23) by ring, zpow_add₀ (by norm_num)]
    norm_num
  have hexp : Binary32.exponent x = e := by
    apply exponent_eq hxpos he
    · rw [hsplit, hx]
      apply mul_lt_mul_of_pos_right _ hu
      have : (n : ℚ) + 1 ≤ 2 ^ 24 := by exact_mod_cast hlt
      linarith
    · rcases hge with h | h
      · left
        rw [two_zpow_split e, hx]
        apply mul_le_mul_of_nonneg_right _ hu.le
        have : ((2 ^ 23 : ℤ) : ℚ) ≤ n := by exact_mod_cast h
        push_cast at this ⊢
        linarith
      · right
        exact h
  unfold Binary32.nearest Binary32.ulp
  rw [hexp, hx, mul_div_assoc, div_self hu.ne', mul_one, round_half_even_tie_even n hn]

/-- A literal between 0 and `2^127` is finite: it is the nearest grid point. -/
theorem lit_small {q : ℚ} (h0 : 0 ≤ q) (h1 : q ≤ 2 ^ 127) :
    Binary32.lit q = Binary32.fin (Binary32.nearest q) ∧ Binary32.nearest q ≤ 2 ^ 127 := by
  have hle : Binary32.nearest q ≤ 2 ^ 127 := by
    have := nearest_mono h0 (by exact_mod_cast h1 : q ≤ (2 : ℚ) ^ (127 : ℤ))
    rw [nearest_two_zpow (by norm_num)] at this
    exact_mod_cast this
  refine ⟨?_, hle⟩
  rcases round_of_nonneg h0 with h | ⟨h, -⟩
  · exfalso
    unfold Binary32.round at h
    split_ifs at h with h2
    have : (2 : ℚ) ^ 127 < 2 ^ 128 := by norm_num
    linarith
  · exact h

theorem round_half_even_near {r : ℚ} (n : ℤ) (h : 2 * |r - n| < 1) :
    round_half_even r = n := by
  have hb := abs_lt.1 (by linarith : |r - n| < 1 / 2)
  rcases le_total (n : ℚ) r with hle | hle
  · have hf : ⌊r⌋ = n := by
      rw [Int.floor_eq_iff]
      constructor <;> linarith
    unfold round_half_even
    rw [hf, if_pos (by linarith)]
  · rcases hle.lt_or_eq with hlt | heq
    · have hf : ⌊r⌋ = n - 1 := by
        rw [Int.floor_eq_iff]
        push_cast
        constructor <;> linarith
      unfold round_half_even
      rw [hf]
      push_cast
      rw [if_neg (by linarith), if_pos (by linarith)]
      ring
    · rw [heq]
      exact round_half_even_intCast n

/-- A number of binade `e` less than half a grid step away from the grid point
`n * 2^(e - 23)` rounds to it. -/
theorem nearest_near {x : ℚ} (n e : ℤ) (he : -126 ≤ e) (hx0 : 0 < x)
    (hx2 : x < 2 ^ (e + 1)) (hx1 : 2 ^ e ≤ x ∨ e = -126)
    (hnear : 2 * |x / 2 ^ (e - 23) - n| < 1) :
    Binary32.nearest x = n * 2 ^ (e - 23) := by
  unfold Binary32.nearest Binary32.ulp
  rw [exponent_eq hx0 he hx2 hx1, round_half_even_near n hnear]

theorem lit_seven_fifths : Binary32.lit (7 / 5) = Binary32.fin (11744051 / 8388608) := by
  rw [(lit_small (by norm_num) (by norm_num)).1,
    nearest_near 11744051 0 (by norm_num) (by norm_num) (by norm_num)
      (Or.inl (by norm_num)) (by norm_num [abs_of_pos])]
  norm_num

theorem lit_three_tenths : Binary32.lit (3 / 10) = Binary32.fin (5033165 / 16777216) := by
  rw [(lit_small (by norm_num) (by norm_num)).1,
    nearest_near 10066330 (-2) (by norm_num) (by norm_num) (by norm_num)
      (Or.inl (by norm_num)) (by norm_num [abs_of_pos])]
  norm_num

/-- C5 as stated fails in two ways.  Overkill: from 50/100, `apply_damage(100)`
clamps the health at 0 and `heal(100)` ends at 100, not 50.  Rounding: from
health `1.4f = 11744051 / 2^23` (of 100), `apply_damage(0.3f)` then
`heal(0.3f)`, with `0.3f = 5033165 / 2^24`, ends at
`5872025 / 2^22 = 1.39999986`, one unit in the last place below `1.4f`,
because both the difference and the sum fall halfway between two `float`
values and round to the even one. -/
theorem damage_then_heal_counterexample :
    (((⟨Binary32.fin 100, Binary32.fin 50⟩ : OnFloat.HealthComponent).apply_damage
      (Binary32.fin 100) none).state.heal (Binary32.fin 100)).1.current_health =
      Binary32.fin 100 ∧
    OnFloat.std_min (Binary32.fin 50) (Binary32.fin 100) = Binary32.fin 50 ∧
    Binary32.lit (7 / 5) = Binary32.fin (11744051 / 8388608) ∧
    Binary32.lit (3 / 10) = Binary32.fin (5033165 / 16777216) ∧
    (((⟨Binary32.fin 100, Binary32.fin (11744051 / 8388608)⟩ :
      OnFloat.HealthComponent).apply_damage
      (Binary32.fin (5033165 / 16777216)) none).state.heal
      (Binary32.fin (5033165 / 16777216))).1.current_health =
      Binary32.fin (5872025 / 4194304) ∧
    OnFloat.std_min (Binary32.fin (11744051 / 8388608)) (Binary32.fin 100) =
      Binary32.fin (11744051 / 8388608) := by
  have hfh : Binary32.IsFloat (Binary32.fin (11744051 / 8388608)) :=
    isFloat_grid 11744051 0 (by norm_num) (by norm_num) (by norm_num) (by norm_num)
      (Or.inl (by norm_num)) (by norm_num)
  refine ⟨?_, ?_, lit_seven_fifths, lit_three_tenths, ?_, ?_⟩
  · rw [health_round_trip_overkill _ 50 _ none rfl isFloat_hundred
      (by simp [Binary32.lt]; norm_num) (by norm_num)]
    simp [OnFloat.std_min, Binary32.lt]
  · simp [OnFloat.std_min, Binary32.lt]
    norm_num
  · rw [health_round_trip_within _ (11744051 / 8388608) (5033165 / 16777216) none
      ⟨isFloat_hundred, hfh⟩ rfl (by norm_num) (by norm_num)]
    have e1 : Binary32.nearest (11744051 / 8388608 - 5033165 / 16777216) =
        9227468 / 8388608 := by
      rw [nearest_tie_even 9227468 0 (by norm_num) (by norm_num) (by norm_num)
        (Or.inl (by norm_num)) (by norm_num) (by norm_num)]
      norm_num
    have e2 : Binary32.nearest ((9227468 : ℚ) / 8388608 + 5033165 / 16777216) =
        5872025 / 4194304 := by
      rw [nearest_tie_even 11744050 0 (by norm_num) (by norm_num) (by norm_num)
        (Or.inl (by norm_num)) (by norm_num) (by norm_num)]
      norm_num
    rw [e1]
    unfold Binary32.round
    rw [e2]
    norm_num [OnFloat.std_min, Binary32.lt]
  · simp [OnFloat.std_min, Binary32.lt]
    norm_num

/-- C5, amended.  For every component holding `float` values with finite
health `h` in range (`0 <= h <= max_health`) and every `float` amount `a`,
`apply_damage(a)` followed by `heal(a)` leaves `current_health` at
`min(h, max_health) = h` when `a < 0`, and when `0 <= a <= h` and the
difference `h - a` is a `float` (the subtraction does not round); for
`0 <= a <= h` in general it leaves `min(max_health, fl(fl(h - a) + a))`, `fl`
being the rounding of `float`; for `a > h` the damage is clamped at 0 and the
pair ends at `min(max_health, a)`. -/
theorem damage_then_heal (s : OnFloat.HealthComponent) (h : ℚ) (a : Binary32)
    (source : Option ObjectId) (hs : s.Valid) (hr : s.InRange)
    (hh : s.current_health = Binary32.fin h) (ha : Binary32.IsFloat a) :
    OnFloat.std_min s.max_health (Binary32.fin h) = Binary32.fin h ∧
    (Binary32.lt a (Binary32.fin 0) = true →
      ((s.apply_damage a source).state.heal a).1.current_health = Binary32.fin h) ∧
    (∀ q, a = Binary32.fin q → 0 ≤ q → q ≤ h →
      ((s.apply_damage a source).state.heal a).1.current_health =
        OnFloat.std_min s.max_health (Binary32.round (Binary32.nearest (h - q) + q)) ∧
      (Binary32.nearest (h - q) = h - q →
        ((s.apply_damage a source).state.heal a).1.current_health = Binary32.fin h)) ∧
    (Binary32.lt (Binary32.fin h) a = true →
      ((s.apply_damage a source).state.heal a).1.current_health =
        OnFloat.std_min s.max_health a) := by
  have hf : Binary32.IsFloat (Binary32.fin h) := hh ▸ hs.2
  have h0 : Binary32.le (Binary32.fin 0) (Binary32.fin h) = true := hh ▸ hr.1
  have hm : Binary32.le (Binary32.fin h) s.max_health = true := hh ▸ hr.2
  refine ⟨std_min_of_le hm, fun hneg => health_round_trip_negative s h a source hs hr hh hneg,
    fun q hq hq0 hqh => ?_, fun hlt => ?_⟩
  · subst hq
    have hform := health_round_trip_within s h q source hs hh hq0 hqh
    refine ⟨hform, fun hexact => ?_⟩
    rw [hform, hexact, sub_add_cancel, round_of_float hf]
    exact std_min_of_le hm
  · exact health_round_trip_overkill s h a source hh ha hlt
      (by simpa [Binary32.le] using h0)

/-- The amended statement of C5 on 100/100: damage 30 then heal 30 returns to
100, the difference 70 being a `float`. -/
theorem damage_then_heal_witness :
    (((⟨Binary32.fin 100, Binary32.fin 100⟩ : OnFloat.HealthComponent).apply_damage
      (Binary32.fin 30) none).state.heal (Binary32.fin 30)).1.current_health =
      Binary32.fin 100 :=
  have hf30 : Binary32.IsFloat (Binary32.fin 30) :=
    isFloat_grid 15728640 4 (by norm_num) (by norm_num) (by norm_num) (by norm_num)
      (Or.inl (by norm_num)) (by norm_num)
  have hf70 : Binary32.IsFloat (Binary32.fin 70) :=
    isFloat_grid 9175040 6 (by norm_num) (by norm_num) (by norm_num) (by norm_num)
      (Or.inl (by norm_num)) (by norm_num)
  ((damage_then_heal ⟨Binary32.fin 100, Binary32.fin 100⟩ 100 (Binary32.fin 30) none
    ⟨isFloat_hundred, isFloat_hundred⟩ ⟨by simp [Binary32.le], by simp [Binary32.le]⟩ rfl
    hf30).2.2.1 30 rfl (by norm_num) (by norm_num)).2
    (by rw [show (100 : ℚ) - 30 = 70 by norm_num]; exact hf70.1)

/-! ## The attack stats over `float` -/

theorem std_max_cases (c v : Binary32) :
    (OnFloat.std_max c v = v ∧ Binary32.lt c v = true) ∨
    (OnFloat.std_max c v = c ∧ Binary32.lt c v = false) := by
  unfold OnFloat.std_max
  by_cases h : Binary32.lt c v = true
  · left
    rw [if_pos h]
    exact ⟨rfl, h⟩
  · right
    rw [if_neg h]
    exact ⟨rfl, by simpa using h⟩

theorem std_max_floor {c : Binary32} (v : Binary32) (hc : c ≠ Binary32.nan) :
    Binary32.le c (OnFloat.std_max c v) = true := by
  rcases std_max_cases c v with ⟨h1, h2⟩ | ⟨h1, -⟩
  · rw [h1]
    exact b32_lt_le h2
  · rw [h1]
    exact b32_le_refl hc

theorem std_max_isFloat {c v : Binary32} (hc : Binary32.IsFloat c) (hv : Binary32.IsFloat v) :
    Binary32.IsFloat (OnFloat.std_max c v) := by
  rcases std_max_cases c v with ⟨h1, -⟩ | ⟨h1, -⟩
  · rw [h1]
    exact hv
  · rw [h1]
    exact hc

theorem b32_lt_of_lt_of_le {a b c : Binary32} (h1 : Binary32.lt a b = true)
    (h2 : Binary32.le b c = true) : Binary32.lt a c = true := by
  cases a <;> cases b <;> cases c <;> simp_all [Binary32.lt, Binary32.le]
  exact lt_of_lt_of_le h1 h2

theorem b32_div_fin {a b : ℚ} (hb : b ≠ 0) :
    Binary32.div (Binary32.fin a) (Binary32.fin b) = Binary32.round (a / b) := by
  simp [Binary32.div, hb]

theorem b32_div_inf_fin {b : ℚ} (hb : 0 ≤ b) :
    Binary32.div Binary32.pos_inf (Binary32.fin b) = Binary32.pos_inf := by
  simp [Binary32.div, not_lt.2 hb]

theorem lit_tenth :
    Binary32.lit (1 / 10) = Binary32.fin (Binary32.nearest (1 / 10)) ∧
    (2 : ℚ) ^ (-4 : ℤ) ≤ Binary32.nearest (1 / 10) := by
  refine ⟨(lit_small (by norm_num) (by norm_num)).1, ?_⟩
  have := nearest_mono (x := (2 : ℚ) ^ (-4 : ℤ)) (y := 1 / 10) (by positivity) (by norm_num)
  rw [nearest_two_zpow (by norm_num)] at this
  exact this

theorem lit_tenth_ne_nan : Binary32.lit (1 / 10) ≠ Binary32.nan := by
  rw [lit_tenth.1]
  simp

theorem lit_le_lit {p q : ℚ} (h0 : 0 ≤ p) (hpq : p ≤ q) (h1 : q ≤ 2 ^ 127) :
    Binary32.le (Binary32.lit p) (Binary32.lit q) = true := by
  rw [(lit_small h0 (le_trans hpq h1)).1, (lit_small (le_trans h0 hpq) h1).1]
  simpa [Binary32.le] using nearest_mono h0 hpq

theorem attack_initial_floors : OnFloat.AttackComponent.initial.Floors := by
  unfold OnFloat.AttackComponent.Floors OnFloat.AttackComponent.initial
  refine ⟨lit_le_lit (by norm_num) (by norm_num) (by norm_num),
    lit_le_lit (by norm_num) (by norm_num) (by norm_num), ?_,
    lit_le_lit (by norm_num) (by norm_num) (by norm_num),
    lit_le_lit (by norm_num) (by norm_num) (by norm_num),
    lit_le_lit (by norm_num) (by norm_num) (by norm_num)⟩
  show Binary32.IsFloat (Binary32.lit 100)
  rw [lit_hundred]
  exact isFloat_hundred

theorem apply_setter_floors (s : OnFloat.AttackComponent) (c : OnFloat.StatSetter)
    (hc : c.IsFloat) (h : s.Floors) : (s.apply_setter c).Floors := by
  obtain ⟨h1, h2, h3, h4, h5, h6⟩ := h
  have hz : Binary32.lit 0 ≠ Binary32.nan := by rw [lit_zero]; simp
  have ho : Binary32.lit 1 ≠ Binary32.nan := by rw [lit_one]; simp
  cases c with
  | set_base_attack_time bat => exact ⟨std_max_floor bat lit_tenth_ne_nan, h2, h3, h4, h5, h6⟩
  | set_attack_speed speed =>
    exact ⟨h1, std_max_floor speed ho,
      std_max_isFloat (by rw [lit_one]; exact isFloat_one) hc, h4, h5, h6⟩
  | set_attack_point seconds => exact ⟨h1, h2, h3, h4, h5, h6⟩
  | set_attack_range range => exact ⟨h1, h2, h3, h4, std_max_floor range lit_tenth_ne_nan, h6⟩
  | set_attack_damage damage => exact ⟨h1, h2, h3, std_max_floor damage hz, h5, h6⟩
  | set_delivery_type ty =>
    show (OnFloat.AttackComponent.set_delivery_type s ty).Floors
    unfold OnFloat.AttackComponent.set_delivery_type
    split_ifs <;> exact ⟨h1, h2, h3, h4, h5, h6⟩
  | set_projectile_speed speed =>
    exact ⟨h1, h2, h3, h4, h5, std_max_floor speed lit_tenth_ne_nan⟩
  | set_projectile_scene scene => exact ⟨h1, h2, h3, h4, h5, h6⟩

theorem apply_setters_floors (calls : List OnFloat.StatSetter) :
    ∀ s : OnFloat.AttackComponent, (∀ c ∈ calls, OnFloat.StatSetter.IsFloat c) → s.Floors →
      (s.apply_setters calls).Floors := by
  induction calls with
  | nil => intro s _ h; exact h
  | cons c rest ih =>
    intro s hc h
    exact ih (s.apply_setter c) (fun d hd => hc d (List.mem_cons_of_mem c hd))
      (apply_setter_floors s c (hc c (List.mem_cons_self c rest)) h)

theorem floors_in_domain {s : OnFloat.AttackComponent} (h : s.Floors) : s.StatsInDomain := by
  obtain ⟨h1, h2, -, h4, h5, h6⟩ := h
  have ht : Binary32.lt (Binary32.fin 0) (Binary32.lit (1 / 10)) = true := by
    rw [lit_tenth.1]
    have h := lit_tenth.2
    have : (0 : ℚ) < 2 ^ (-4 : ℤ) := by positivity
    simp [Binary32.lt]
    linarith
  have h01 : Binary32.lt (Binary32.fin 0) (Binary32.lit 1) = true := by
    rw [lit_one]
    simp [Binary32.lt]
  refine ⟨?_, b32_lt_le (b32_lt_of_lt_of_le ht h6), b32_lt_of_lt_of_le ht h5,
    b32_lt_of_lt_of_le ht h1, b32_lt_of_lt_of_le h01 h2⟩
  rw [← lit_zero]
  exact h4

/-- The divisor `attack_speed / 100.0f` for a finite `attack_speed`: a finite
number between `2^-7` and `2^122`. -/
theorem attack_speed_factor_finite {s : OnFloat.AttackComponent} {v : ℚ} (h : s.Floors)
    (hv : s.attack_speed = Binary32.fin v) :
    s.attack_speed_factor = Binary32.fin (Binary32.nearest (v / 100)) ∧
    (2 : ℚ) ^ (-7 : ℤ) ≤ Binary32.nearest (v / 100) ∧
    Binary32.nearest (v / 100) ≤ 2 ^ (122 : ℤ) := by
  obtain ⟨-, h2, h3, -⟩ := h
  rw [hv] at h2 h3
  rw [lit_one] at h2
  have hv1 : 1 ≤ v := by simpa [Binary32.le] using h2
  have hv128 : v < 2 ^ 128 := (abs_lt.1 h3.2).2
  have hlo : (2 : ℚ) ^ (-7 : ℤ) ≤ Binary32.nearest (v / 100) := by
    have hx : (2 : ℚ) ^ (-7 : ℤ) ≤ v / 100 := by
      rw [le_div_iff₀ (by norm_num)]
      have : (2 : ℚ) ^ (-7 : ℤ) * 100 ≤ 1 := by norm_num
      linarith
    have := nearest_mono (by positivity) hx
    rw [nearest_two_zpow (by norm_num)] at this
    exact this
  have hhi : Binary32.nearest (v / 100) ≤ 2 ^ (122 : ℤ) := by
    have hx : v / 100 ≤ (2 : ℚ) ^ (122 : ℤ) := by
      rw [div_le_iff₀ (by norm_num)]
      have : (2 : ℚ) ^ (128 : ℕ) ≤ 2 ^ (122 : ℤ) * 100 := by norm_num
      linarith
    have := nearest_mono (by positivity) hx
    rw [nearest_two_zpow (by norm_num)] at this
    exact this
  refine ⟨?_, hlo, hhi⟩
  unfold OnFloat.AttackComponent.attack_speed_factor
  rw [hv, lit_hundred]
  rw [b32_div_fin (by norm_num)]
  rcases round_of_nonneg (by positivity : (0 : ℚ) ≤ v / 100) with h | ⟨h, -⟩
  · exfalso
    unfold Binary32.round at h
    split_ifs at h with h5
    have : (2 : ℚ) ^ (122 : ℤ) < 2 ^ 128 := by norm_num
    linarith
  · exact h

/-- With a finite `attack_speed` the interval is above zero. -/
theorem attack_interval_pos {s : OnFloat.AttackComponent} {v : ℚ} (h : s.Floors)
    (hv : s.attack_speed = Binary32.fin v) :
    Binary32.lt (Binary32.fin 0) s.get_attack_interval = true := by
  obtain ⟨hf, hlo, hhi⟩ := attack_speed_factor_finite h hv
  have hfpos : 0 < Binary32.nearest (v / 100) :=
    lt_of_lt_of_le (by positivity) hlo
  have hb := h.1
  rw [lit_tenth.1] at hb
  unfold OnFloat.AttackComponent.get_attack_interval
  rw [hf]
  cases hbase : s.base_attack_time with
  | nan => rw [hbase] at hb; simp [Binary32.le] at hb
  | neg_inf => rw [hbase] at hb; simp [Binary32.le] at hb
  | pos_inf =>
    rw [b32_div_inf_fin hfpos.le]
    rfl
  | fin b =>
    rw [hbase] at hb
    have hb4 : (2 : ℚ) ^ (-4 : ℤ) ≤ b := by
      have : Binary32.nearest (1 / 10) ≤ b := by simpa [Binary32.le] using hb
      exact le_trans lit_tenth.2 this
    rw [b32_div_fin hfpos.ne']
    have hq : (2 : ℚ) ^ (-126 : ℤ) ≤ b / Binary32.nearest (v / 100) := by
      rw [le_div_iff₀ hfpos]
      calc (2 : ℚ) ^ (-126 : ℤ) * Binary32.nearest (v / 100)
          ≤ 2 ^ (-126 : ℤ) * 2 ^ (122 : ℤ) :=
            mul_le_mul_of_nonneg_left hhi (by positivity)
        _ = 2 ^ (-4 : ℤ) := by rw [← zpow_add₀ (by norm_num)]; norm_num
        _ ≤ b := hb4
    have hn : (2 : ℚ) ^ (-126 : ℤ) ≤ Binary32.nearest (b / Binary32.nearest (v / 100)) := by
      have := nearest_mono (by positivity) hq
      rw [nearest_two_zpow (by norm_num)] at this
      exact this
    have hpos : (0 : ℚ) < Binary32.nearest (b / Binary32.nearest (v / 100)) :=
      lt_of_lt_of_le (by positivity) hn
    rcases round_of_nonneg (le_trans (by positivity) hq) with h | ⟨h, -⟩
    · rw [h]
      rfl
    · rw [h]
      simpa [Binary32.lt] using hpos

/-- With `attack_speed = +inf` the divisor is `+inf` and the interval is 0, or
NaN when `base_attack_time` is `+inf` as well: not above zero. -/
theorem attack_interval_of_inf {s : OnFloat.AttackComponent}
    (hv : s.attack_speed = Binary32.pos_inf) :
    s.attack_speed_factor = Binary32.pos_inf ∧
    Binary32.lt (Binary32.fin 0) s.get_attack_interval = false ∧
    (∀ b, s.base_attack_time = Binary32.fin b → s.get_attack_interval = Binary32.fin 0) := by
  have hf : s.attack_speed_factor = Binary32.pos_inf := by
    unfold OnFloat.AttackComponent.attack_speed_factor
    rw [hv, lit_hundred]
    exact b32_div_inf_fin (by norm_num)
  refine ⟨hf, ?_, ?_⟩
  · unfold OnFloat.AttackComponent.get_attack_interval
    rw [hf]
    cases hbase : s.base_attack_time <;> rfl
  · intro b hbase
    unfold OnFloat.AttackComponent.get_attack_interval
    rw [hf, hbase]
    rfl

/-- C7 as stated fails for an infinite argument: `set_attack_speed(+inf)` on
the default stats stores `+inf` (`std::max(1.0f, +inf)`).  The five bounds
still hold, but `attack_speed / 100.0f` is `+inf` and `get_attack_interval`
returns `1.7f / +inf = 0`, which is not above zero. -/
theorem attack_speed_inf_counterexample :
    (OnFloat.AttackComponent.initial.set_attack_speed Binary32.pos_inf).attack_speed =
      Binary32.pos_inf ∧
    (OnFloat.AttackComponent.initial.set_attack_speed Binary32.pos_inf).StatsInDomain ∧
    (OnFloat.AttackComponent.initial.set_attack_speed Binary32.pos_inf).get_attack_interval =
      Binary32.fin 0 ∧
    Binary32.lt (Binary32.fin 0)
      (OnFloat.AttackComponent.initial.set_attack_speed
        Binary32.pos_inf).get_attack_interval = false := by
  have hfl : (OnFloat.AttackComponent.initial.set_attack_speed Binary32.pos_inf).Floors :=
    apply_setter_floors OnFloat.AttackComponent.initial
      (OnFloat.StatSetter.set_attack_speed Binary32.pos_inf) trivial attack_initial_floors
  have hsp : (OnFloat.AttackComponent.initial.set_attack_speed Binary32.pos_inf).attack_speed =
      Binary32.pos_inf := by
    show OnFloat.std_max (Binary32.lit 1) Binary32.pos_inf = Binary32.pos_inf
    rw [lit_one]
    rfl
  have hbase : (OnFloat.AttackComponent.initial.set_attack_speed
      Binary32.pos_inf).base_attack_time = Binary32.fin (Binary32.nearest (17 / 10)) :=
    (lit_small (by norm_num) (by norm_num)).1
  have h := attack_interval_of_inf hsp
  exact ⟨hsp, floors_in_domain hfl, h.2.2 _ hbase, h.2.1⟩

/-- C7, amended.  Starting from the default stats and after any sequence of
stat setter calls with arbitrary `float` arguments (NaN and the infinities
included), `attack_damage >= 0`, `projectile_speed >= 0`, `attack_range > 0`,
`base_attack_time > 0` and `attack_speed > 0`; hence the divisor
`attack_speed / 100.0f` of `get_attack_interval` is never zero.  The interval
is above zero exactly when `attack_speed` is finite; after
`set_attack_speed(+inf)` the stored `attack_speed` is `+inf` and the interval
is 0 for a finite `base_attack_time`. -/
theorem stats_stay_in_domain (calls : List OnFloat.StatSetter)
    (hcalls : ∀ c ∈ calls, OnFloat.StatSetter.IsFloat c) :
    (OnFloat.AttackComponent.initial.apply_setters calls).StatsInDomain ∧
    (OnFloat.AttackComponent.initial.apply_setters calls).attack_speed_factor ≠
      Binary32.fin 0 ∧
    (Binary32.lt (Binary32.fin 0)
        (OnFloat.AttackComponent.initial.apply_setters calls).get_attack_interval = true ↔
      (OnFloat.AttackComponent.initial.apply_setters calls).attack_speed ≠
        Binary32.pos_inf) ∧
    ((OnFloat.AttackComponent.initial.apply_setters calls).attack_speed = Binary32.pos_inf →
      ∀ b, (OnFloat.AttackComponent.initial.apply_setters calls).base_attack_time =
          Binary32.fin b →
        (OnFloat.AttackComponent.initial.apply_setters calls).get_attack_interval =
          Binary32.fin 0) := by
  have hfl := apply_setters_floors calls OnFloat.AttackComponent.initial hcalls
    attack_initial_floors
  refine ⟨floors_in_domain hfl, ?_, ?_, fun hinf => (attack_interval_of_inf hinf).2.2⟩
  · cases hsp : (OnFloat.AttackComponent.initial.apply_setters calls).attack_speed with
    | nan => have := hfl.2.1; rw [hsp] at this; simp [Binary32.le] at this
    | neg_inf =>
      have := hfl.2.1
      rw [hsp, lit_one] at this
      simp [Binary32.le] at this
    | pos_inf =>
      rw [(attack_interval_of_inf hsp).1]
      simp
    | fin v =>
      obtain ⟨hf, hlo, -⟩ := attack_speed_factor_finite hfl hsp
      rw [hf]
      intro h
      have h0 : Binary32.nearest (v / 100) = 0 := by simpa using h
      rw [h0] at hlo
      have : (0 : ℚ) < 2 ^ (-7 : ℤ) := by positivity
      linarith
  · cases hsp : (OnFloat.AttackComponent.initial.apply_setters calls).attack_speed with
    | nan => have := hfl.2.1; rw [hsp] at this; simp [Binary32.le] at this
    | neg_inf =>
      have := hfl.2.1
      rw [hsp, lit_one] at this
      simp [Binary32.le] at this
    | pos_inf =>
      rw [(attack_interval_of_inf hsp).2.1]
      simp
    | fin v =>
      rw [attack_interval_pos hfl hsp]
      simp

/-- The amended statement of C7 on three calls with a NaN, an infinite and a
finite argument: the bounds hold and, `attack_speed` being the finite 200, the
interval is above zero. -/
theorem stats_stay_in_domain_witness :
    (OnFloat.AttackComponent.initial.apply_setters
      [OnFloat.StatSetter.set_base_attack_time Binary32.nan,
       OnFloat.StatSetter.set_attack_range Binary32.neg_inf,
       OnFloat.StatSetter.set_attack_speed (Binary32.fin 200)]).StatsInDomain ∧
    Binary32.lt (Binary32.fin 0)
      (OnFloat.AttackComponent.initial.apply_setters
        [OnFloat.StatSetter.set_base_attack_time Binary32.nan,
         OnFloat.StatSetter.set_attack_range Binary32.neg_inf,
         OnFloat.StatSetter.set_attack_speed (Binary32.fin 200)]).get_attack_interval = true :=
  have hf200 : Binary32.IsFloat (Binary32.fin 200) :=
    isFloat_grid 13107200 7 (by norm_num) (by norm_num) (by norm_num) (by norm_num)
      (Or.inl (by norm_num)) (by norm_num)
  have h := stats_stay_in_domain
    [OnFloat.StatSetter.set_base_attack_time Binary32.nan,
     OnFloat.StatSetter.set_attack_range Binary32.neg_inf,
     OnFloat.StatSetter.set_attack_speed (Binary32.fin 200)]
    (by
      intro c hc
      simp only [List.mem_cons, List.mem_singleton, List.not_mem_nil, or_false] at hc
      rcases hc with rfl | rfl | rfl
      · trivial
      · trivial
      · exact hf200)
  ⟨h.1, h.2.2.1.2 (by
    show OnFloat.std_max (Binary32.lit 1) (Binary32.fin 200) ≠ Binary32.pos_inf
    rw [lit_one]
    simp [OnFloat.std_max, Binary32.lt])⟩

end RpgGame
